import Mathlib

/-!
# StateOS: counting semaphore, task life cycle and task flag events

A shallow embedding of `kernel/src/ossemaphore.c` and of `kernel/src/ostask.c`
(life cycle: init, start, detach, join, stop, kill, delete, sleep, suspend,
resume; flag events: wait, give), and a verification of their contracts.

* Kernel memory is the record `System`: the `System` singleton of the C code
  (`cur`, `dly`, `wai`, ready list, timer list) together with the memory that
  holds the task records (`tsk`) and the semaphore records (`sem`).  A C pointer
  `tsk_t *` / `sem_t *` is an index into `tsk` / `sem`; a null task pointer is
  `none`.
* The intrusive chain of waiters hanging off `obj.queue` is a `List Nat` of
  task indices, head first.
* `sys_lock()` / `sys_unlock()` bracket every body; on the single core the body
  is one atomic state transformer, which is what each definition is.
* A service that suspends its caller yields `Ret.blocked`; the value the C call
  returns once the caller runs again is the `event` field of its record
  (`Ret.value`).
* `assert(...)` lines are preconditions; they appear as hypotheses of the
  theorems (`assert(sem->limit)` is `1 ≤ limit`).
* `unsigned` is 32 bits wide.  `count--` runs only under `count > 0` and
  `count++` only under `count < limit`, so neither can wrap and both are written
  on `Nat` directly; the complement `~flags` is taken on 32 bits.
* The queue layer (`core_tsk_wakeup`, `core_all_wakeup`, `core_tsk_waitFor`,
  ...) is not among the sources; it is modelled from the specification.
* Which task runs is decided by the port layer; `dispatch` makes a task the
  current one.
* `tsk_join` suspends its caller in the middle of its body: `tsk_join` is the
  body up to the suspension, `tsk_join_resumed` the rest, run when the caller
  is current again.
* A call that takes the running task off the ready list hands the processor
  over and does not come back: `tsk_stop` ends there, and `tsk_delete` of the
  caller itself does not reach its `tsk_detach` (`tsk_kill_returns`).
* The storage of a task is the field `res`: `Res.static`, `Res.owned` (the
  self-pointer of the C code) or `Res.released`.
-/

namespace StateOS

/-! ## Constants -/

/-- Modelled from the spec: the event codes, which the headers (not among the
sources) define; section 6 lists them in this order starting from
`SUCCESS = 0`. -/
def E_SUCCESS : Nat := 0

/-- Modelled from the spec: event code `FAILURE` (second in the list of section 6). -/
def E_FAILURE : Nat := 1

/-- Modelled from the spec: event code `STOPPED` (third in the list of section 6). -/
def E_STOPPED : Nat := 2

/-- Modelled from the spec: event code `TIMEOUT` (fourth in the list of section 6). -/
def E_TIMEOUT : Nat := 3

/-- Modelled from the spec: event code `DELETED` (fifth in the list of section 6). -/
def E_DELETED : Nat := 4

/-- Modelled from the spec: event code `OWNERDEAD` (sixth in the list of section 6). -/
def OWNERDEAD : Nat := 5

/-- Modelled from the spec: the mode bit `mtxRobust` that `tsk_kill` reads.  The
header defining it is not among the sources; it is taken to be a single bit,
different from `mtxInconsistent`. -/
def mtxRobust : Nat := 16

/-- Modelled from the spec: the mode bit `mtxInconsistent` that `tsk_kill`
writes; a single bit, different from `mtxRobust`. -/
def mtxInconsistent : Nat := 32

/-- Modelled from the spec: task id `STOPPED = 0`. -/
def ID_STOPPED : Nat := 0

/-- Modelled from the spec: task id `READY` (follows `STOPPED`). -/
def ID_READY : Nat := 1

/-- Modelled from the spec: task id `BLOCKED` (follows `READY`). -/
def ID_BLOCKED : Nat := 2

/-- Number of values of the C type `unsigned`. -/
def UINT_SIZE : Nat := 2 ^ 32

/-- Modelled from the spec: the sentinel `INFINITE` ("no timeout"), taken as the
largest value of `cnt_t`. -/
def INFINITE : Nat := UINT_SIZE - 1

/-- The C operator `~` on an `unsigned` operand. -/
def bnot32 (x : Nat) : Nat := (UINT_SIZE - 1) ^^^ (x % UINT_SIZE)

/-! ## Data model -/

/-- What `tsk->guard` can point to: the address of a wait queue. -/
inductive Queue where
  | dly                 -- `&System.dly`
  | wai                 -- `&System.wai`
  | join (t : Nat)      -- `&tsk->join` of task `t`
  | obj (o : Nat)       -- `&sem->obj.queue` of semaphore `o`
  | mtx (m : Nat)       -- `&mtx->obj.queue` of mutex `m`
deriving DecidableEq, Repr

/-- The field `tsk->join`: the sentinel `DETACHED`, or the (possibly empty)
chain of tasks waiting for termination; `JOINABLE` is the null pointer, the
empty chain. -/
inductive Join where
  | detached
  | slot (q : List Nat)
deriving DecidableEq, Repr

/-- The value `JOINABLE` of `tsk->join`. -/
def JOINABLE : Join := Join.slot []

/-- The head of the chain in `tsk->join`, as passed to `core_tsk_wakeup`: the
first waiting task, or null for `JOINABLE`.  The code never passes `DETACHED`. -/
def Join.head : Join → Option Nat
  | Join.slot q => q.head?
  | Join.detached => none

/-- The field `hdr.obj.res`: null for a statically declared object, the
self-pointer for storage owned by the kernel, or the sentinel `RELEASED`. -/
inductive Res where
  | static
  | owned
  | released
deriving DecidableEq, Repr

/-- A task function (`fun_t *`): the two functions the idle task runs, or a
function of the application. -/
inductive fun_t where
  | core_tsk_idle
  | priv_tsk_terminator
  | user (f : Nat)
deriving DecidableEq, Repr

/-- The fields of `tsk_t` used by the code below.  `tsk_init` clears the record
with `memset`, hence the defaults.  The field `event` holds the wake-up reason
that `core_tsk_wakeup` "delivers" to a waiter (section 4.3 of the
specification); the blocking call returns it. -/
structure tsk_t where
  id    : Nat := 0              -- `hdr.id`
  prio  : Nat := 0
  basic : Nat := 0
  join  : Join := Join.slot []
  guard : Option Queue := none
  start : Nat := 0
  delay : Nat := 0
  event : Nat := 0              -- wake-up reason delivered to the task
  flags : Nat := 0              -- `tmp.flg.flags`
  res   : Res := Res.static     -- `hdr.obj.res`
  state : Option fun_t := none  -- entry function, null in a cleared record
  ctx   : Option fun_t := none  -- initial frame built by `core_ctx_init`, if any
  mtx_list : List Nat := []     -- `mtx.list`: the mutexes the task owns
  mtx_tree : Option Nat := none -- `mtx.tree`
deriving DecidableEq, Repr

/-- The record `sem_t`: `count`, `limit` and the head of the wait queue
(`obj.queue`). -/
structure sem_t where
  count : Nat := 0
  limit : Nat := 0
  queue : List Nat := []
deriving DecidableEq, Repr

/-- The fields of `mtx_t` used by `tsk_kill`: the mode bits, the owner and the
chain of tasks blocked on the mutex (`obj.queue`).  The link `mtx->list` of the
owner's chain is the list `mtx_list` of the owning task. -/
structure mtx_t where
  mode  : Nat := 0
  owner : Option Nat := none
  queue : List Nat := []
deriving DecidableEq, Repr

/-- Kernel memory: the `System` singleton (`cur`, `dly`, `wai`), the ready list,
the tick counter and the timer list of the core queues (section 2 of the
specification), the two fields of the idle task `IDLE` that the task code uses
(`IDLE.state` and the chain of corpses `IDLE.hdr.obj.queue`), and the task,
semaphore and mutex records. -/
structure System where
  cur : Nat                     -- `System.cur`
  cnt : Nat                     -- tick counter read by the timeout machinery
  dly : List Nat                -- `System.dly`
  wai : List Nat                -- `System.wai`
  rdy : List Nat                -- ready list, highest priority first
  tmr : List Nat                -- tasks with an armed timeout
  tsk : Nat → tsk_t
  sem : Nat → sem_t
  mtx : Nat → mtx_t
  corpses : List Nat            -- `IDLE.hdr.obj.queue`
  idle_state : fun_t            -- `IDLE.state`

/-- Store `v` in task record `t`. -/
def setTsk (k : System) (t : Nat) (v : tsk_t) : System :=
  { k with tsk := Function.update k.tsk t v }

/-- Store `v` in semaphore record `s`. -/
def setSem (k : System) (s : Nat) (v : sem_t) : System :=
  { k with sem := Function.update k.sem s v }

/-- Store `v` in mutex record `m`. -/
def setMtx (k : System) (m : Nat) (v : mtx_t) : System :=
  { k with mtx := Function.update k.mtx m v }

/-- The chain of waiters at queue address `q`. -/
def getQueue (k : System) : Queue → List Nat
  | Queue.dly => k.dly
  | Queue.wai => k.wai
  | Queue.obj o => (k.sem o).queue
  | Queue.mtx m => (k.mtx m).queue
  | Queue.join t =>
    match (k.tsk t).join with
    | Join.slot l => l
    | Join.detached => []

/-- Replace the chain of waiters at queue address `q`. -/
def setQueue (k : System) (q : Queue) (l : List Nat) : System :=
  match q with
  | Queue.dly => { k with dly := l }
  | Queue.wai => { k with wai := l }
  | Queue.obj o => setSem k o { k.sem o with queue := l }
  | Queue.mtx m => setMtx k m { k.mtx m with queue := l }
  | Queue.join t =>
    match (k.tsk t).join with
    | Join.slot _ => setTsk k t { k.tsk t with join := Join.slot l }
    | Join.detached => k

/-- Insert `t` in a priority-ordered chain: behind every entry of higher or
equal priority, before the first entry of lower priority. -/
def prioInsert (prio : Nat → Nat) (t : Nat) : List Nat → List Nat
  | [] => [t]
  | x :: xs => if prio x < prio t then t :: x :: xs else x :: prioInsert prio t xs

/-! ## Queue layer

The queue layer is not among the sources; section 6 of the specification lists
its entry points and sections 4.2, 4.3 and 5 describe what they do. -/

/-- Modelled from the spec: `core_tsk_insert(task)`, absent from the sources.
The task goes on the ready list "at its priority" and its id becomes `READY`.
Whether it preempts the running task is decided at the exit of the critical
section by the port layer. -/
def core_tsk_insert (t : Nat) (k : System) : System :=
  let k1 := setTsk k t { k.tsk t with id := ID_READY }
  { k1 with rdy := prioInsert (fun x => (k1.tsk x).prio) t k1.rdy }

/-- Modelled from the spec: `core_tmr_remove(timer)`, absent from the sources:
"remove any pending timer".  The task is then held by no list of the kernel,
which by the data model's invariant ("`id == STOPPED` iff the task is neither
on ready nor on a wait/delay list") is the id `STOPPED`. -/
def core_tmr_remove (t : Nat) (k : System) : System :=
  let k1 := setTsk k t { k.tsk t with id := ID_STOPPED }
  { k1 with tmr := k1.tmr.filter (fun x => x != t) }

/-- Modelled from the spec: `core_tsk_unlink(task, event)`, absent from the
sources: "unlink from its wait queue with reason" `event`.  The reason is
stored in the task; the task leaves the queue its `guard` points to and the
`guard` goes back to its sentinel. -/
def core_tsk_unlink (t : Nat) (event : Nat) (k : System) : System :=
  let k1 := setTsk k t { k.tsk t with event := event }
  match (k1.tsk t).guard with
  | none => k1
  | some q =>
    let k2 := setQueue k1 q ((getQueue k1 q).filter (fun x => x != t))
    setTsk k2 t { k2.tsk t with guard := none }

/-- Modelled from the spec: `core_tsk_wakeup(queue_or_task, event)`, absent from
the sources: it "delivers" `event` to the task and "returns non-zero if it
actually woke someone".  A null argument wakes nobody and returns 0 (`none`);
otherwise the task is unlinked from its wait queue, its timer is removed, it is
put on the ready list, and the task itself is returned. -/
def core_tsk_wakeup (tsk : Option Nat) (event : Nat) (k : System) : Option Nat × System :=
  match tsk with
  | none => (none, k)
  | some t => (some t, core_tsk_insert t (core_tmr_remove t (core_tsk_unlink t event k)))

/-- Modelled from the spec: `core_all_wakeup(queue, event)`, absent from the
sources: it "wakes all waiters" of the queue with `event`, head first. -/
def core_all_wakeup (q : Queue) (event : Nat) (k : System) : System :=
  (getQueue k q).foldl (fun acc t => (core_tsk_wakeup (some t) event acc).2) k

/-- Outcome of a service that may suspend its caller. -/
inductive Ret where
  | val (event : Nat)   -- the call returned `event` without suspending
  | blocked             -- the caller was suspended inside the call
deriving DecidableEq, Repr

/-- The value a service call hands back to its caller `c`: the immediate
result, or, for a caller that was suspended, the wake-up reason found in its
record in the state `k` in which it runs again. -/
def Ret.value (r : Ret) (c : Nat) (k : System) : Nat :=
  match r with
  | Ret.val e => e
  | Ret.blocked => (k.tsk c).event

/-- Modelled from the spec: the common tail of `core_tsk_waitFor` and
`core_tsk_waitUntil`, absent from the sources: the current task leaves the
ready list, becomes `BLOCKED` with `guard` pointing to the queue, is linked
into the queue by priority (FIFO among equals) and, unless the delay is
`INFINITE`, arms its timeout.  Dispatching the next task is the port layer's
business (`core_ctx_switch`) and is not part of the state transformer. -/
def core_tsk_block (q : Queue) (k : System) : Ret × System :=
  let c := k.cur
  let k1 := { k with rdy := k.rdy.filter (fun x => x != c) }
  let k2 := setTsk k1 c { k1.tsk c with id := ID_BLOCKED, guard := some q }
  let k3 := setQueue k2 q (prioInsert (fun x => (k2.tsk x).prio) c (getQueue k2 q))
  let k4 := if (k3.tsk c).delay = INFINITE then k3 else { k3 with tmr := k3.tmr ++ [c] }
  (Ret.blocked, k4)

/-- Modelled from the spec: `core_tsk_waitFor(queue, delay)`, absent from the
sources: block the current task on the queue "for up to `delay` ticks"; the
call returns "whatever the wakeup reason is". -/
def core_tsk_waitFor (q : Queue) (delay : Nat) (k : System) : Ret × System :=
  let c := k.cur
  core_tsk_block q (setTsk k c { k.tsk c with start := k.cnt, delay := delay })

/-- Modelled from the spec: `core_tsk_waitUntil(queue, time)`, absent from the
sources: block the current task on the queue "until absolute `time`", that is
for `time - now` ticks on the 32-bit tick counter. -/
def core_tsk_waitUntil (q : Queue) (time : Nat) (k : System) : Ret × System :=
  let c := k.cur
  let d := (time % UINT_SIZE + UINT_SIZE - k.cnt % UINT_SIZE) % UINT_SIZE
  core_tsk_block q (setTsk k c { k.tsk c with start := k.cnt, delay := d })

/-! ## ossemaphore.c -/

/-- The function `sem_init` (ossemaphore.c, lines 37-54): clear the record,
then set `count` and `limit`. -/
def sem_init (sem : Nat) (init limit : Nat) (k : System) : System :=
  setSem k sem { count := init, limit := limit, queue := [] }

/-- The function `sem_kill` (ossemaphore.c, lines 76-89): `count = 0`, then
wake every waiter with `E_STOPPED`. -/
def sem_kill (sem : Nat) (k : System) : System :=
  let k1 := setSem k sem { k.sem sem with count := 0 }
  core_all_wakeup (Queue.obj sem) E_STOPPED k1

/-- The function `priv_sem_take` (ossemaphore.c, lines 104-120).  The argument
`sem->obj.queue` of `core_tsk_wakeup` is the head of the wait queue (null when
the queue is empty); `r.1 = none` is the test `== 0` on its result. -/
def priv_sem_take (sem : Nat) (k : System) : Nat × System :=
  if (k.sem sem).count > 0 then
    let r := core_tsk_wakeup (k.sem sem).queue.head? E_SUCCESS k
    let k1 := r.2
    let k2 := if r.1 = none then setSem k1 sem { k1.sem sem with count := (k1.sem sem).count - 1 }
              else k1
    (E_SUCCESS, k2)
  else
    (E_TIMEOUT, k)

/-- The function `sem_take` (ossemaphore.c, lines 123-135). -/
def sem_take (sem : Nat) (k : System) : Nat × System :=
  priv_sem_take sem k

/-- The function `sem_waitFor` (ossemaphore.c, lines 138-155): try to take;
on `E_TIMEOUT` block on the queue of the semaphore. -/
def sem_waitFor (sem : Nat) (delay : Nat) (k : System) : Ret × System :=
  let r := priv_sem_take sem k
  if r.1 = E_TIMEOUT then core_tsk_waitFor (Queue.obj sem) delay r.2
  else (Ret.val r.1, r.2)

/-- The function `sem_waitUntil` (ossemaphore.c, lines 158-175). -/
def sem_waitUntil (sem : Nat) (time : Nat) (k : System) : Ret × System :=
  let r := priv_sem_take sem k
  if r.1 = E_TIMEOUT then core_tsk_waitUntil (Queue.obj sem) time r.2
  else (Ret.val r.1, r.2)

/-- The function `priv_sem_give` (ossemaphore.c, lines 178-194); see
`priv_sem_take` for the reading of `core_tsk_wakeup`. -/
def priv_sem_give (sem : Nat) (k : System) : Nat × System :=
  if (k.sem sem).count < (k.sem sem).limit then
    let r := core_tsk_wakeup (k.sem sem).queue.head? E_SUCCESS k
    let k1 := r.2
    let k2 := if r.1 = none then setSem k1 sem { k1.sem sem with count := (k1.sem sem).count + 1 }
              else k1
    (E_SUCCESS, k2)
  else
    (E_TIMEOUT, k)

/-- The function `sem_give` (ossemaphore.c, lines 197-209). -/
def sem_give (sem : Nat) (k : System) : Nat × System :=
  priv_sem_give sem k

/-- The function `sem_sendFor` (ossemaphore.c, lines 212-229): try to give;
on `E_TIMEOUT` block on the queue of the semaphore. -/
def sem_sendFor (sem : Nat) (delay : Nat) (k : System) : Ret × System :=
  let r := priv_sem_give sem k
  if r.1 = E_TIMEOUT then core_tsk_waitFor (Queue.obj sem) delay r.2
  else (Ret.val r.1, r.2)

/-- The function `sem_sendUntil` (ossemaphore.c, lines 232-249). -/
def sem_sendUntil (sem : Nat) (time : Nat) (k : System) : Ret × System :=
  let r := priv_sem_give sem k
  if r.1 = E_TIMEOUT then core_tsk_waitUntil (Queue.obj sem) time r.2
  else (Ret.val r.1, r.2)

/-- The function `sem_getValue` (ossemaphore.c, lines 252-264). -/
def sem_getValue (sem : Nat) (k : System) : Nat :=
  (k.sem sem).count

/-! ## ostask.c: flag events -/

/-- The function `tsk_waitFor` (ostask.c, lines 377-392): store the mask, then
block on `System.wai`. -/
def tsk_waitFor (flags : Nat) (delay : Nat) (k : System) : Ret × System :=
  let k1 := setTsk k k.cur { k.tsk k.cur with flags := flags }
  core_tsk_waitFor Queue.wai delay k1

/-- The function `tsk_waitUntil` (ostask.c, lines 395-410). -/
def tsk_waitUntil (flags : Nat) (time : Nat) (k : System) : Ret × System :=
  let k1 := setTsk k k.cur { k.tsk k.cur with flags := flags }
  core_tsk_waitUntil Queue.wai time k1

/-- The function `tsk_give` (ostask.c, lines 413-439).  Its assertions (`tsk`
non-null, storage not released) constrain fields that play no part here.  The
local `flags` is overwritten by the assignment
`flags = tsk->tmp.flg.flags &= ~flags`; `fl` is its value afterwards, the one
passed to `core_tsk_wakeup`. -/
def tsk_give (tsk : Nat) (flags : Nat) (k : System) : Nat × System :=
  if (k.tsk tsk).guard = some Queue.wai then
    let hit := ((k.tsk tsk).flags &&& flags) != 0
    let nf := (k.tsk tsk).flags &&& bnot32 flags
    let k1 := if hit then setTsk k tsk { k.tsk tsk with flags := nf } else k
    let fl := if hit then nf else flags
    let k2 := if (k1.tsk tsk).flags = 0 then (core_tsk_wakeup (some tsk) fl k1).2 else k1
    (E_SUCCESS, k2)
  else
    (E_FAILURE, k)

/-! ## Queue layer, allocator and port layer: what the task code needs -/

/-- Modelled from the spec: `core_tsk_remove(task)`, absent from the sources:
"remove from ready list"; the task is then on no list and its id is `STOPPED`
(state machine of section 4.4).  Handing the processor to the next ready task
is the port layer's business. -/
def core_tsk_remove (t : Nat) (k : System) : System :=
  let k1 := setTsk k t { k.tsk t with id := ID_STOPPED }
  { k1 with rdy := k1.rdy.filter (fun x => x != t) }

/-- Modelled from the spec: `core_tsk_suspend(task)`, absent from the sources:
it "removes it from the ready list and parks it with infinite delay"; the
place where it is parked is `System.dly`, where `tsk_resume` looks for it. -/
def core_tsk_suspend (t : Nat) (k : System) : System :=
  let k1 := { k with rdy := k.rdy.filter (fun x => x != t) }
  let k2 := setTsk k1 t { k1.tsk t with id := ID_BLOCKED, guard := some Queue.dly, delay := INFINITE }
  setQueue k2 Queue.dly (prioInsert (fun x => (k2.tsk x).prio) t (getQueue k2 Queue.dly))

/-- Modelled from the spec: `core_res_free(&task->res)`, absent from the
sources: the "if kernel-owned then free and mark RELEASED" idiom.  A null
pointer (static storage) and `RELEASED` are left as they are. -/
def core_res_free (t : Nat) (k : System) : System :=
  match (k.tsk t).res with
  | Res.owned => setTsk k t { k.tsk t with res := Res.released }
  | Res.static => k
  | Res.released => k

/-- Modelled from the spec: `core_ctx_init(task)`, absent from the sources
(port layer): "build initial register frame", the frame from which the task
starts its entry function `state`. -/
def core_ctx_init (t : Nat) (k : System) : System :=
  let v := k.tsk t
  setTsk k t { v with ctx := v.state }

/-- Modelled from the spec: `core_mtx_transferLock(mutex, event)`, absent from
the sources: the hook "for robust-mutex ownership transfer"; a robust mutex
"transfers ownership to a waiter".  The mutex leaves the chain of its owner;
if a task waits for the mutex, the first one is woken with `event`, becomes
the owner and is returned; otherwise the mutex has no owner and the result is
null. -/
def core_mtx_transferLock (m : Nat) (event : Nat) (k : System) : Option Nat × System :=
  let k1 := match (k.mtx m).owner with
    | some o => setTsk k o { k.tsk o with mtx_list := (k.tsk o).mtx_list.filter (fun x => x != m) }
    | none => k
  let r := core_tsk_wakeup (k1.mtx m).queue.head? event k1
  match r.1 with
  | some w =>
    let k2 := setTsk r.2 w { r.2.tsk w with mtx_list := m :: (r.2.tsk w).mtx_list, mtx_tree := none }
    (some w, setMtx k2 m { k2.mtx m with owner := some w })
  | none => (none, setMtx r.2 m { r.2.mtx m with owner := none })

/-! ## ostask.c: life cycle -/

/-- The function `tsk_init` (ostask.c, lines 37-62): clear the record, set
priority and entry function, build the context and put the task on the ready
list.  The stack (`stack`, `size`) is memory layout and is left out;
`core_hdr_init` initialises header fields that are zero in a cleared record. -/
def tsk_init (tsk : Nat) (prio : Nat) (state : fun_t) (k : System) : System :=
  let k1 := setTsk k tsk { prio := prio, basic := prio, state := some state }
  core_tsk_insert tsk (core_ctx_init tsk k1)

/-- The function `wrk_create` (ostask.c, lines 65-83).  The argument `tsk` is the
block that `sys_alloc` returns; the record is marked as owned by the kernel. -/
def wrk_create (tsk : Nat) (prio : Nat) (state : fun_t) (k : System) : System :=
  let k1 := tsk_init tsk prio state k
  setTsk k1 tsk { k1.tsk tsk with res := Res.owned }

/-- The function `wrk_detached` (ostask.c, lines 86-105): as `wrk_create`, and
`join = DETACHED`. -/
def wrk_detached (tsk : Nat) (prio : Nat) (state : fun_t) (k : System) : System :=
  let k1 := tsk_init tsk prio state k
  let k2 := setTsk k1 tsk { k1.tsk tsk with res := Res.owned }
  setTsk k2 tsk { k2.tsk tsk with join := Join.detached }

/-- The function `tsk_start` (ostask.c, lines 108-126). -/
def tsk_start (tsk : Nat) (k : System) : System :=
  if (k.tsk tsk).id = ID_STOPPED ∧ (k.tsk tsk).join ≠ Join.detached then
    core_tsk_insert tsk (core_ctx_init tsk k)
  else k

/-- The function `tsk_startFrom` (ostask.c, lines 129-149). -/
def tsk_startFrom (tsk : Nat) (state : fun_t) (k : System) : System :=
  if (k.tsk tsk).id = ID_STOPPED ∧ (k.tsk tsk).join ≠ Join.detached then
    let k1 := setTsk k tsk { k.tsk tsk with state := some state }
    core_tsk_insert tsk (core_ctx_init tsk k1)
  else k

/-- The function `tsk_detach` (ostask.c, lines 152-182).  In the last branch
`tsk->join` is the first task waiting for the termination, or null. -/
def tsk_detach (tsk : Nat) (k : System) : Nat × System :=
  if (k.tsk tsk).join = Join.detached ∨ (k.tsk tsk).res = Res.static then
    (E_FAILURE, k)
  else if (k.tsk tsk).id = ID_STOPPED then
    (E_SUCCESS, core_res_free tsk k)
  else
    let k1 := (core_tsk_wakeup (k.tsk tsk).join.head E_FAILURE k).2
    (E_SUCCESS, setTsk k1 tsk { k1.tsk tsk with join := Join.detached })

/-- The last statement of `tsk_join` (ostask.c, lines 205-207): with an `event`
other than `E_FAILURE` and the target inactive, release its storage. -/
def tsk_join_reclaim (tsk : Nat) (event : Nat) (k : System) : System :=
  if event ≠ E_FAILURE ∧ (k.tsk tsk).id = ID_STOPPED then core_res_free tsk k else k

/-- The function `tsk_join` (ostask.c, lines 185-212), up to the point where the
caller is suspended: in the first two branches the call runs to its end; in
the third the caller blocks on `&tsk->join` and the call is continued by
`tsk_join_resumed`. -/
def tsk_join (tsk : Nat) (k : System) : Ret × System :=
  if (k.tsk tsk).join ≠ JOINABLE ∨ tsk = k.cur then
    (Ret.val E_FAILURE, tsk_join_reclaim tsk E_FAILURE k)
  else if (k.tsk tsk).id = ID_STOPPED then
    (Ret.val E_SUCCESS, tsk_join_reclaim tsk E_SUCCESS k)
  else
    core_tsk_waitFor (Queue.join tsk) INFINITE k

/-- The function `tsk_join` from the point where the suspended caller (the
current task of `k`) runs again: `core_tsk_waitFor` returns the wake-up
reason, then the last statement runs. -/
def tsk_join_resumed (tsk : Nat) (k : System) : Nat × System :=
  ((k.tsk k.cur).event, tsk_join_reclaim tsk (k.tsk k.cur).event k)

/-- The loop of `priv_tsk_terminator` (ostask.c, lines 223-228) over the chain
of corpses `l = IDLE.hdr.obj.queue`: take the head off the chain, release its
storage, go on with the rest. -/
def terminator_loop : List Nat → System → System
  | [], k => k
  | t :: rest, k => terminator_loop rest (core_res_free t { k with corpses := rest })

/-- The function `priv_tsk_terminator` (ostask.c, lines 215-233). -/
def priv_tsk_terminator (k : System) : System :=
  let k1 := terminator_loop k.corpses k
  { k1 with idle_state := fun_t.core_tsk_idle }

/-- The function `priv_tsk_destroy` (ostask.c, lines 236-243): push the task on
the chain of corpses and make the terminator the function of the idle task. -/
def priv_tsk_destroy (tsk : Nat) (k : System) : System :=
  { k with corpses := tsk :: k.corpses, idle_state := fun_t.priv_tsk_terminator }

/-- The function `tsk_stop` (ostask.c, lines 246-263).  The assertion
`System.cur->mtx.list == 0` is a precondition. -/
def tsk_stop (k : System) : System :=
  let c := k.cur
  let k1 := if (k.tsk c).join ≠ Join.detached then
      (core_tsk_wakeup (k.tsk c).join.head E_SUCCESS k).2
    else priv_tsk_destroy c k
  core_tsk_remove c k1

/-- The body of the loop of `tsk_kill` (ostask.c, lines 284-287) for one mutex
of the chain. -/
def tsk_kill_mtx (k : System) (m : Nat) : System :=
  if (k.mtx m).mode &&& mtxRobust ≠ 0 then
    let r := core_mtx_transferLock m OWNERDEAD k
    if r.1 = none then setMtx r.2 m { r.2.mtx m with mode := (r.2.mtx m).mode ||| mtxInconsistent }
    else r.2
  else k

/-- The function `tsk_kill` (ostask.c, lines 266-303).  The loop walks the chain
`tsk->mtx.list` as it is on entry: the successor `nxt` is read before the
mutex is handed over. -/
def tsk_kill (tsk : Nat) (k : System) : System :=
  if (k.tsk tsk).id ≠ ID_STOPPED ∧ (k.tsk tsk).join ≠ Join.detached then
    let k1 := setTsk k tsk { k.tsk tsk with mtx_tree := none }
    let k2 := (k1.tsk tsk).mtx_list.foldl tsk_kill_mtx k1
    let k3 := (core_tsk_wakeup (k2.tsk tsk).join.head E_STOPPED k2).2
    if (k3.tsk tsk).id = ID_READY then core_tsk_remove tsk k3
    else if (k3.tsk tsk).id = ID_BLOCKED then core_tmr_remove tsk (core_tsk_unlink tsk E_STOPPED k3)
    else k3
  else k

/-- Modelled from the spec: whether control comes back from `tsk_kill(tsk)` to
its caller.  It does not when `tsk_kill` calls `core_tsk_remove` on the current
task: removing the running task from the ready list "transfers control to the
next-highest-priority ready task" and "never returns" (Stop, step 4), and a
stopped task runs again only from its entry function.  The states `k1`, `k2`
and `k3` are those of `tsk_kill`. -/
def tsk_kill_returns (tsk : Nat) (k : System) : Bool :=
  if (k.tsk tsk).id ≠ ID_STOPPED ∧ (k.tsk tsk).join ≠ Join.detached then
    let k1 := setTsk k tsk { k.tsk tsk with mtx_tree := none }
    let k2 := (k1.tsk tsk).mtx_list.foldl tsk_kill_mtx k1
    let k3 := (core_tsk_wakeup (k2.tsk tsk).join.head E_STOPPED k2).2
    if (k3.tsk tsk).id = ID_READY then decide (tsk ≠ k3.cur) else true
  else true

/-- The function `tsk_delete` (ostask.c, lines 306-315): `tsk_kill`, then, if
control comes back from it, `tsk_detach`, whose result is dropped.  When the
task is the caller itself and `tsk_kill` removes it, `tsk_detach` is not
reached.  The two calls are critical sections of their own; this is their run
with no other task scheduled between them. -/
def tsk_delete (tsk : Nat) (k : System) : System :=
  let k1 := tsk_kill tsk k
  if tsk_kill_returns tsk k = true then (tsk_detach tsk k1).2 else k1

/-- The function `tsk_suspend` (ostask.c, lines 475-496). -/
def tsk_suspend (tsk : Nat) (k : System) : Nat × System :=
  if (k.tsk tsk).id = ID_READY then (E_SUCCESS, core_tsk_suspend tsk k)
  else (E_FAILURE, k)

/-- The function `tsk_resume` (ostask.c, lines 499-520). -/
def tsk_resume (tsk : Nat) (k : System) : Nat × System :=
  if (k.tsk tsk).guard = some Queue.dly ∧ (k.tsk tsk).delay = INFINITE then
    (E_SUCCESS, (core_tsk_wakeup (some tsk) 0 k).2)
  else (E_FAILURE, k)

/-! ## Scheduler -/

/-- The scheduler dispatches task `c`: it becomes `System.cur`. -/
def dispatch (c : Nat) (k : System) : System :=
  { k with cur := c }

/-! ## Example states -/

/-- A kernel with no task running or waiting and every record cleared. -/
def sysZero : System :=
  { cur := 0, cnt := 0, dly := [], wai := [], rdy := [], tmr := [],
    tsk := fun _ => {}, sem := fun _ => {}, mtx := fun _ => {},
    corpses := [], idle_state := fun_t.core_tsk_idle }

/-- Three tasks for the scenarios of section 8: task 1 is A (priority 2), task 2
is B (priority 1), task 3 is C (priority 1); all three are ready and carry a
stale `event` value 77 from an earlier wait. -/
def sysABC : System :=
  { sysZero with
    rdy := [1, 2, 3],
    tsk := fun i =>
      if i = 1 then { id := ID_READY, prio := 2, basic := 2, event := 77 }
      else if i = 2 then { id := ID_READY, prio := 1, basic := 1, event := 77 }
      else if i = 3 then { id := ID_READY, prio := 1, basic := 1, event := 77 }
      else {} }

/-- Scenario 1 of section 8, first half: `init(s, 0, 1)`, then A (task 1) calls
`waitFor(s, INFINITE)`. -/
def sysHandoff : System :=
  (sem_waitFor 0 INFINITE (dispatch 1 (sem_init 0 0 1 sysABC))).2

/-- Scenario 2 of section 8, first half: `init(s, 0, 1)`, then the tasks 2, 3
and 1 call `waitFor(s, INFINITE)` in this order. -/
def sysThree : System :=
  (sem_waitFor 0 INFINITE (dispatch 1
    (sem_waitFor 0 INFINITE (dispatch 3
      (sem_waitFor 0 INFINITE (dispatch 2 (sem_init 0 0 1 sysABC))).2)).2)).2

/-- A blocked giver: `init(s, 1, 1)`, then A (task 1) calls
`sendFor(s, INFINITE)`. -/
def sysGiver : System :=
  (sem_sendFor 0 INFINITE (dispatch 1 (sem_init 0 1 1 sysABC))).2

/-- Scenario 6 of section 8, first half: A (task 1) calls
`waitFor(flags = 0b1100, INFINITE)`, then `give(A, 0b0100)` leaves the pending
mask `0b1000`. -/
def sysFlags : System :=
  (tsk_give 1 4 (tsk_waitFor 12 INFINITE (dispatch 1 sysABC)).2).2

/-! ## Predicates and auxiliary functions -/

/-- Every task on the wait queue of semaphore `sem` is blocked on that queue:
its `guard` points to it. -/
def QueueGuarded (sem : Nat) (k : System) : Prop :=
  ∀ t ∈ (k.sem sem).queue, (k.tsk t).guard = some (Queue.obj sem)

instance (sem : Nat) (k : System) : Decidable (QueueGuarded sem k) :=
  inferInstanceAs (Decidable (∀ t ∈ (k.sem sem).queue, (k.tsk t).guard = some (Queue.obj sem)))

/-- The state after waking the tasks of the list `l` one after the other. -/
def wakeList (e : Nat) (l : List Nat) (k : System) : System :=
  l.foldl (fun acc t => (core_tsk_wakeup (some t) e acc).2) k

/-- The caller `c` of a blocking semaphore service has been suspended between
the states `k` and `k1`: `count` and `limit` are unchanged, the wait queue has
gained `c` and nothing else, `c` is `BLOCKED` with its `guard` on the queue, and
the value its call returns is the event of whatever wake-up comes next. -/
def Suspended (sem c : Nat) (k k1 : System) : Prop :=
  (k1.sem sem).count = (k.sem sem).count ∧
  (k1.sem sem).limit = (k.sem sem).limit ∧
  (∀ u, u ∈ (k1.sem sem).queue ↔ u = c ∨ u ∈ (k.sem sem).queue) ∧
  (k1.tsk c).id = ID_BLOCKED ∧
  (k1.tsk c).guard = some (Queue.obj sem) ∧
  (∀ e, Ret.value Ret.blocked c (core_tsk_wakeup (some c) e k1).2 = e)

/-! ## Histories of one semaphore -/

/-- The semaphore service in which a task was last suspended: `sem_waitFor` /
`sem_waitUntil` (a taker) or `sem_sendFor` / `sem_sendUntil` (a giver).  The C
code keeps no such field; it is the return address of the suspended task. -/
inductive Role where
  | taker
  | giver
deriving DecidableEq, Repr

/-- What can happen to a semaphore: a service called by task `c` (which the
scheduler has dispatched), the expiry of the timeout of a task `t`, or a task
`t` being stopped while it waits (the `BLOCKED` branch of `tsk_kill`). -/
inductive Ev where
  | take (c : Nat)
  | give (c : Nat)
  | waitFor (c delay : Nat)
  | waitUntil (c time : Nat)
  | sendFor (c delay : Nat)
  | sendUntil (c time : Nat)
  | kill (c : Nat)
  | timeout (t : Nat)
  | stopped (t : Nat)
deriving DecidableEq, Repr

/-- Kernel memory together with the role of every task. -/
structure Traced where
  sys : System
  role : Nat → Role

/-- The role of the caller after a service that may have suspended it. -/
def noteRole (r : Ret) (c : Nat) (rl : Role) (role : Nat → Role) : Nat → Role :=
  if r = Ret.blocked then Function.update role c rl else role

/-- One event on semaphore `sem`. -/
def stepEv (sem : Nat) (x : Traced) : Ev → Traced
  | Ev.take c => { x with sys := (sem_take sem (dispatch c x.sys)).2 }
  | Ev.give c => { x with sys := (sem_give sem (dispatch c x.sys)).2 }
  | Ev.waitFor c delay =>
    { sys := (sem_waitFor sem delay (dispatch c x.sys)).2,
      role := noteRole (sem_waitFor sem delay (dispatch c x.sys)).1 c Role.taker x.role }
  | Ev.waitUntil c time =>
    { sys := (sem_waitUntil sem time (dispatch c x.sys)).2,
      role := noteRole (sem_waitUntil sem time (dispatch c x.sys)).1 c Role.taker x.role }
  | Ev.sendFor c delay =>
    { sys := (sem_sendFor sem delay (dispatch c x.sys)).2,
      role := noteRole (sem_sendFor sem delay (dispatch c x.sys)).1 c Role.giver x.role }
  | Ev.sendUntil c time =>
    { sys := (sem_sendUntil sem time (dispatch c x.sys)).2,
      role := noteRole (sem_sendUntil sem time (dispatch c x.sys)).1 c Role.giver x.role }
  | Ev.kill c => { x with sys := sem_kill sem (dispatch c x.sys) }
  | Ev.timeout t => { x with sys := (core_tsk_wakeup (some t) E_TIMEOUT x.sys).2 }
  | Ev.stopped t => { x with sys := core_tmr_remove t (core_tsk_unlink t E_STOPPED x.sys) }

/-- A finite history of events on semaphore `sem`. -/
def runEv (sem : Nat) (evs : List Ev) (x : Traced) : Traced :=
  evs.foldl (stepEv sem) x

/-- The invariant of a semaphore: `count <= limit`, `limit >= 1`, every task on
the queue is blocked on it, a taker waits only at `count == 0` and a giver only
at `count == limit`. -/
def SemInv (sem : Nat) (role : Nat → Role) (k : System) : Prop :=
  (k.sem sem).count ≤ (k.sem sem).limit ∧ 1 ≤ (k.sem sem).limit ∧
  QueueGuarded sem k ∧
  (∀ t ∈ (k.sem sem).queue, role t = Role.taker → (k.sem sem).count = 0) ∧
  (∀ t ∈ (k.sem sem).queue, role t = Role.giver → (k.sem sem).count = (k.sem sem).limit)

/-- A history used as an example: two gives (the second one refused), a giver
that blocks at `count == limit`, a take that wakes it, takes down to 0, a
refused take, and a taker that blocks at `count == 0`. -/
def evDemo : List Ev :=
  [Ev.give 2, Ev.give 2, Ev.sendFor 1 INFINITE, Ev.take 2, Ev.take 3, Ev.take 3, Ev.take 3,
   Ev.waitFor 2 5]

/-! ## Example states for the task life cycle -/

/-- Two tasks: T (task 1, priority 2) created on the heap by `wrk_create`, and
J (task 2, priority 1) declared statically and set up by `tsk_init`. -/
def sysTJ0 : System :=
  tsk_init 2 1 (fun_t.user 20) (wrk_create 1 2 (fun_t.user 10) sysZero)

/-- The tasks T and J of `sysTJ0`, each carrying a stale `event` value 77 from
an earlier wait. -/
def sysTJ : System :=
  let k1 := setTsk sysTJ0 1 { sysTJ0.tsk 1 with event := 77 }
  setTsk k1 2 { k1.tsk 2 with event := 77 }

/-- Every task that is on a wait queue has its `guard` pointing to that queue
(invariant 1 of section 8 of the specification). -/
def Guarded (k : System) : Prop :=
  ∀ q u, u ∈ getQueue k q → (k.tsk u).guard = some q

/-- The second half of `core_tsk_unlink`: the task leaves the queue its `guard`
points to. -/
def leaveQueue (t : Nat) (k : System) : System :=
  match (k.tsk t).guard with
  | none => k
  | some q =>
    let k2 := setQueue k q ((getQueue k q).filter (fun x => x != t))
    setTsk k2 t { k2.tsk t with guard := none }

/-- Scenario 6 of section 8, start: A (task 1) has called
`waitFor(flags = 0b1100, INFINITE)`. -/
def sysFlagsStart : System :=
  (tsk_waitFor 12 INFINITE (dispatch 1 sysABC)).2

/-- A task waiting for no flag at all: A (task 1) has called
`waitFor(flags = 0, INFINITE)`. -/
def sysFlagsNone : System :=
  (tsk_waitFor 0 INFINITE (dispatch 1 sysABC)).2

/-- Scenario 3 of section 8: J (task 2) has called `join(T)` on the running
heap task T (task 1) and is blocked in T's join slot. -/
def sysJoined : System :=
  (tsk_join 1 (dispatch 2 sysTJ)).2

/-- Scenario 3 of section 8, continued: T calls `stop`. -/
def sysJoinedStopped : System :=
  tsk_stop (dispatch 1 sysJoined)

/-- Scenario 5 of section 8: the heap task T (task 1) is detached by J while
it is running. -/
def sysDetached : System :=
  (tsk_detach 1 (dispatch 2 sysTJ)).2

/-- Scenario 5 of section 8, continued: the detached T calls `stop`. -/
def sysDetachedStopped : System :=
  tsk_stop (dispatch 1 sysDetached)

/-- The task `t` is active and placed as its id says (invariants of section 3
of the specification): a `READY` task is blocked on nothing and has no timer
armed; a `BLOCKED` task is not on the ready list. -/
def Placed (t : Nat) (k : System) : Prop :=
  ((k.tsk t).id = ID_READY ∨ (k.tsk t).id = ID_BLOCKED) ∧
  ((k.tsk t).id = ID_READY → (k.tsk t).guard = none ∧ t ∉ k.tmr) ∧
  ((k.tsk t).id = ID_BLOCKED → t ∉ k.rdy)

/-- The states `k` and `k1` differ at most in the bookkeeping of mutexes (mode and
owner of a mutex, `mtx.list` of a task, a cleared `mtx.tree`): the ready list,
the timer list, every wait queue and the scheduling fields of every task are
the same. -/
def SchedSame (k k1 : System) : Prop :=
  k1.rdy = k.rdy ∧ k1.tmr = k.tmr ∧ (∀ q, getQueue k1 q = getQueue k q) ∧
  (∀ u, (k1.tsk u).id = (k.tsk u).id ∧ (k1.tsk u).guard = (k.tsk u).guard ∧
    (k1.tsk u).join = (k.tsk u).join ∧ (k1.tsk u).event = (k.tsk u).event ∧
    (k1.tsk u).res = (k.tsk u).res ∧
    ((k.tsk u).mtx_tree = none → (k1.tsk u).mtx_tree = none))

/-- The first step of `core_mtx_transferLock`: the mutex leaves the chain of its
owner. -/
def dropOwned (m : Nat) (k : System) : System :=
  match (k.mtx m).owner with
  | some o => setTsk k o { k.tsk o with mtx_list := (k.tsk o).mtx_list.filter (fun x => x != m) }
  | none => k

/-- The state of `tsk_kill` after its loop over the mutexes of the task. -/
def killLocks (tsk : Nat) (k : System) : System :=
  let k1 := setTsk k tsk { k.tsk tsk with mtx_tree := none }
  (k1.tsk tsk).mtx_list.foldl tsk_kill_mtx k1

/-- The last statement of `tsk_kill`: the task leaves the ready list or its wait
queue and timer. -/
def killFinal (tsk : Nat) (k3 : System) : System :=
  if (k3.tsk tsk).id = ID_READY then core_tsk_remove tsk k3
  else if (k3.tsk tsk).id = ID_BLOCKED then core_tmr_remove tsk (core_tsk_unlink tsk E_STOPPED k3)
  else k3

/-- A kernel in the middle of its life, for `tsk_kill`: task 1 is T, owned by the
kernel, owner of the robust mutex 5 and blocked with a time-out on mutex 9;
task 2 is J, waiting in the join slot of T; task 3 is W, waiting for mutex 5;
task 4 is ready and owns mutex 9.  J and W carry a stale `event` value 77. -/
def sysKill : System :=
  { sysZero with
    cur := 4, rdy := [4], tmr := [1],
    tsk := fun i =>
      if i = 1 then
        { id := ID_BLOCKED, prio := 2, basic := 2, guard := some (Queue.mtx 9), delay := 100,
          join := Join.slot [2], res := Res.owned, mtx_list := [5], mtx_tree := some 9 }
      else if i = 2 then
        { id := ID_BLOCKED, prio := 1, basic := 1, guard := some (Queue.join 1),
          delay := INFINITE, event := 77 }
      else if i = 3 then
        { id := ID_BLOCKED, prio := 1, basic := 1, guard := some (Queue.mtx 5),
          delay := INFINITE, event := 77, mtx_tree := some 5 }
      else if i = 4 then { id := ID_READY, prio := 1, basic := 1, mtx_list := [9] }
      else {},
    mtx := fun m =>
      if m = 5 then { mode := mtxRobust, owner := some 1, queue := [3] }
      else if m = 9 then { mode := 0, owner := some 4, queue := [1] }
      else {} }

/-- A kernel for the owner-dead handling of `tsk_kill`: task 1 is T, ready, owner
of the mutexes 5, 6 and 7.  Mutex 5 is robust and task 3 waits for it; mutex 6
is robust and nobody waits for it; mutex 7 is not robust and task 8 waits for
it.  The waiters carry a stale `event` value 77. -/
def sysOwnerDead : System :=
  { sysZero with
    cur := 4, rdy := [1, 4],
    tsk := fun i =>
      if i = 1 then
        { id := ID_READY, prio := 2, basic := 2, res := Res.owned, mtx_list := [5, 6, 7] }
      else if i = 3 then
        { id := ID_BLOCKED, prio := 1, basic := 1, guard := some (Queue.mtx 5),
          delay := INFINITE, event := 77, mtx_tree := some 5 }
      else if i = 4 then { id := ID_READY, prio := 1, basic := 1 }
      else if i = 8 then
        { id := ID_BLOCKED, prio := 1, basic := 1, guard := some (Queue.mtx 7),
          delay := INFINITE, event := 77, mtx_tree := some 7 }
      else {},
    mtx := fun m =>
      if m = 5 then { mode := mtxRobust, owner := some 1, queue := [3] }
      else if m = 6 then { mode := mtxRobust, owner := some 1, queue := [] }
      else if m = 7 then { mode := 0, owner := some 1, queue := [8] }
      else {} }

/-! ## ostask.c: sleeping -/

/-- Modelled from the spec: `core_tsk_waitNext(queue, delay)`, absent from the
sources: block the current task on the queue for "a delay measured from the
previous wake time"; the start of the interval is the one already stored in the
task. -/
def core_tsk_waitNext (q : Queue) (delay : Nat) (k : System) : Ret × System :=
  let c := k.cur
  core_tsk_block q (setTsk k c { k.tsk c with delay := delay })

/-- The function `tsk_sleepFor` (ostask.c, lines 442-450). -/
def tsk_sleepFor (delay : Nat) (k : System) : Ret × System :=
  core_tsk_waitFor Queue.dly delay k

/-- The function `tsk_sleepNext` (ostask.c, lines 453-461). -/
def tsk_sleepNext (delay : Nat) (k : System) : Ret × System :=
  core_tsk_waitNext Queue.dly delay k

/-- The function `tsk_sleepUntil` (ostask.c, lines 464-472). -/
def tsk_sleepUntil (time : Nat) (k : System) : Ret × System :=
  core_tsk_waitUntil Queue.dly time k

/-! ## Histories of the kernel -/

/-- The number of tasks waiting in a join slot. -/
def Join.waiting : Join → Nat
  | Join.slot l => l.length
  | Join.detached => 0

/-- No join slot holds more than one waiting task. -/
def OneJoiner (k : System) : Prop :=
  ∀ t, (k.tsk t).join.waiting ≤ 1

/-- No join slot of `k1` holds more tasks than the same slot of `k`. -/
def JoinShrinks (k k1 : System) : Prop :=
  ∀ t, (k1.tsk t).join.waiting ≤ (k.tsk t).join.waiting

/-- What can happen in the kernel: the scheduler makes task `c` the current
one, the current task (or the idle task, for the terminator) calls a service of
`ostask.c` or `ossemaphore.c`, or the time-out of a blocked task `t` expires.
A call of `tsk_join` that suspends its caller is the event `join`; the rest of
the call, when the caller runs again, is `joinResumed`.  The services
`tsk_yield`, `tsk_flip`, `tsk_setPrio` and `tsk_getPrio` are left out: they
neither read nor write `join` and put no task on a queue. -/
inductive KEv where
  | run (c : Nat)
  | init (tsk prio : Nat) (state : fun_t)
  | create (tsk prio : Nat) (state : fun_t)
  | createDetached (tsk prio : Nat) (state : fun_t)
  | start (tsk : Nat)
  | startFrom (tsk : Nat) (state : fun_t)
  | detach (tsk : Nat)
  | join (tsk : Nat)
  | joinResumed (tsk : Nat)
  | stop
  | kill (tsk : Nat)
  | delete (tsk : Nat)
  | suspend (tsk : Nat)
  | resume (tsk : Nat)
  | flagWaitFor (flags delay : Nat)
  | flagWaitUntil (flags time : Nat)
  | flagGive (tsk flags : Nat)
  | sleepFor (delay : Nat)
  | sleepNext (delay : Nat)
  | sleepUntil (time : Nat)
  | semInit (sem init limit : Nat)
  | semKill (sem : Nat)
  | semTake (sem : Nat)
  | semGive (sem : Nat)
  | semWaitFor (sem delay : Nat)
  | semWaitUntil (sem time : Nat)
  | semSendFor (sem delay : Nat)
  | semSendUntil (sem time : Nat)
  | terminator
  | timeout (t : Nat)
deriving DecidableEq, Repr

/-- One event of the kernel. -/
def stepK (k : System) : KEv → System
  | KEv.run c => dispatch c k
  | KEv.init tsk prio state => tsk_init tsk prio state k
  | KEv.create tsk prio state => wrk_create tsk prio state k
  | KEv.createDetached tsk prio state => wrk_detached tsk prio state k
  | KEv.start tsk => tsk_start tsk k
  | KEv.startFrom tsk state => tsk_startFrom tsk state k
  | KEv.detach tsk => (tsk_detach tsk k).2
  | KEv.join tsk => (tsk_join tsk k).2
  | KEv.joinResumed tsk => (tsk_join_resumed tsk k).2
  | KEv.stop => tsk_stop k
  | KEv.kill tsk => tsk_kill tsk k
  | KEv.delete tsk => tsk_delete tsk k
  | KEv.suspend tsk => (tsk_suspend tsk k).2
  | KEv.resume tsk => (tsk_resume tsk k).2
  | KEv.flagWaitFor flags delay => (tsk_waitFor flags delay k).2
  | KEv.flagWaitUntil flags time => (tsk_waitUntil flags time k).2
  | KEv.flagGive tsk flags => (tsk_give tsk flags k).2
  | KEv.sleepFor delay => (tsk_sleepFor delay k).2
  | KEv.sleepNext delay => (tsk_sleepNext delay k).2
  | KEv.sleepUntil time => (tsk_sleepUntil time k).2
  | KEv.semInit sem init limit => sem_init sem init limit k
  | KEv.semKill sem => sem_kill sem k
  | KEv.semTake sem => (sem_take sem k).2
  | KEv.semGive sem => (sem_give sem k).2
  | KEv.semWaitFor sem delay => (sem_waitFor sem delay k).2
  | KEv.semWaitUntil sem time => (sem_waitUntil sem time k).2
  | KEv.semSendFor sem delay => (sem_sendFor sem delay k).2
  | KEv.semSendUntil sem time => (sem_sendUntil sem time k).2
  | KEv.terminator => priv_tsk_terminator k
  | KEv.timeout t => (core_tsk_wakeup (some t) E_TIMEOUT k).2

/-- A finite history of the kernel. -/
def runK (evs : List KEv) (k : System) : System :=
  evs.foldl stepK k

/-- Scenario 3 of section 8, as a history from the cleared kernel: the heap task
T (task 1) and the tasks J (task 2) and K (task 3) are created; J calls
`join(T)` and blocks; K is made the current task. -/
def evJoined : List KEv :=
  [KEv.create 1 2 (fun_t.user 10), KEv.init 2 1 (fun_t.user 20), KEv.init 3 1 (fun_t.user 30),
   KEv.run 2, KEv.join 1, KEv.run 3]

/-! # Theorems -/

/-! ## Frame lemmas for the memory accessors -/

@[simp] theorem setTsk_sem (k : System) (t : Nat) (v : tsk_t) : (setTsk k t v).sem = k.sem := rfl
@[simp] theorem setTsk_cur (k : System) (t : Nat) (v : tsk_t) : (setTsk k t v).cur = k.cur := rfl
@[simp] theorem setTsk_cnt (k : System) (t : Nat) (v : tsk_t) : (setTsk k t v).cnt = k.cnt := rfl
@[simp] theorem setTsk_dly (k : System) (t : Nat) (v : tsk_t) : (setTsk k t v).dly = k.dly := rfl
@[simp] theorem setTsk_wai (k : System) (t : Nat) (v : tsk_t) : (setTsk k t v).wai = k.wai := rfl
@[simp] theorem setTsk_rdy (k : System) (t : Nat) (v : tsk_t) : (setTsk k t v).rdy = k.rdy := rfl
@[simp] theorem setTsk_tmr (k : System) (t : Nat) (v : tsk_t) : (setTsk k t v).tmr = k.tmr := rfl

@[simp] theorem setTsk_same (k : System) (t : Nat) (v : tsk_t) : (setTsk k t v).tsk t = v := by
  simp [setTsk]

theorem setTsk_other (k : System) (t u : Nat) (v : tsk_t) (h : u ≠ t) :
    (setTsk k t v).tsk u = k.tsk u := by
  simp [setTsk, Function.update_noteq h]

@[simp] theorem setSem_tsk (k : System) (s : Nat) (v : sem_t) : (setSem k s v).tsk = k.tsk := rfl
@[simp] theorem setSem_cur (k : System) (s : Nat) (v : sem_t) : (setSem k s v).cur = k.cur := rfl
@[simp] theorem setSem_cnt (k : System) (s : Nat) (v : sem_t) : (setSem k s v).cnt = k.cnt := rfl
@[simp] theorem setSem_dly (k : System) (s : Nat) (v : sem_t) : (setSem k s v).dly = k.dly := rfl
@[simp] theorem setSem_wai (k : System) (s : Nat) (v : sem_t) : (setSem k s v).wai = k.wai := rfl
@[simp] theorem setSem_rdy (k : System) (s : Nat) (v : sem_t) : (setSem k s v).rdy = k.rdy := rfl
@[simp] theorem setSem_tmr (k : System) (s : Nat) (v : sem_t) : (setSem k s v).tmr = k.tmr := rfl

@[simp] theorem setSem_same (k : System) (s : Nat) (v : sem_t) : (setSem k s v).sem s = v := by
  simp [setSem]

theorem setSem_other (k : System) (s u : Nat) (v : sem_t) (h : u ≠ s) :
    (setSem k s v).sem u = k.sem u := by
  simp [setSem, Function.update_noteq h]

/-- Writing back the record that is already there changes nothing. -/
theorem setSem_self (k : System) (s : Nat) : setSem k s (k.sem s) = k := by
  cases k
  simp [setSem]

/-- The later of two writes to one semaphore record wins. -/
theorem setSem_setSem (k : System) (s : Nat) (v w : sem_t) :
    setSem (setSem k s v) s w = setSem k s w := by
  cases k
  simp [setSem]

/-- The function `setQueue` touches neither `count` nor `limit` of any semaphore. -/
theorem setQueue_count (k : System) (q : Queue) (l : List Nat) (s : Nat) :
    ((setQueue k q l).sem s).count = (k.sem s).count ∧
    ((setQueue k q l).sem s).limit = (k.sem s).limit := by
  cases q with
  | dly => simp [setQueue]
  | wai => simp [setQueue]
  | mtx m => simp [setQueue, setMtx]
  | join t =>
    simp only [setQueue]
    cases (k.tsk t).join <;> simp
  | obj o =>
    simp only [setQueue]
    by_cases h : s = o
    · subst h; simp
    · simp [setSem_other _ _ _ _ h]

/-- The function `setQueue` leaves every field of every task record but `join` alone. -/
theorem setQueue_tsk (k : System) (q : Queue) (l : List Nat) (u : Nat) :
    ((setQueue k q l).tsk u).id = (k.tsk u).id ∧
    ((setQueue k q l).tsk u).prio = (k.tsk u).prio ∧
    ((setQueue k q l).tsk u).guard = (k.tsk u).guard ∧
    ((setQueue k q l).tsk u).event = (k.tsk u).event ∧
    ((setQueue k q l).tsk u).delay = (k.tsk u).delay ∧
    ((setQueue k q l).tsk u).flags = (k.tsk u).flags := by
  cases q with
  | dly => simp [setQueue]
  | wai => simp [setQueue]
  | obj o => simp [setQueue]
  | mtx m => simp [setQueue, setMtx]
  | join t =>
    simp only [setQueue]
    cases hj : (k.tsk t).join with
    | detached => simp
    | slot q0 =>
      by_cases h : u = t
      · subst h; simp
      · simp [setTsk_other _ _ _ _ h]

/-- The queue of a semaphore after `setQueue` on any queue address. -/
theorem setQueue_queue (k : System) (q : Queue) (l : List Nat) (s : Nat) :
    ((setQueue k q l).sem s).queue = if q = Queue.obj s then l else (k.sem s).queue := by
  cases q with
  | dly => simp [setQueue]
  | wai => simp [setQueue]
  | mtx m => simp [setQueue, setMtx]
  | join t =>
    simp only [setQueue]
    cases (k.tsk t).join <;> simp
  | obj o =>
    simp only [setQueue]
    by_cases h : s = o
    · subst h; simp
    · have h2 : ¬ (Queue.obj o = Queue.obj s) := by
        intro e; injection e with e; exact h e.symm
      simp [setSem_other _ _ _ _ h, h2]

/-! ## What a wake-up changes -/

@[simp] theorem setQueue_sem_count (k : System) (q : Queue) (l : List Nat) (s : Nat) :
    ((setQueue k q l).sem s).count = (k.sem s).count := (setQueue_count k q l s).1

@[simp] theorem setQueue_sem_limit (k : System) (q : Queue) (l : List Nat) (s : Nat) :
    ((setQueue k q l).sem s).limit = (k.sem s).limit := (setQueue_count k q l s).2

@[simp] theorem setQueue_tsk_id (k : System) (q : Queue) (l : List Nat) (u : Nat) :
    ((setQueue k q l).tsk u).id = (k.tsk u).id := (setQueue_tsk k q l u).1

@[simp] theorem setQueue_tsk_prio (k : System) (q : Queue) (l : List Nat) (u : Nat) :
    ((setQueue k q l).tsk u).prio = (k.tsk u).prio := (setQueue_tsk k q l u).2.1

@[simp] theorem setQueue_tsk_guard (k : System) (q : Queue) (l : List Nat) (u : Nat) :
    ((setQueue k q l).tsk u).guard = (k.tsk u).guard := (setQueue_tsk k q l u).2.2.1

@[simp] theorem setQueue_tsk_event (k : System) (q : Queue) (l : List Nat) (u : Nat) :
    ((setQueue k q l).tsk u).event = (k.tsk u).event := (setQueue_tsk k q l u).2.2.2.1

@[simp] theorem setQueue_tsk_delay (k : System) (q : Queue) (l : List Nat) (u : Nat) :
    ((setQueue k q l).tsk u).delay = (k.tsk u).delay := (setQueue_tsk k q l u).2.2.2.2.1

@[simp] theorem setQueue_tsk_flags (k : System) (q : Queue) (l : List Nat) (u : Nat) :
    ((setQueue k q l).tsk u).flags = (k.tsk u).flags := (setQueue_tsk k q l u).2.2.2.2.2

/-- The function `core_tsk_unlink` touches neither `count` nor `limit` of any semaphore. -/
theorem unlink_count (t e : Nat) (k : System) (s : Nat) :
    ((core_tsk_unlink t e k).sem s).count = (k.sem s).count ∧
    ((core_tsk_unlink t e k).sem s).limit = (k.sem s).limit := by
  unfold core_tsk_unlink
  simp only [setTsk_same]
  cases (k.tsk t).guard with
  | none => simp
  | some q => simp

/-- The queue of semaphore `s` after `core_tsk_unlink`: the task leaves it when
its `guard` points there, otherwise the queue is as before. -/
theorem unlink_queue (t e : Nat) (k : System) (s : Nat) :
    ((core_tsk_unlink t e k).sem s).queue =
      if (k.tsk t).guard = some (Queue.obj s) then (k.sem s).queue.filter (fun x => x != t)
      else (k.sem s).queue := by
  unfold core_tsk_unlink
  simp only [setTsk_same]
  cases hg : (k.tsk t).guard with
  | none => simp
  | some q =>
    simp only [setTsk_sem, setQueue_queue]
    by_cases hq : q = Queue.obj s
    · subst hq; simp [getQueue]
    · simp [hq]

/-- The record of the unlinked task. -/
theorem unlink_self (t e : Nat) (k : System) :
    ((core_tsk_unlink t e k).tsk t).event = e ∧
    ((core_tsk_unlink t e k).tsk t).guard = none ∧
    ((core_tsk_unlink t e k).tsk t).id = (k.tsk t).id ∧
    ((core_tsk_unlink t e k).tsk t).prio = (k.tsk t).prio ∧
    ((core_tsk_unlink t e k).tsk t).delay = (k.tsk t).delay ∧
    ((core_tsk_unlink t e k).tsk t).flags = (k.tsk t).flags := by
  unfold core_tsk_unlink
  simp only [setTsk_same]
  cases hg : (k.tsk t).guard with
  | none => simp [hg]
  | some q => simp

/-- The records of the other tasks keep every field but possibly `join`. -/
theorem unlink_other (t e : Nat) (k : System) (u : Nat) (h : u ≠ t) :
    ((core_tsk_unlink t e k).tsk u).event = (k.tsk u).event ∧
    ((core_tsk_unlink t e k).tsk u).guard = (k.tsk u).guard ∧
    ((core_tsk_unlink t e k).tsk u).id = (k.tsk u).id ∧
    ((core_tsk_unlink t e k).tsk u).prio = (k.tsk u).prio ∧
    ((core_tsk_unlink t e k).tsk u).delay = (k.tsk u).delay ∧
    ((core_tsk_unlink t e k).tsk u).flags = (k.tsk u).flags := by
  unfold core_tsk_unlink
  simp only [setTsk_same]
  cases hg : (k.tsk t).guard with
  | none => simp [setTsk_other _ _ _ _ h]
  | some q => simp [setTsk_other _ _ _ _ h]

/-- A wake-up touches neither `count` nor `limit` of any semaphore. -/
theorem wakeup_count (t e : Nat) (k : System) (s : Nat) :
    (((core_tsk_wakeup (some t) e k).2.sem s).count = (k.sem s).count) ∧
    (((core_tsk_wakeup (some t) e k).2.sem s).limit = (k.sem s).limit) := by
  simpa [core_tsk_wakeup, core_tsk_insert, core_tmr_remove] using unlink_count t e k s

/-- The queue of semaphore `s` after a wake-up of task `t`. -/
theorem wakeup_queue (t e : Nat) (k : System) (s : Nat) :
    ((core_tsk_wakeup (some t) e k).2.sem s).queue =
      if (k.tsk t).guard = some (Queue.obj s) then (k.sem s).queue.filter (fun x => x != t)
      else (k.sem s).queue := by
  simpa [core_tsk_wakeup, core_tsk_insert, core_tmr_remove] using unlink_queue t e k s

/-- The record of the woken task: it holds the delivered event, is `READY`,
and is blocked on nothing. -/
theorem wakeup_self (t e : Nat) (k : System) :
    ((core_tsk_wakeup (some t) e k).2.tsk t).event = e ∧
    ((core_tsk_wakeup (some t) e k).2.tsk t).guard = none ∧
    ((core_tsk_wakeup (some t) e k).2.tsk t).id = ID_READY ∧
    ((core_tsk_wakeup (some t) e k).2.tsk t).prio = (k.tsk t).prio ∧
    ((core_tsk_wakeup (some t) e k).2.tsk t).delay = (k.tsk t).delay ∧
    ((core_tsk_wakeup (some t) e k).2.tsk t).flags = (k.tsk t).flags := by
  have h := unlink_self t e k
  simp [core_tsk_wakeup, core_tsk_insert, core_tmr_remove, h]

/-- The records of the other tasks keep every field but possibly `join`. -/
theorem wakeup_other (t e : Nat) (k : System) (u : Nat) (h : u ≠ t) :
    ((core_tsk_wakeup (some t) e k).2.tsk u).event = (k.tsk u).event ∧
    ((core_tsk_wakeup (some t) e k).2.tsk u).guard = (k.tsk u).guard ∧
    ((core_tsk_wakeup (some t) e k).2.tsk u).id = (k.tsk u).id ∧
    ((core_tsk_wakeup (some t) e k).2.tsk u).prio = (k.tsk u).prio ∧
    ((core_tsk_wakeup (some t) e k).2.tsk u).delay = (k.tsk u).delay ∧
    ((core_tsk_wakeup (some t) e k).2.tsk u).flags = (k.tsk u).flags := by
  have h2 := unlink_other t e k u h
  simp [core_tsk_wakeup, core_tsk_insert, core_tmr_remove, setTsk_other _ _ _ _ h, h2]

/-- The woken task is on the ready list. -/
theorem mem_prioInsert (p : Nat → Nat) (t : Nat) (l : List Nat) : t ∈ prioInsert p t l := by
  induction l with
  | nil => simp [prioInsert]
  | cons x xs ih =>
    simp only [prioInsert]
    split
    · simp
    · simp [ih]

/-- Membership in a chain after a priority insert. -/
theorem mem_prioInsert_iff (p : Nat → Nat) (t u : Nat) (l : List Nat) :
    u ∈ prioInsert p t l ↔ u = t ∨ u ∈ l := by
  induction l with
  | nil => simp [prioInsert]
  | cons x xs ih =>
    simp only [prioInsert]
    split
    · simp
    · simp only [List.mem_cons, ih]
      tauto

/-- The woken task is on the ready list. -/
theorem wakeup_rdy (t e : Nat) (k : System) : t ∈ (core_tsk_wakeup (some t) e k).2.rdy := by
  simp [core_tsk_wakeup, core_tsk_insert, mem_prioInsert]

/-- With nobody on the queue `priv_sem_take` / `priv_sem_give` find no task to
wake. -/
theorem wakeup_none (e : Nat) (k : System) : core_tsk_wakeup none e k = (none, k) := rfl

/-! ## Waking a whole queue -/

/-- After a wake-up of `t` the queue of `sem` holds only tasks that were there
before, and not `t` if the queue was guarded. -/
theorem wakeup_queue_sub (sem t e : Nat) (k : System) (u : Nat)
    (hu : u ∈ ((core_tsk_wakeup (some t) e k).2.sem sem).queue) :
    u ∈ (k.sem sem).queue := by
  rw [wakeup_queue] at hu
  split at hu
  · exact (List.mem_filter.mp hu).1
  · exact hu

theorem wakeup_not_mem (sem t e : Nat) (k : System) (hg : QueueGuarded sem k) :
    t ∉ ((core_tsk_wakeup (some t) e k).2.sem sem).queue := by
  intro hu
  rw [wakeup_queue] at hu
  split at hu
  · simpa using (List.mem_filter.mp hu).2
  · next h => exact h (hg t hu)

theorem wakeup_guarded (sem t e : Nat) (k : System) (hg : QueueGuarded sem k) :
    QueueGuarded sem (core_tsk_wakeup (some t) e k).2 := by
  intro u hu
  have hne : u ≠ t := by
    intro h
    subst h
    exact wakeup_not_mem sem u e k hg hu
  rw [(wakeup_other t e k u hne).2.1]
  exact hg u (wakeup_queue_sub sem t e k u hu)

theorem core_all_wakeup_eq (q : Queue) (e : Nat) (k : System) :
    core_all_wakeup q e k = wakeList e (getQueue k q) k := rfl

theorem wakeList_cons (e t : Nat) (l : List Nat) (k : System) :
    wakeList e (t :: l) k = wakeList e l (core_tsk_wakeup (some t) e k).2 := rfl

theorem wakeList_count (sem e : Nat) (l : List Nat) (k : System) :
    ((wakeList e l k).sem sem).count = (k.sem sem).count ∧
    ((wakeList e l k).sem sem).limit = (k.sem sem).limit := by
  induction l generalizing k with
  | nil => exact ⟨rfl, rfl⟩
  | cons t l ih =>
    rw [wakeList_cons]
    have h := wakeup_count t e k sem
    exact ⟨(ih _).1.trans h.1, (ih _).2.trans h.2⟩

theorem wakeList_queue_sub (sem e : Nat) (l : List Nat) (k : System) (u : Nat)
    (hu : u ∈ ((wakeList e l k).sem sem).queue) : u ∈ (k.sem sem).queue := by
  induction l generalizing k with
  | nil => exact hu
  | cons t l ih =>
    rw [wakeList_cons] at hu
    exact wakeup_queue_sub sem t e k u (ih _ hu)

theorem wakeList_guarded (sem e : Nat) (l : List Nat) (k : System) (hg : QueueGuarded sem k) :
    QueueGuarded sem (wakeList e l k) := by
  induction l generalizing k with
  | nil => exact hg
  | cons t l ih =>
    rw [wakeList_cons]
    exact ih _ (wakeup_guarded sem t e k hg)

theorem wakeList_not_mem (sem e : Nat) (l : List Nat) (k : System) (hg : QueueGuarded sem k)
    (u : Nat) (hu : u ∈ l) : u ∉ ((wakeList e l k).sem sem).queue := by
  induction l generalizing k with
  | nil => simp at hu
  | cons t l ih =>
    rw [wakeList_cons]
    rcases List.mem_cons.mp hu with h | h
    · subst h
      intro hm
      exact wakeup_not_mem sem u e k hg (wakeList_queue_sub sem e l _ u hm)
    · exact ih _ (wakeup_guarded sem t e k hg) h

/-- A task that is not woken keeps its event, id and guard. -/
theorem wakeList_other (e : Nat) (l : List Nat) (k : System) (u : Nat) (hu : u ∉ l) :
    ((wakeList e l k).tsk u).event = (k.tsk u).event ∧
    ((wakeList e l k).tsk u).id = (k.tsk u).id ∧
    ((wakeList e l k).tsk u).guard = (k.tsk u).guard := by
  induction l generalizing k with
  | nil => exact ⟨rfl, rfl, rfl⟩
  | cons t l ih =>
    rw [wakeList_cons]
    have hne : u ≠ t := fun h => hu (h ▸ List.mem_cons_self _ _)
    have hl : u ∉ l := fun h => hu (List.mem_cons_of_mem _ h)
    have h := wakeup_other t e k u hne
    have h2 := ih (core_tsk_wakeup (some t) e k).2 hl
    exact ⟨h2.1.trans h.1, h2.2.1.trans h.2.2.1, h2.2.2.trans h.2.1⟩

/-- Every woken task holds the event, is `READY` and is blocked on nothing. -/
theorem wakeList_self (e : Nat) (l : List Nat) (k : System) (u : Nat) (hu : u ∈ l) :
    ((wakeList e l k).tsk u).event = e ∧
    ((wakeList e l k).tsk u).id = ID_READY ∧
    ((wakeList e l k).tsk u).guard = none := by
  induction l generalizing k with
  | nil => simp at hu
  | cons t l ih =>
    rw [wakeList_cons]
    by_cases hm : u ∈ l
    · exact ih _ hm
    · have ht : u = t := by
        rcases List.mem_cons.mp hu with h | h
        · exact h
        · exact absurd h hm
      subst ht
      have h := wakeup_self u e k
      have h2 := wakeList_other e l (core_tsk_wakeup (some u) e k).2 u hm
      exact ⟨h2.1.trans h.1, h2.2.1.trans h.2.2.1, h2.2.2.trans h.2.1⟩

/-! ## What `sem_kill` does -/

/-- The function `sem_kill` clears `count` and keeps `limit`. -/
theorem sem_kill_count (sem : Nat) (k : System) :
    ((sem_kill sem k).sem sem).count = 0 ∧
    ((sem_kill sem k).sem sem).limit = (k.sem sem).limit := by
  have hc := wakeList_count sem E_STOPPED
    (getQueue (setSem k sem { k.sem sem with count := 0 }) (Queue.obj sem))
    (setSem k sem { k.sem sem with count := 0 })
  unfold sem_kill
  simp only [core_all_wakeup_eq]
  simpa using hc

/-- After `sem_kill` nobody is on the queue, provided the tasks that were on it
were blocked on it. -/
theorem sem_kill_queue_nil (sem : Nat) (k : System) (hg : QueueGuarded sem k) :
    ((sem_kill sem k).sem sem).queue = [] := by
  have hq : getQueue (setSem k sem { k.sem sem with count := 0 }) (Queue.obj sem)
      = (k.sem sem).queue := by
    simp [getQueue]
  have hg1 : QueueGuarded sem (setSem k sem { k.sem sem with count := 0 }) := by
    intro t ht
    simp only [setSem_same, setSem_tsk] at ht ⊢
    exact hg t ht
  have hn := wakeList_not_mem sem E_STOPPED (k.sem sem).queue _ hg1
  have hs := wakeList_queue_sub sem E_STOPPED (k.sem sem).queue
    (setSem k sem { k.sem sem with count := 0 })
  unfold sem_kill
  simp only [core_all_wakeup_eq, hq]
  apply List.eq_nil_iff_forall_not_mem.mpr
  intro u hu
  have h1 := hs u hu
  simp only [setSem_same] at h1
  exact hn u h1 hu

/-- After `sem_kill` every task that was on the queue holds `E_STOPPED`, is
`READY` and is blocked on nothing. -/
theorem sem_kill_woken (sem : Nat) (k : System) (t : Nat) (ht : t ∈ (k.sem sem).queue) :
    ((sem_kill sem k).tsk t).event = E_STOPPED ∧
    ((sem_kill sem k).tsk t).id = ID_READY ∧
    ((sem_kill sem k).tsk t).guard = none := by
  have hq : getQueue (setSem k sem { k.sem sem with count := 0 }) (Queue.obj sem)
      = (k.sem sem).queue := by
    simp [getQueue]
  have h := wakeList_self E_STOPPED (k.sem sem).queue
    (setSem k sem { k.sem sem with count := 0 }) t ht
  unfold sem_kill
  simp only [core_all_wakeup_eq, hq]
  exact h

/-! ## What blocking changes -/

/-- The state after `core_tsk_block` on the queue of semaphore `sem`, seen from
that semaphore: `count` and `limit` are as before, the caller is linked into
the queue by priority, the caller is `BLOCKED` with `guard` on the queue, and
the guards of the other tasks are as before. -/
theorem block_obj (sem : Nat) (k : System) :
    (core_tsk_block (Queue.obj sem) k).1 = Ret.blocked ∧
    ((core_tsk_block (Queue.obj sem) k).2.sem sem).count = (k.sem sem).count ∧
    ((core_tsk_block (Queue.obj sem) k).2.sem sem).limit = (k.sem sem).limit ∧
    ((core_tsk_block (Queue.obj sem) k).2.sem sem).queue =
      prioInsert (fun x => ((setTsk k k.cur
        { k.tsk k.cur with id := ID_BLOCKED, guard := some (Queue.obj sem) }).tsk x).prio)
        k.cur (k.sem sem).queue ∧
    ((core_tsk_block (Queue.obj sem) k).2.tsk k.cur).guard = some (Queue.obj sem) ∧
    ((core_tsk_block (Queue.obj sem) k).2.tsk k.cur).id = ID_BLOCKED ∧
    ((core_tsk_block (Queue.obj sem) k).2.tsk k.cur).delay = (k.tsk k.cur).delay ∧
    (∀ u, u ≠ k.cur → (core_tsk_block (Queue.obj sem) k).2.tsk u = k.tsk u) := by
  unfold core_tsk_block
  simp only [setQueue, getQueue]
  refine ⟨trivial, ?_, ?_, ?_, ?_, ?_, ?_, ?_⟩
  · split <;> simp
  · split <;> simp
  · split <;> simp [setTsk]
  · split <;> simp
  · split <;> simp
  · split <;> simp
  · intro u hu
    split <;> simp [setTsk_other _ _ _ _ hu]

/-! ## The semaphore invariant is kept by every event -/

/-- The invariant looks only at the semaphore record and at the guards. -/
theorem SemInv_congr (sem : Nat) (role : Nat → Role) (k k1 : System)
    (hs : k1.sem sem = k.sem sem) (hg : ∀ u, (k1.tsk u).guard = (k.tsk u).guard)
    (h : SemInv sem role k) : SemInv sem role k1 := by
  unfold SemInv QueueGuarded at *
  rw [hs]
  refine ⟨h.1, h.2.1, ?_, h.2.2.2.1, h.2.2.2.2⟩
  intro t ht
  rw [hg]
  exact h.2.2.1 t ht

/-- After a wake-up the semaphore record keeps `count` and `limit`, its queue
shrinks, and whoever is still queued keeps its guard. -/
theorem SemInv_wakeup (sem : Nat) (role : Nat → Role) (k : System) (t e : Nat)
    (h : SemInv sem role k) : SemInv sem role (core_tsk_wakeup (some t) e k).2 := by
  have hc := wakeup_count t e k sem
  have hsub := wakeup_queue_sub sem t e k
  unfold SemInv at *
  rw [hc.1, hc.2]
  exact ⟨h.1, h.2.1, wakeup_guarded sem t e k h.2.2.1,
    fun u hu => h.2.2.2.1 u (hsub u hu), fun u hu => h.2.2.2.2 u (hsub u hu)⟩

/-- A task that is stopped while it waits leaves the queue like a woken one. -/
theorem SemInv_stopped (sem : Nat) (role : Nat → Role) (k : System) (t e : Nat)
    (h : SemInv sem role k) : SemInv sem role (core_tmr_remove t (core_tsk_unlink t e k)) := by
  have h1 := SemInv_wakeup sem role k t e h
  refine SemInv_congr sem role _ _ ?_ ?_ h1
  · simp [core_tsk_wakeup, core_tsk_insert, core_tmr_remove]
  · intro u
    by_cases hu : u = t
    · subst hu; simp [core_tsk_wakeup, core_tsk_insert, core_tmr_remove]
    · simp [core_tsk_wakeup, core_tsk_insert, core_tmr_remove, setTsk_other _ _ _ _ hu]

theorem SemInv_take (sem : Nat) (role : Nat → Role) (k : System)
    (h : SemInv sem role k) : SemInv sem role (priv_sem_take sem k).2 := by
  unfold priv_sem_take
  split
  · cases hq : (k.sem sem).queue with
    | nil =>
      simp only [List.head?_nil, wakeup_none, if_true]
      unfold SemInv QueueGuarded at *
      simp only [setSem_same, hq, List.not_mem_nil, false_implies, implies_true, and_true]
      exact ⟨by omega, h.2.1⟩
    | cons t rest =>
      have hfst : (core_tsk_wakeup (some t) E_SUCCESS k).1 = some t := rfl
      simp only [List.head?_cons, hfst]
      simpa using SemInv_wakeup sem role k t E_SUCCESS h
  · exact h

theorem SemInv_give (sem : Nat) (role : Nat → Role) (k : System)
    (h : SemInv sem role k) : SemInv sem role (priv_sem_give sem k).2 := by
  unfold priv_sem_give
  split
  · cases hq : (k.sem sem).queue with
    | nil =>
      simp only [List.head?_nil, wakeup_none, if_true]
      unfold SemInv QueueGuarded at *
      simp only [setSem_same, hq, List.not_mem_nil, false_implies, implies_true, and_true]
      exact ⟨by omega, h.2.1⟩
    | cons t rest =>
      have hfst : (core_tsk_wakeup (some t) E_SUCCESS k).1 = some t := rfl
      simp only [List.head?_cons, hfst]
      simpa using SemInv_wakeup sem role k t E_SUCCESS h
  · exact h

/-- Suspending the caller as `as` keeps the invariant when `count` has the value
at which that role may wait. -/
theorem SemInv_block (sem : Nat) (role : Nat → Role) (k : System) (rl : Role)
    (h : SemInv sem role k)
    (hc : (rl = Role.taker → (k.sem sem).count = 0) ∧
          (rl = Role.giver → (k.sem sem).count = (k.sem sem).limit)) :
    SemInv sem (Function.update role k.cur rl) (core_tsk_block (Queue.obj sem) k).2 := by
  obtain ⟨_, b1, b2, b3, b4, _, _, b5⟩ := block_obj sem k
  unfold SemInv QueueGuarded at *
  rw [b1, b2, b3]
  refine ⟨h.1, h.2.1, ?_, ?_, ?_⟩
  · intro t ht
    by_cases htc : t = k.cur
    · rw [htc]; exact b4
    · rw [b5 t htc]
      rcases (mem_prioInsert_iff _ _ _ _).mp ht with h1 | h1
      · exact absurd h1 htc
      · exact h.2.2.1 t h1
  · intro t ht hr
    by_cases htc : t = k.cur
    · rw [htc, Function.update_same] at hr
      exact hc.1 hr
    · rw [Function.update_noteq htc] at hr
      rcases (mem_prioInsert_iff _ _ _ _).mp ht with h1 | h1
      · exact absurd h1 htc
      · exact h.2.2.2.1 t h1 hr
  · intro t ht hr
    by_cases htc : t = k.cur
    · rw [htc, Function.update_same] at hr
      exact hc.2 hr
    · rw [Function.update_noteq htc] at hr
      rcases (mem_prioInsert_iff _ _ _ _).mp ht with h1 | h1
      · exact absurd h1 htc
      · exact h.2.2.2.2 t h1 hr

/-! ## Semaphore: the try variants -/

/-- The function `sem_take` on a semaphore with `count > 0` and nobody waiting. -/
theorem sem_take_free (sem : Nat) (k : System)
    (hc : 0 < (k.sem sem).count) (hq : (k.sem sem).queue = []) :
    sem_take sem k =
      (E_SUCCESS, setSem k sem { k.sem sem with count := (k.sem sem).count - 1 }) := by
  simp [sem_take, priv_sem_take, hc, hq, core_tsk_wakeup]

/-- The function `sem_give` on a semaphore with `count < limit` and nobody waiting. -/
theorem sem_give_free (sem : Nat) (k : System)
    (hc : (k.sem sem).count < (k.sem sem).limit) (hq : (k.sem sem).queue = []) :
    sem_give sem k =
      (E_SUCCESS, setSem k sem { k.sem sem with count := (k.sem sem).count + 1 }) := by
  simp [sem_give, priv_sem_give, hc, hq, core_tsk_wakeup]

/-- Writing `count` back to the value it has changes nothing. -/
theorem setSem_count_self (sem : Nat) (k : System) (c : Nat) (hc : c = (k.sem sem).count) :
    setSem k sem { k.sem sem with count := c } = k := by
  subst hc
  exact setSem_self k sem

/-- C1: for every semaphore with `limit >= 1`, `sem_take` with `count > 0` and
an empty wait queue returns `E_SUCCESS` and decrements `count` by exactly 1
(nothing else in the kernel changes); with `count == 0` it returns `E_TIMEOUT`
and leaves `count`, `limit` and the wait queue (indeed the whole state)
unchanged. -/
theorem sem_take_contract (sem : Nat) (k : System) (hl : 1 ≤ (k.sem sem).limit) :
    ((0 < (k.sem sem).count ∧ (k.sem sem).queue = []) →
      (sem_take sem k).1 = E_SUCCESS ∧
      ((sem_take sem k).2.sem sem).count + 1 = (k.sem sem).count ∧
      (sem_take sem k).2 = setSem k sem { k.sem sem with count := (k.sem sem).count - 1 }) ∧
    ((k.sem sem).count = 0 →
      (sem_take sem k).1 = E_TIMEOUT ∧
      ((sem_take sem k).2.sem sem).count = (k.sem sem).count ∧
      ((sem_take sem k).2.sem sem).limit = (k.sem sem).limit ∧
      ((sem_take sem k).2.sem sem).queue = (k.sem sem).queue ∧
      (sem_take sem k).2 = k) := by
  have _ := hl
  constructor
  · rintro ⟨hc, hq⟩
    have hc2 : (k.sem sem).count - 1 + 1 = (k.sem sem).count := Nat.sub_add_cancel hc
    simp [sem_take, priv_sem_take, hc, hq, core_tsk_wakeup, hc2]
  · intro hc
    simp [sem_take, priv_sem_take, hc]

/-- Witness for C1: a semaphore initialised with `(1, 1)` is taken once, and a
semaphore initialised with `(0, 1)` refuses. -/
theorem sem_take_contract_witness :
    (1 ≤ ((sem_init 0 1 1 sysZero).sem 0).limit ∧
      (0 < ((sem_init 0 1 1 sysZero).sem 0).count ∧ ((sem_init 0 1 1 sysZero).sem 0).queue = []) ∧
      (sem_take 0 (sem_init 0 1 1 sysZero)).1 = E_SUCCESS ∧
      ((sem_take 0 (sem_init 0 1 1 sysZero)).2.sem 0).count + 1 = 1) ∧
    (((sem_init 0 0 1 sysZero).sem 0).count = 0 ∧
      (sem_take 0 (sem_init 0 0 1 sysZero)).1 = E_TIMEOUT ∧
      (sem_take 0 (sem_init 0 0 1 sysZero)).2 = sem_init 0 0 1 sysZero) :=
  ⟨⟨by decide, ⟨by decide, by decide⟩,
    ((sem_take_contract 0 (sem_init 0 1 1 sysZero) (by decide)).1 ⟨by decide, by decide⟩).1,
    ((sem_take_contract 0 (sem_init 0 1 1 sysZero) (by decide)).1 ⟨by decide, by decide⟩).2.1⟩,
   ⟨by decide,
    ((sem_take_contract 0 (sem_init 0 0 1 sysZero) (by decide)).2 (by decide)).1,
    ((sem_take_contract 0 (sem_init 0 0 1 sysZero) (by decide)).2 (by decide)).2.2.2.2⟩⟩

/-- C2: for every semaphore with `limit >= 1`, `sem_give` with `count < limit`
and an empty wait queue returns `E_SUCCESS` and increments `count` by exactly 1
(nothing else in the kernel changes); with `count == limit` it returns
`E_TIMEOUT` and leaves `count`, `limit` and the wait queue (indeed the whole
state) unchanged. -/
theorem sem_give_contract (sem : Nat) (k : System) (hl : 1 ≤ (k.sem sem).limit) :
    (((k.sem sem).count < (k.sem sem).limit ∧ (k.sem sem).queue = []) →
      (sem_give sem k).1 = E_SUCCESS ∧
      ((sem_give sem k).2.sem sem).count = (k.sem sem).count + 1 ∧
      (sem_give sem k).2 = setSem k sem { k.sem sem with count := (k.sem sem).count + 1 }) ∧
    ((k.sem sem).count = (k.sem sem).limit →
      (sem_give sem k).1 = E_TIMEOUT ∧
      ((sem_give sem k).2.sem sem).count = (k.sem sem).count ∧
      ((sem_give sem k).2.sem sem).limit = (k.sem sem).limit ∧
      ((sem_give sem k).2.sem sem).queue = (k.sem sem).queue ∧
      (sem_give sem k).2 = k) := by
  have _ := hl
  constructor
  · rintro ⟨hc, hq⟩
    simp [sem_give, priv_sem_give, hc, hq, core_tsk_wakeup]
  · intro hc
    simp [sem_give, priv_sem_give, hc]

/-- Witness for C2: a semaphore initialised with `(0, 1)` is given once, and a
semaphore initialised with `(1, 1)` refuses. -/
theorem sem_give_contract_witness :
    (1 ≤ ((sem_init 0 0 1 sysZero).sem 0).limit ∧
      (((sem_init 0 0 1 sysZero).sem 0).count < ((sem_init 0 0 1 sysZero).sem 0).limit ∧
        ((sem_init 0 0 1 sysZero).sem 0).queue = []) ∧
      (sem_give 0 (sem_init 0 0 1 sysZero)).1 = E_SUCCESS ∧
      ((sem_give 0 (sem_init 0 0 1 sysZero)).2.sem 0).count = 0 + 1) ∧
    (((sem_init 0 1 1 sysZero).sem 0).count = ((sem_init 0 1 1 sysZero).sem 0).limit ∧
      (sem_give 0 (sem_init 0 1 1 sysZero)).1 = E_TIMEOUT ∧
      (sem_give 0 (sem_init 0 1 1 sysZero)).2 = sem_init 0 1 1 sysZero) :=
  ⟨⟨by decide, ⟨by decide, by decide⟩,
    ((sem_give_contract 0 (sem_init 0 0 1 sysZero) (by decide)).1 ⟨by decide, by decide⟩).1,
    ((sem_give_contract 0 (sem_init 0 0 1 sysZero) (by decide)).1 ⟨by decide, by decide⟩).2.1⟩,
   ⟨by decide,
    ((sem_give_contract 0 (sem_init 0 1 1 sysZero) (by decide)).2 (by decide)).1,
    ((sem_give_contract 0 (sem_init 0 1 1 sysZero) (by decide)).2 (by decide)).2.2.2.2⟩⟩

/-! ## Semaphore: direct hand-off -/

/-- C3: direct hand-off.  For every semaphore whose wait queue has head `t`:
with `count < limit`, `sem_give` returns `E_SUCCESS`, wakes `t` with
`E_SUCCESS` (its suspended call returns `E_SUCCESS`, it is `READY` and on the
ready list, it is no longer blocked) and leaves `count` and `limit` unchanged;
with `count > 0`, `sem_take` does the same.  When the head's `guard` points to
this semaphore, the head also leaves the wait queue. -/
theorem sem_handoff (sem : Nat) (k : System) (t : Nat) (rest : List Nat)
    (hq : (k.sem sem).queue = t :: rest) :
    ((k.sem sem).count < (k.sem sem).limit →
      (sem_give sem k).1 = E_SUCCESS ∧
      Ret.value Ret.blocked t (sem_give sem k).2 = E_SUCCESS ∧
      ((sem_give sem k).2.tsk t).id = ID_READY ∧
      ((sem_give sem k).2.tsk t).guard = none ∧
      t ∈ (sem_give sem k).2.rdy ∧
      ((sem_give sem k).2.sem sem).count = (k.sem sem).count ∧
      ((sem_give sem k).2.sem sem).limit = (k.sem sem).limit ∧
      ((k.tsk t).guard = some (Queue.obj sem) →
        ((sem_give sem k).2.sem sem).queue = rest.filter (fun x => x != t))) ∧
    (0 < (k.sem sem).count →
      (sem_take sem k).1 = E_SUCCESS ∧
      Ret.value Ret.blocked t (sem_take sem k).2 = E_SUCCESS ∧
      ((sem_take sem k).2.tsk t).id = ID_READY ∧
      ((sem_take sem k).2.tsk t).guard = none ∧
      t ∈ (sem_take sem k).2.rdy ∧
      ((sem_take sem k).2.sem sem).count = (k.sem sem).count ∧
      ((sem_take sem k).2.sem sem).limit = (k.sem sem).limit ∧
      ((k.tsk t).guard = some (Queue.obj sem) →
        ((sem_take sem k).2.sem sem).queue = rest.filter (fun x => x != t))) := by
  have hs := wakeup_self t E_SUCCESS k
  have hc := wakeup_count t E_SUCCESS k sem
  have hw := wakeup_queue t E_SUCCESS k sem
  have hr := wakeup_rdy t E_SUCCESS k
  have hfst : (core_tsk_wakeup (some t) E_SUCCESS k).1 = some t := rfl
  constructor
  · intro hlt
    have e : (sem_give sem k).2 = (core_tsk_wakeup (some t) E_SUCCESS k).2 := by
      simp [sem_give, priv_sem_give, hlt, hq, hfst]
    refine ⟨by simp [sem_give, priv_sem_give, hlt], ?_⟩
    rw [e]
    refine ⟨hs.1, hs.2.2.1, hs.2.1, hr, hc.1, hc.2, ?_⟩
    intro hg
    rw [hw, if_pos hg, hq]
    simp [List.filter_cons]
  · intro hpos
    have e : (sem_take sem k).2 = (core_tsk_wakeup (some t) E_SUCCESS k).2 := by
      simp [sem_take, priv_sem_take, hpos, hq, hfst]
    refine ⟨by simp [sem_take, priv_sem_take, hpos], ?_⟩
    rw [e]
    refine ⟨hs.1, hs.2.2.1, hs.2.1, hr, hc.1, hc.2, ?_⟩
    intro hg
    rw [hw, if_pos hg, hq]
    simp [List.filter_cons]

/-- Witness for C3: in scenario 1, A is blocked on the queue with a stale event
77; B (task 2) calls `give`: B gets `E_SUCCESS`, A's call returns `E_SUCCESS`,
`count` is still 0 and the queue is empty again.  Symmetrically, with A blocked
as a giver at `count == limit == 1`, B calls `take`: both get `E_SUCCESS` and
`count` is still 1. -/
theorem sem_handoff_witness :
    ((sysHandoff.sem 0).queue = 1 :: [] ∧
      (sysHandoff.sem 0).count < (sysHandoff.sem 0).limit ∧
      (sysHandoff.tsk 1).id = ID_BLOCKED ∧
      (sysHandoff.tsk 1).event = 77 ∧
      (sem_give 0 (dispatch 2 sysHandoff)).1 = E_SUCCESS ∧
      Ret.value Ret.blocked 1 (sem_give 0 (dispatch 2 sysHandoff)).2 = E_SUCCESS ∧
      ((sem_give 0 (dispatch 2 sysHandoff)).2.tsk 1).id = ID_READY ∧
      ((sem_give 0 (dispatch 2 sysHandoff)).2.sem 0).count = 0 ∧
      ((sem_give 0 (dispatch 2 sysHandoff)).2.sem 0).queue = []) ∧
    ((sysGiver.sem 0).queue = 1 :: [] ∧
      0 < (sysGiver.sem 0).count ∧
      (sysGiver.tsk 1).event = 77 ∧
      (sem_take 0 (dispatch 2 sysGiver)).1 = E_SUCCESS ∧
      Ret.value Ret.blocked 1 (sem_take 0 (dispatch 2 sysGiver)).2 = E_SUCCESS ∧
      ((sem_take 0 (dispatch 2 sysGiver)).2.sem 0).count = 1) :=
  ⟨⟨by decide, by decide, by decide, by decide,
    ((sem_handoff 0 (dispatch 2 sysHandoff) 1 [] (by decide)).1 (by decide)).1,
    ((sem_handoff 0 (dispatch 2 sysHandoff) 1 [] (by decide)).1 (by decide)).2.1,
    ((sem_handoff 0 (dispatch 2 sysHandoff) 1 [] (by decide)).1 (by decide)).2.2.1,
    ((sem_handoff 0 (dispatch 2 sysHandoff) 1 [] (by decide)).1 (by decide)).2.2.2.2.2.1,
    ((sem_handoff 0 (dispatch 2 sysHandoff) 1 [] (by decide)).1 (by decide)).2.2.2.2.2.2.2
      (by decide)⟩,
   ⟨by decide, by decide, by decide,
    ((sem_handoff 0 (dispatch 2 sysGiver) 1 [] (by decide)).2 (by decide)).1,
    ((sem_handoff 0 (dispatch 2 sysGiver) 1 [] (by decide)).2 (by decide)).2.1,
    ((sem_handoff 0 (dispatch 2 sysGiver) 1 [] (by decide)).2 (by decide)).2.2.2.2.2.1⟩⟩

theorem SemInv_kill (sem : Nat) (role : Nat → Role) (k : System)
    (h : SemInv sem role k) : SemInv sem role (sem_kill sem k) := by
  have hempty := sem_kill_queue_nil sem k h.2.2.1
  have hcount := sem_kill_count sem k
  unfold SemInv QueueGuarded
  rw [hempty, hcount.1, hcount.2]
  simp [h.2.1]

/-- What `priv_sem_take` returns. -/
theorem priv_sem_take_cases (sem : Nat) (k : System) :
    (0 < (k.sem sem).count → (priv_sem_take sem k).1 = E_SUCCESS) ∧
    ((k.sem sem).count = 0 → priv_sem_take sem k = (E_TIMEOUT, k)) := by
  constructor
  · intro h; simp [priv_sem_take, h]
  · intro h; simp [priv_sem_take, h]

/-- What `priv_sem_give` returns. -/
theorem priv_sem_give_cases (sem : Nat) (k : System) :
    ((k.sem sem).count < (k.sem sem).limit → (priv_sem_give sem k).1 = E_SUCCESS) ∧
    (¬ (k.sem sem).count < (k.sem sem).limit → priv_sem_give sem k = (E_TIMEOUT, k)) := by
  constructor
  · intro h; simp [priv_sem_give, h]
  · intro h; simp [priv_sem_give, h]

theorem E_SUCCESS_ne_E_TIMEOUT : E_SUCCESS ≠ E_TIMEOUT := by decide

/-- Suspending the caller after its timeout fields were written. -/
theorem SemInv_suspend (sem : Nat) (role : Nat → Role) (k : System) (rl : Role) (v : tsk_t)
    (hv : v.guard = (k.tsk k.cur).guard) (h : SemInv sem role k)
    (hc : (rl = Role.taker → (k.sem sem).count = 0) ∧
          (rl = Role.giver → (k.sem sem).count = (k.sem sem).limit)) :
    SemInv sem (Function.update role k.cur rl)
      (core_tsk_block (Queue.obj sem) (setTsk k k.cur v)).2 := by
  have h1 : SemInv sem role (setTsk k k.cur v) := by
    refine SemInv_congr sem role k _ rfl ?_ h
    intro u
    by_cases hu : u = k.cur
    · rw [hu, setTsk_same, hv]
    · rw [setTsk_other _ _ _ _ hu]
  exact SemInv_block sem role (setTsk k k.cur v) rl h1 hc

theorem SemInv_waitFor (sem : Nat) (role : Nat → Role) (k : System) (delay : Nat)
    (h : SemInv sem role k) :
    SemInv sem (noteRole (sem_waitFor sem delay k).1 k.cur Role.taker role)
      (sem_waitFor sem delay k).2 := by
  have hcs := priv_sem_take_cases sem k
  rcases Nat.eq_zero_or_pos (k.sem sem).count with h0 | hpos
  · have e : sem_waitFor sem delay k = core_tsk_waitFor (Queue.obj sem) delay k := by
      simp [sem_waitFor, hcs.2 h0]
    rw [e]
    have hb : (core_tsk_waitFor (Queue.obj sem) delay k).1 = Ret.blocked := rfl
    simp only [noteRole, hb, if_true]
    exact SemInv_suspend sem role k Role.taker _ rfl h ⟨fun _ => h0, fun hh => by cases hh⟩
  · have e : sem_waitFor sem delay k = (Ret.val E_SUCCESS, (priv_sem_take sem k).2) := by
      simp [sem_waitFor, hcs.1 hpos, E_SUCCESS_ne_E_TIMEOUT]
    rw [e]
    simp only [noteRole, if_neg (show ¬ (Ret.val E_SUCCESS = Ret.blocked) by decide)]
    exact SemInv_take sem role k h

theorem SemInv_waitUntil (sem : Nat) (role : Nat → Role) (k : System) (time : Nat)
    (h : SemInv sem role k) :
    SemInv sem (noteRole (sem_waitUntil sem time k).1 k.cur Role.taker role)
      (sem_waitUntil sem time k).2 := by
  have hcs := priv_sem_take_cases sem k
  rcases Nat.eq_zero_or_pos (k.sem sem).count with h0 | hpos
  · have e : sem_waitUntil sem time k = core_tsk_waitUntil (Queue.obj sem) time k := by
      simp [sem_waitUntil, hcs.2 h0]
    rw [e]
    have hb : (core_tsk_waitUntil (Queue.obj sem) time k).1 = Ret.blocked := rfl
    simp only [noteRole, hb, if_true]
    exact SemInv_suspend sem role k Role.taker _ rfl h ⟨fun _ => h0, fun hh => by cases hh⟩
  · have e : sem_waitUntil sem time k = (Ret.val E_SUCCESS, (priv_sem_take sem k).2) := by
      simp [sem_waitUntil, hcs.1 hpos, E_SUCCESS_ne_E_TIMEOUT]
    rw [e]
    simp only [noteRole, if_neg (show ¬ (Ret.val E_SUCCESS = Ret.blocked) by decide)]
    exact SemInv_take sem role k h

theorem SemInv_sendFor (sem : Nat) (role : Nat → Role) (k : System) (delay : Nat)
    (h : SemInv sem role k) :
    SemInv sem (noteRole (sem_sendFor sem delay k).1 k.cur Role.giver role)
      (sem_sendFor sem delay k).2 := by
  have hcs := priv_sem_give_cases sem k
  by_cases hlt : (k.sem sem).count < (k.sem sem).limit
  · have e : sem_sendFor sem delay k = (Ret.val E_SUCCESS, (priv_sem_give sem k).2) := by
      simp [sem_sendFor, hcs.1 hlt, E_SUCCESS_ne_E_TIMEOUT]
    rw [e]
    simp only [noteRole, if_neg (show ¬ (Ret.val E_SUCCESS = Ret.blocked) by decide)]
    exact SemInv_give sem role k h
  · have e : sem_sendFor sem delay k = core_tsk_waitFor (Queue.obj sem) delay k := by
      simp [sem_sendFor, hcs.2 hlt]
    rw [e]
    have hb : (core_tsk_waitFor (Queue.obj sem) delay k).1 = Ret.blocked := rfl
    simp only [noteRole, hb, if_true]
    have heq : (k.sem sem).count = (k.sem sem).limit := by have := h.1; omega
    exact SemInv_suspend sem role k Role.giver _ rfl h ⟨fun hh => (by cases hh), fun _ => heq⟩

theorem SemInv_sendUntil (sem : Nat) (role : Nat → Role) (k : System) (time : Nat)
    (h : SemInv sem role k) :
    SemInv sem (noteRole (sem_sendUntil sem time k).1 k.cur Role.giver role)
      (sem_sendUntil sem time k).2 := by
  have hcs := priv_sem_give_cases sem k
  by_cases hlt : (k.sem sem).count < (k.sem sem).limit
  · have e : sem_sendUntil sem time k = (Ret.val E_SUCCESS, (priv_sem_give sem k).2) := by
      simp [sem_sendUntil, hcs.1 hlt, E_SUCCESS_ne_E_TIMEOUT]
    rw [e]
    simp only [noteRole, if_neg (show ¬ (Ret.val E_SUCCESS = Ret.blocked) by decide)]
    exact SemInv_give sem role k h
  · have e : sem_sendUntil sem time k = core_tsk_waitUntil (Queue.obj sem) time k := by
      simp [sem_sendUntil, hcs.2 hlt]
    rw [e]
    have hb : (core_tsk_waitUntil (Queue.obj sem) time k).1 = Ret.blocked := rfl
    simp only [noteRole, hb, if_true]
    have heq : (k.sem sem).count = (k.sem sem).limit := by have := h.1; omega
    exact SemInv_suspend sem role k Role.giver _ rfl h ⟨fun hh => (by cases hh), fun _ => heq⟩

/-- One event keeps the invariant. -/
theorem stepEv_inv (sem : Nat) (x : Traced) (e : Ev) (h : SemInv sem x.role x.sys) :
    SemInv sem (stepEv sem x e).role (stepEv sem x e).sys := by
  have hd : ∀ c, SemInv sem x.role (dispatch c x.sys) := fun _ => h
  cases e with
  | take c => exact SemInv_take sem x.role _ (hd c)
  | give c => exact SemInv_give sem x.role _ (hd c)
  | kill c => exact SemInv_kill sem x.role _ (hd c)
  | timeout t => exact SemInv_wakeup sem x.role _ t E_TIMEOUT h
  | stopped t => exact SemInv_stopped sem x.role _ t E_STOPPED h
  | waitFor c delay => exact SemInv_waitFor sem x.role (dispatch c x.sys) delay (hd c)
  | waitUntil c time => exact SemInv_waitUntil sem x.role (dispatch c x.sys) time (hd c)
  | sendFor c delay => exact SemInv_sendFor sem x.role (dispatch c x.sys) delay (hd c)
  | sendUntil c time => exact SemInv_sendUntil sem x.role (dispatch c x.sys) time (hd c)

/-- A history keeps the invariant. -/
theorem runEv_inv (sem : Nat) (evs : List Ev) (x : Traced) (h : SemInv sem x.role x.sys) :
    SemInv sem (runEv sem evs x).role (runEv sem evs x).sys := by
  induction evs generalizing x with
  | nil => exact h
  | cons e evs ih => exact ih (stepEv sem x e) (stepEv_inv sem x e h)

/-- The state right after `sem_init` satisfies the invariant. -/
theorem sem_init_inv (sem init limit : Nat) (k : System) (role : Nat → Role)
    (h1 : init ≤ limit) (h2 : 1 ≤ limit) : SemInv sem role (sem_init sem init limit k) := by
  unfold SemInv QueueGuarded sem_init
  simp [h1, h2]

/-! ## The limit of a semaphore is never written -/

theorem priv_sem_take_limit (sem : Nat) (k : System) :
    ((priv_sem_take sem k).2.sem sem).limit = (k.sem sem).limit := by
  unfold priv_sem_take
  split
  · cases hq : (k.sem sem).queue with
    | nil => simp [wakeup_none]
    | cons t rest =>
      have hfst : (core_tsk_wakeup (some t) E_SUCCESS k).1 = some t := rfl
      simp [hfst, (wakeup_count t E_SUCCESS k sem).2]
  · rfl

theorem priv_sem_give_limit (sem : Nat) (k : System) :
    ((priv_sem_give sem k).2.sem sem).limit = (k.sem sem).limit := by
  unfold priv_sem_give
  split
  · cases hq : (k.sem sem).queue with
    | nil => simp [wakeup_none]
    | cons t rest =>
      have hfst : (core_tsk_wakeup (some t) E_SUCCESS k).1 = some t := rfl
      simp [hfst, (wakeup_count t E_SUCCESS k sem).2]
  · rfl

theorem suspend_limit (sem : Nat) (k : System) (v : tsk_t) :
    ((core_tsk_block (Queue.obj sem) (setTsk k k.cur v)).2.sem sem).limit = (k.sem sem).limit :=
  (block_obj sem (setTsk k k.cur v)).2.2.1

/-- The two paths of `sem_waitFor`. -/
theorem sem_waitFor_eq (sem delay : Nat) (k : System) :
    (0 < (k.sem sem).count →
      sem_waitFor sem delay k = (Ret.val E_SUCCESS, (priv_sem_take sem k).2)) ∧
    ((k.sem sem).count = 0 →
      sem_waitFor sem delay k = core_tsk_waitFor (Queue.obj sem) delay k) := by
  have hcs := priv_sem_take_cases sem k
  constructor
  · intro h; simp [sem_waitFor, hcs.1 h, E_SUCCESS_ne_E_TIMEOUT]
  · intro h; simp [sem_waitFor, hcs.2 h]

/-- The two paths of `sem_waitUntil`. -/
theorem sem_waitUntil_eq (sem time : Nat) (k : System) :
    (0 < (k.sem sem).count →
      sem_waitUntil sem time k = (Ret.val E_SUCCESS, (priv_sem_take sem k).2)) ∧
    ((k.sem sem).count = 0 →
      sem_waitUntil sem time k = core_tsk_waitUntil (Queue.obj sem) time k) := by
  have hcs := priv_sem_take_cases sem k
  constructor
  · intro h; simp [sem_waitUntil, hcs.1 h, E_SUCCESS_ne_E_TIMEOUT]
  · intro h; simp [sem_waitUntil, hcs.2 h]

/-- The two paths of `sem_sendFor`. -/
theorem sem_sendFor_eq (sem delay : Nat) (k : System) :
    ((k.sem sem).count < (k.sem sem).limit →
      sem_sendFor sem delay k = (Ret.val E_SUCCESS, (priv_sem_give sem k).2)) ∧
    (¬ (k.sem sem).count < (k.sem sem).limit →
      sem_sendFor sem delay k = core_tsk_waitFor (Queue.obj sem) delay k) := by
  have hcs := priv_sem_give_cases sem k
  constructor
  · intro h; simp [sem_sendFor, hcs.1 h, E_SUCCESS_ne_E_TIMEOUT]
  · intro h; simp [sem_sendFor, hcs.2 h]

/-- The two paths of `sem_sendUntil`. -/
theorem sem_sendUntil_eq (sem time : Nat) (k : System) :
    ((k.sem sem).count < (k.sem sem).limit →
      sem_sendUntil sem time k = (Ret.val E_SUCCESS, (priv_sem_give sem k).2)) ∧
    (¬ (k.sem sem).count < (k.sem sem).limit →
      sem_sendUntil sem time k = core_tsk_waitUntil (Queue.obj sem) time k) := by
  have hcs := priv_sem_give_cases sem k
  constructor
  · intro h; simp [sem_sendUntil, hcs.1 h, E_SUCCESS_ne_E_TIMEOUT]
  · intro h; simp [sem_sendUntil, hcs.2 h]

theorem sem_waitFor_limit (sem delay : Nat) (k : System) :
    ((sem_waitFor sem delay k).2.sem sem).limit = (k.sem sem).limit := by
  rcases Nat.eq_zero_or_pos (k.sem sem).count with h0 | hpos
  · rw [(sem_waitFor_eq sem delay k).2 h0]
    exact suspend_limit sem k _
  · rw [(sem_waitFor_eq sem delay k).1 hpos]
    exact priv_sem_take_limit sem k

theorem sem_waitUntil_limit (sem time : Nat) (k : System) :
    ((sem_waitUntil sem time k).2.sem sem).limit = (k.sem sem).limit := by
  rcases Nat.eq_zero_or_pos (k.sem sem).count with h0 | hpos
  · rw [(sem_waitUntil_eq sem time k).2 h0]
    exact suspend_limit sem k _
  · rw [(sem_waitUntil_eq sem time k).1 hpos]
    exact priv_sem_take_limit sem k

theorem sem_sendFor_limit (sem delay : Nat) (k : System) :
    ((sem_sendFor sem delay k).2.sem sem).limit = (k.sem sem).limit := by
  by_cases hlt : (k.sem sem).count < (k.sem sem).limit
  · rw [(sem_sendFor_eq sem delay k).1 hlt]
    exact priv_sem_give_limit sem k
  · rw [(sem_sendFor_eq sem delay k).2 hlt]
    exact suspend_limit sem k _

theorem sem_sendUntil_limit (sem time : Nat) (k : System) :
    ((sem_sendUntil sem time k).2.sem sem).limit = (k.sem sem).limit := by
  by_cases hlt : (k.sem sem).count < (k.sem sem).limit
  · rw [(sem_sendUntil_eq sem time k).1 hlt]
    exact priv_sem_give_limit sem k
  · rw [(sem_sendUntil_eq sem time k).2 hlt]
    exact suspend_limit sem k _

theorem stepEv_limit (sem : Nat) (x : Traced) (e : Ev) :
    ((stepEv sem x e).sys.sem sem).limit = (x.sys.sem sem).limit := by
  cases e with
  | take c => exact priv_sem_take_limit sem (dispatch c x.sys)
  | give c => exact priv_sem_give_limit sem (dispatch c x.sys)
  | kill c => exact (sem_kill_count sem (dispatch c x.sys)).2
  | timeout t => exact (wakeup_count t E_TIMEOUT x.sys sem).2
  | stopped t => exact (unlink_count t E_STOPPED x.sys sem).2
  | waitFor c delay => exact sem_waitFor_limit sem delay (dispatch c x.sys)
  | waitUntil c time => exact sem_waitUntil_limit sem time (dispatch c x.sys)
  | sendFor c delay => exact sem_sendFor_limit sem delay (dispatch c x.sys)
  | sendUntil c time => exact sem_sendUntil_limit sem time (dispatch c x.sys)

theorem runEv_limit (sem : Nat) (evs : List Ev) (x : Traced) :
    ((runEv sem evs x).sys.sem sem).limit = (x.sys.sem sem).limit := by
  induction evs generalizing x with
  | nil => rfl
  | cons e evs ih => exact (ih (stepEv sem x e)).trans (stepEv_limit sem x e)

/-! ## Semaphore: invariants -/

/-- C4: bounds invariant.  For a semaphore initialised by `sem_init(init, limit)`
with `init <= limit` and `limit >= 1`, in any kernel and after any finite
history of `sem_take`, `sem_give`, `sem_waitFor`, `sem_waitUntil`,
`sem_sendFor`, `sem_sendUntil` and `sem_kill` by any callers (and of waiters
timing out or being stopped), `0 <= count <= limit` holds and `limit` still has
the value given to `sem_init`. -/
theorem sem_bounds (sem init limit : Nat) (k : System) (role : Nat → Role) (evs : List Ev)
    (h1 : init ≤ limit) (h2 : 1 ≤ limit) :
    0 ≤ ((runEv sem evs { sys := sem_init sem init limit k, role := role }).sys.sem sem).count ∧
    ((runEv sem evs { sys := sem_init sem init limit k, role := role }).sys.sem sem).count ≤
      ((runEv sem evs { sys := sem_init sem init limit k, role := role }).sys.sem sem).limit ∧
    ((runEv sem evs { sys := sem_init sem init limit k, role := role }).sys.sem sem).limit
      = limit := by
  have hinv := runEv_inv sem evs { sys := sem_init sem init limit k, role := role }
    (sem_init_inv sem init limit k role h1 h2)
  have hlim := runEv_limit sem evs { sys := sem_init sem init limit k, role := role }
  refine ⟨Nat.zero_le _, hinv.1, ?_⟩
  rw [hlim]
  simp [sem_init]

/-- Witness for C4: `sem_init(1, 2)` followed by the history `evDemo`. -/
theorem sem_bounds_witness :
    1 ≤ 2 ∧ 1 ≤ 2 ∧
    (0 ≤ ((runEv 0 evDemo
        { sys := sem_init 0 1 2 sysABC, role := fun _ => Role.taker }).sys.sem 0).count ∧
      ((runEv 0 evDemo
        { sys := sem_init 0 1 2 sysABC, role := fun _ => Role.taker }).sys.sem 0).count ≤
      ((runEv 0 evDemo
        { sys := sem_init 0 1 2 sysABC, role := fun _ => Role.taker }).sys.sem 0).limit ∧
      ((runEv 0 evDemo
        { sys := sem_init 0 1 2 sysABC, role := fun _ => Role.taker }).sys.sem 0).limit = 2) ∧
    ((runEv 0 (evDemo.take 2)
        { sys := sem_init 0 1 2 sysABC, role := fun _ => Role.taker }).sys.sem 0).count = 2 :=
  ⟨by decide, by decide,
   sem_bounds 0 1 2 sysABC (fun _ => Role.taker) evDemo (by decide) (by decide),
   by decide⟩

/-- C5: waiter homogeneity.  In every state reached from `sem_init(init, limit)`
(`init <= limit`, `limit >= 1`) by a finite history of semaphore services,
time-outs and stops, where a task is queued only by `sem_waitFor` /
`sem_waitUntil` (as a taker) or `sem_sendFor` / `sem_sendUntil` (as a giver):
if `count > 0` no taker is on the wait queue and if `count < limit` no giver is
on it; equivalently `count == 0` excludes a queued giver and `count == limit`
excludes a queued taker. -/
theorem sem_waiters_homogeneous (sem init limit : Nat) (k : System) (role : Nat → Role)
    (evs : List Ev) (h1 : init ≤ limit) (h2 : 1 ≤ limit) :
    (0 < ((runEv sem evs { sys := sem_init sem init limit k, role := role }).sys.sem sem).count →
      ∀ t ∈ ((runEv sem evs { sys := sem_init sem init limit k, role := role }).sys.sem sem).queue,
        (runEv sem evs { sys := sem_init sem init limit k, role := role }).role t ≠ Role.taker) ∧
    (((runEv sem evs { sys := sem_init sem init limit k, role := role }).sys.sem sem).count <
        ((runEv sem evs { sys := sem_init sem init limit k, role := role }).sys.sem sem).limit →
      ∀ t ∈ ((runEv sem evs { sys := sem_init sem init limit k, role := role }).sys.sem sem).queue,
        (runEv sem evs { sys := sem_init sem init limit k, role := role }).role t ≠ Role.giver) ∧
    (((runEv sem evs { sys := sem_init sem init limit k, role := role }).sys.sem sem).count = 0 →
      ∀ t ∈ ((runEv sem evs { sys := sem_init sem init limit k, role := role }).sys.sem sem).queue,
        (runEv sem evs { sys := sem_init sem init limit k, role := role }).role t ≠ Role.giver) ∧
    (((runEv sem evs { sys := sem_init sem init limit k, role := role }).sys.sem sem).count =
        ((runEv sem evs { sys := sem_init sem init limit k, role := role }).sys.sem sem).limit →
      ∀ t ∈ ((runEv sem evs { sys := sem_init sem init limit k, role := role }).sys.sem sem).queue,
        (runEv sem evs { sys := sem_init sem init limit k, role := role }).role t ≠ Role.taker) := by
  have hinv := runEv_inv sem evs { sys := sem_init sem init limit k, role := role }
    (sem_init_inv sem init limit k role h1 h2)
  obtain ⟨_, hl, _, ht, hg⟩ := hinv
  refine ⟨?_, ?_, ?_, ?_⟩
  · intro hc t hm hr
    have := ht t hm hr
    omega
  · intro hc t hm hr
    have := hg t hm hr
    omega
  · intro hc t hm hr
    have := hg t hm hr
    omega
  · intro hc t hm hr
    have := ht t hm hr
    omega

/-- Witness for C5: after `sem_init(1, 2)` and the history `evDemo` task 2 waits
as a taker at `count == 0`; halfway, task 1 waits as a giver at
`count == limit`. -/
theorem sem_waiters_homogeneous_witness :
    1 ≤ 2 ∧ 1 ≤ 2 ∧
    ((runEv 0 evDemo
      { sys := sem_init 0 1 2 sysABC, role := fun _ => Role.giver }).sys.sem 0).queue = [2] ∧
    (runEv 0 evDemo
      { sys := sem_init 0 1 2 sysABC, role := fun _ => Role.giver }).role 2 = Role.taker ∧
    ((runEv 0 evDemo
      { sys := sem_init 0 1 2 sysABC, role := fun _ => Role.giver }).sys.sem 0).count = 0 ∧
    (∀ t ∈ ((runEv 0 evDemo
        { sys := sem_init 0 1 2 sysABC, role := fun _ => Role.giver }).sys.sem 0).queue,
      (runEv 0 evDemo
        { sys := sem_init 0 1 2 sysABC, role := fun _ => Role.giver }).role t ≠ Role.giver) ∧
    ((runEv 0 (evDemo.take 3)
      { sys := sem_init 0 1 2 sysABC, role := fun _ => Role.taker }).sys.sem 0).queue = [1] ∧
    ((runEv 0 (evDemo.take 3)
      { sys := sem_init 0 1 2 sysABC, role := fun _ => Role.taker }).sys.sem 0).count = 2 ∧
    (∀ t ∈ ((runEv 0 (evDemo.take 3)
        { sys := sem_init 0 1 2 sysABC, role := fun _ => Role.taker }).sys.sem 0).queue,
      (runEv 0 (evDemo.take 3)
        { sys := sem_init 0 1 2 sysABC, role := fun _ => Role.taker }).role t ≠ Role.taker) :=
  ⟨by decide, by decide, by decide, by decide, by decide,
   (sem_waiters_homogeneous 0 1 2 sysABC (fun _ => Role.giver) evDemo
      (by decide) (by decide)).2.1 (by decide),
   by decide, by decide,
   (sem_waiters_homogeneous 0 1 2 sysABC (fun _ => Role.taker) (evDemo.take 3)
      (by decide) (by decide)).1 (by decide)⟩

/-! ## Semaphore: kill -/

/-- C6: `sem_kill`, for every semaphore state whose wait queue holds any number
of blocked tasks (takers or givers, each blocked on this queue): afterwards
`count == 0`, the wait queue is empty, `limit` is unchanged, and every task
that was on the queue has been woken with `E_STOPPED` (its suspended call
returns `E_STOPPED`, it is `READY` and blocked on nothing). -/
theorem sem_kill_releases_all (sem : Nat) (k : System) (hg : QueueGuarded sem k) :
    ((sem_kill sem k).sem sem).count = 0 ∧
    ((sem_kill sem k).sem sem).queue = [] ∧
    ((sem_kill sem k).sem sem).limit = (k.sem sem).limit ∧
    (∀ t ∈ (k.sem sem).queue,
      Ret.value Ret.blocked t (sem_kill sem k) = E_STOPPED ∧
      ((sem_kill sem k).tsk t).id = ID_READY ∧
      ((sem_kill sem k).tsk t).guard = none) :=
  ⟨(sem_kill_count sem k).1, sem_kill_queue_nil sem k hg, (sem_kill_count sem k).2,
   fun t ht => sem_kill_woken sem k t ht⟩

/-- Witness for C6 (scenario 2 of section 8): three tasks are blocked in
`waitFor(s, INFINITE)`, each with a stale event 77; after `kill(s)` all three
calls return `E_STOPPED`, `count == 0` and the queue is empty. -/
theorem sem_kill_releases_all_witness :
    QueueGuarded 0 sysThree ∧
    (sysThree.sem 0).queue = [1, 2, 3] ∧
    ((sysThree.tsk 1).event = 77 ∧ (sysThree.tsk 2).event = 77 ∧ (sysThree.tsk 3).event = 77) ∧
    ((sem_kill 0 sysThree).sem 0).count = 0 ∧
    ((sem_kill 0 sysThree).sem 0).queue = [] ∧
    Ret.value Ret.blocked 1 (sem_kill 0 sysThree) = E_STOPPED ∧
    Ret.value Ret.blocked 2 (sem_kill 0 sysThree) = E_STOPPED ∧
    Ret.value Ret.blocked 3 (sem_kill 0 sysThree) = E_STOPPED :=
  ⟨by decide, by decide, by decide,
   (sem_kill_releases_all 0 sysThree (by decide)).1,
   (sem_kill_releases_all 0 sysThree (by decide)).2.1,
   ((sem_kill_releases_all 0 sysThree (by decide)).2.2.2 1 (by decide)).1,
   ((sem_kill_releases_all 0 sysThree (by decide)).2.2.2 2 (by decide)).1,
   ((sem_kill_releases_all 0 sysThree (by decide)).2.2.2 3 (by decide)).1⟩

/-! ## Semaphore: laws -/

/-- C7: give-then-take law.  For every semaphore with `count == 0`,
`limit >= 1` and an empty wait queue, `sem_give` followed by `sem_take` both
return `E_SUCCESS`, and the state after the pair is the original state
(`count == 0`, same `limit`, empty queue, nothing else touched). -/
theorem sem_give_take_law (sem : Nat) (k : System)
    (hc : (k.sem sem).count = 0) (hl : 1 ≤ (k.sem sem).limit) (hq : (k.sem sem).queue = []) :
    (sem_give sem k).1 = E_SUCCESS ∧
    (sem_take sem (sem_give sem k).2).1 = E_SUCCESS ∧
    ((sem_take sem (sem_give sem k).2).2.sem sem).count = 0 ∧
    ((sem_take sem (sem_give sem k).2).2.sem sem).limit = (k.sem sem).limit ∧
    ((sem_take sem (sem_give sem k).2).2.sem sem).queue = [] ∧
    (sem_take sem (sem_give sem k).2).2 = k := by
  have hlt : (k.sem sem).count < (k.sem sem).limit := by omega
  have hg := sem_give_free sem k hlt hq
  have ht := sem_take_free sem (sem_give sem k).2 (by rw [hg]; simp) (by rw [hg]; simpa using hq)
  have hfin : (sem_take sem (sem_give sem k).2).2 = k := by
    rw [ht, hg]
    simp only [setSem_setSem, setSem_same]
    exact setSem_count_self sem k _ (by omega)
  refine ⟨by rw [hg], by rw [ht], ?_, ?_, ?_, hfin⟩
  · rw [hfin, hc]
  · rw [hfin]
  · rw [hfin, hq]

/-- Witness for C7: a semaphore initialised with `(0, 1)`. -/
theorem sem_give_take_law_witness :
    ((sem_init 0 0 1 sysABC).sem 0).count = 0 ∧
    1 ≤ ((sem_init 0 0 1 sysABC).sem 0).limit ∧
    ((sem_init 0 0 1 sysABC).sem 0).queue = [] ∧
    (sem_give 0 (sem_init 0 0 1 sysABC)).1 = E_SUCCESS ∧
    ((sem_give 0 (sem_init 0 0 1 sysABC)).2.sem 0).count = 1 ∧
    (sem_take 0 (sem_give 0 (sem_init 0 0 1 sysABC)).2).1 = E_SUCCESS ∧
    (sem_take 0 (sem_give 0 (sem_init 0 0 1 sysABC)).2).2 = sem_init 0 0 1 sysABC :=
  ⟨by decide, by decide, by decide,
   (sem_give_take_law 0 (sem_init 0 0 1 sysABC) (by decide) (by decide) (by decide)).1,
   by decide,
   (sem_give_take_law 0 (sem_init 0 0 1 sysABC) (by decide) (by decide) (by decide)).2.1,
   (sem_give_take_law 0 (sem_init 0 0 1 sysABC) (by decide) (by decide) (by decide)).2.2.2.2.2⟩

/-- C8, as stated, fails when a giver is blocked on the queue: the semaphore is
created with `init == limit == 1` and holds `count == 1`, task 1 is blocked in
`sendFor`; task 2 calls `sem_take` (which hands the permit of the blocked giver
through and leaves `count == 1`) and then `sem_give`, which finds
`count == limit` and returns `E_TIMEOUT`; the queue has lost task 1. -/
theorem sem_take_give_roundtrip_fails_with_waiter :
    ((sysGiver.sem 0).count = 1 ∧ (sysGiver.sem 0).limit = 1 ∧ (sysGiver.sem 0).queue = [1]) ∧
    (sem_take 0 (dispatch 2 sysGiver)).1 = E_SUCCESS ∧
    (sem_give 0 (sem_take 0 (dispatch 2 sysGiver)).2).1 = E_TIMEOUT ∧
    ((sem_give 0 (sem_take 0 (dispatch 2 sysGiver)).2).2.sem 0).queue = [] ∧
    ¬ ((sem_take 0 (dispatch 2 sysGiver)).1 = E_SUCCESS ∧
       (sem_give 0 (sem_take 0 (dispatch 2 sysGiver)).2).1 = E_SUCCESS ∧
       (sem_give 0 (sem_take 0 (dispatch 2 sysGiver)).2).2.sem 0 = (dispatch 2 sysGiver).sem 0) := by
  decide

/-- C8, amended: for every semaphore with `limit == 1`, `count == 1` and an
empty wait queue, `sem_take` followed by `sem_give` both return `E_SUCCESS`
and the state after the pair (`count`, `limit`, wait queue, and everything
else) equals the state before it. -/
theorem sem_take_give_roundtrip (sem : Nat) (k : System)
    (hc : (k.sem sem).count = 1) (hl : (k.sem sem).limit = 1) (hq : (k.sem sem).queue = []) :
    (sem_take sem k).1 = E_SUCCESS ∧
    (sem_give sem (sem_take sem k).2).1 = E_SUCCESS ∧
    ((sem_give sem (sem_take sem k).2).2.sem sem).count = (k.sem sem).count ∧
    ((sem_give sem (sem_take sem k).2).2.sem sem).limit = (k.sem sem).limit ∧
    ((sem_give sem (sem_take sem k).2).2.sem sem).queue = (k.sem sem).queue ∧
    (sem_give sem (sem_take sem k).2).2 = k := by
  have ht := sem_take_free sem k (by omega) hq
  have hg := sem_give_free sem (sem_take sem k).2 (by rw [ht]; simp; omega)
    (by rw [ht]; simpa using hq)
  have hfin : (sem_give sem (sem_take sem k).2).2 = k := by
    rw [hg, ht]
    simp only [setSem_setSem, setSem_same]
    exact setSem_count_self sem k _ (by omega)
  refine ⟨by rw [ht], by rw [hg], ?_, ?_, ?_, hfin⟩
  · rw [hfin]
  · rw [hfin]
  · rw [hfin]

/-- Witness for the amended C8: a semaphore initialised with `(1, 1)`. -/
theorem sem_take_give_roundtrip_witness :
    ((sem_init 0 1 1 sysABC).sem 0).count = 1 ∧
    ((sem_init 0 1 1 sysABC).sem 0).limit = 1 ∧
    ((sem_init 0 1 1 sysABC).sem 0).queue = [] ∧
    (sem_take 0 (sem_init 0 1 1 sysABC)).1 = E_SUCCESS ∧
    ((sem_take 0 (sem_init 0 1 1 sysABC)).2.sem 0).count = 0 ∧
    (sem_give 0 (sem_take 0 (sem_init 0 1 1 sysABC)).2).1 = E_SUCCESS ∧
    (sem_give 0 (sem_take 0 (sem_init 0 1 1 sysABC)).2).2 = sem_init 0 1 1 sysABC :=
  ⟨by decide, by decide, by decide,
   (sem_take_give_roundtrip 0 (sem_init 0 1 1 sysABC) (by decide) (by decide) (by decide)).1,
   by decide,
   (sem_take_give_roundtrip 0 (sem_init 0 1 1 sysABC) (by decide) (by decide) (by decide)).2.1,
   (sem_take_give_roundtrip 0 (sem_init 0 1 1 sysABC) (by decide) (by decide)
     (by decide)).2.2.2.2.2⟩

/-! ## Semaphore: the blocking variants -/

/-- The functions `priv_sem_take` and `priv_sem_give` add nobody to the wait queue. -/
theorem priv_sem_take_queue_sub (sem : Nat) (k : System) (u : Nat)
    (hu : u ∈ ((priv_sem_take sem k).2.sem sem).queue) : u ∈ (k.sem sem).queue := by
  unfold priv_sem_take at hu
  split at hu
  · cases hq : (k.sem sem).queue with
    | nil => simp [hq, wakeup_none] at hu
    | cons t rest =>
      have hfst : (core_tsk_wakeup (some t) E_SUCCESS k).1 = some t := rfl
      simp only [hq, List.head?_cons, hfst] at hu
      rw [← hq]
      exact wakeup_queue_sub sem t E_SUCCESS k u (by simpa using hu)
  · exact hu

theorem priv_sem_give_queue_sub (sem : Nat) (k : System) (u : Nat)
    (hu : u ∈ ((priv_sem_give sem k).2.sem sem).queue) : u ∈ (k.sem sem).queue := by
  unfold priv_sem_give at hu
  split at hu
  · cases hq : (k.sem sem).queue with
    | nil => simp [hq, wakeup_none] at hu
    | cons t rest =>
      have hfst : (core_tsk_wakeup (some t) E_SUCCESS k).1 = some t := rfl
      simp only [hq, List.head?_cons, hfst] at hu
      rw [← hq]
      exact wakeup_queue_sub sem t E_SUCCESS k u (by simpa using hu)
  · exact hu

/-- Blocking on the queue of `sem` suspends the caller. -/
theorem suspend_spec (sem : Nat) (k : System) (v : tsk_t) :
    Suspended sem k.cur k (core_tsk_block (Queue.obj sem) (setTsk k k.cur v)).2 := by
  obtain ⟨_, b1, b2, b3, b4, b5, _, _⟩ := block_obj sem (setTsk k k.cur v)
  refine ⟨b1, b2, ?_, b5, b4, ?_⟩
  · intro u
    rw [b3]
    exact mem_prioInsert_iff _ _ _ _
  · intro e
    exact (wakeup_self k.cur e _).1

/-- C9: the blocking variants refine the try variants.  For every semaphore
with `limit >= 1` and `count <= limit`, every `delay` and every `time`:
whenever `sem_take` returns `E_SUCCESS`, `sem_waitFor` and `sem_waitUntil`
return `E_SUCCESS` with exactly the state of `sem_take` (which adds nobody to
the queue); they suspend the caller if and only if `count == 0`, and then
`count` is unchanged, the caller (and nobody else) has joined the wait queue
and the value returned is the event of the wake-up.  `sem_sendFor` and
`sem_sendUntil` relate in the same way to `sem_give`, and suspend the caller on
the same queue if and only if `count == limit` (in general: if and only if
`count < limit` fails). -/
theorem sem_blocking_refines_try (sem : Nat) (k : System) (delay time : Nat)
    (hl : 1 ≤ (k.sem sem).limit) (hc : (k.sem sem).count ≤ (k.sem sem).limit) :
    ((sem_take sem k).1 = E_SUCCESS →
      sem_waitFor sem delay k = (Ret.val E_SUCCESS, (sem_take sem k).2) ∧
      sem_waitUntil sem time k = (Ret.val E_SUCCESS, (sem_take sem k).2) ∧
      (∀ u ∈ ((sem_take sem k).2.sem sem).queue, u ∈ (k.sem sem).queue)) ∧
    (((sem_waitFor sem delay k).1 = Ret.blocked ↔ (k.sem sem).count = 0) ∧
     ((sem_waitUntil sem time k).1 = Ret.blocked ↔ (k.sem sem).count = 0)) ∧
    ((k.sem sem).count = 0 →
      Suspended sem k.cur k (sem_waitFor sem delay k).2 ∧
      Suspended sem k.cur k (sem_waitUntil sem time k).2) ∧
    ((sem_give sem k).1 = E_SUCCESS →
      sem_sendFor sem delay k = (Ret.val E_SUCCESS, (sem_give sem k).2) ∧
      sem_sendUntil sem time k = (Ret.val E_SUCCESS, (sem_give sem k).2) ∧
      (∀ u ∈ ((sem_give sem k).2.sem sem).queue, u ∈ (k.sem sem).queue)) ∧
    (((sem_sendFor sem delay k).1 = Ret.blocked ↔ (k.sem sem).count = (k.sem sem).limit) ∧
     ((sem_sendUntil sem time k).1 = Ret.blocked ↔ (k.sem sem).count = (k.sem sem).limit) ∧
     ((sem_sendFor sem delay k).1 = Ret.blocked ↔ ¬ (k.sem sem).count < (k.sem sem).limit) ∧
     ((sem_sendUntil sem time k).1 = Ret.blocked ↔ ¬ (k.sem sem).count < (k.sem sem).limit)) ∧
    ((k.sem sem).count = (k.sem sem).limit →
      Suspended sem k.cur k (sem_sendFor sem delay k).2 ∧
      Suspended sem k.cur k (sem_sendUntil sem time k).2) := by
  have _ := hl
  have htc := priv_sem_take_cases sem k
  have hgc := priv_sem_give_cases sem k
  have wf := sem_waitFor_eq sem delay k
  have wu := sem_waitUntil_eq sem time k
  have sf := sem_sendFor_eq sem delay k
  have su := sem_sendUntil_eq sem time k
  have hbF : ∀ q d s, (core_tsk_waitFor q d s).1 = Ret.blocked := fun _ _ _ => rfl
  have hbU : ∀ q d s, (core_tsk_waitUntil q d s).1 = Ret.blocked := fun _ _ _ => rfl
  have hnb : ¬ (Ret.val E_SUCCESS = Ret.blocked) := by decide
  refine ⟨?_, ⟨?_, ?_⟩, ?_, ?_, ⟨?_, ?_, ?_, ?_⟩, ?_⟩
  · intro hs
    have hpos : 0 < (k.sem sem).count := by
      rcases Nat.eq_zero_or_pos (k.sem sem).count with h0 | hpos
      · rw [sem_take, htc.2 h0] at hs
        exact absurd hs.symm E_SUCCESS_ne_E_TIMEOUT
      · exact hpos
    exact ⟨wf.1 hpos, wu.1 hpos, fun u hu => priv_sem_take_queue_sub sem k u hu⟩
  · rcases Nat.eq_zero_or_pos (k.sem sem).count with h0 | hpos
    · rw [wf.2 h0]; simp [hbF, h0]
    · rw [wf.1 hpos]; simp [Nat.pos_iff_ne_zero.mp hpos]
  · rcases Nat.eq_zero_or_pos (k.sem sem).count with h0 | hpos
    · rw [wu.2 h0]; simp [hbU, h0]
    · rw [wu.1 hpos]; simp [Nat.pos_iff_ne_zero.mp hpos]
  · intro h0
    rw [wf.2 h0, wu.2 h0]
    exact ⟨suspend_spec sem k _, suspend_spec sem k _⟩
  · intro hs
    have hlt : (k.sem sem).count < (k.sem sem).limit := by
      by_cases hlt : (k.sem sem).count < (k.sem sem).limit
      · exact hlt
      · rw [sem_give, hgc.2 hlt] at hs
        exact absurd hs.symm E_SUCCESS_ne_E_TIMEOUT
    exact ⟨sf.1 hlt, su.1 hlt, fun u hu => priv_sem_give_queue_sub sem k u hu⟩
  · by_cases hlt : (k.sem sem).count < (k.sem sem).limit
    · rw [sf.1 hlt]; simp [Nat.ne_of_lt hlt]
    · rw [sf.2 hlt]; simp [hbF]; omega
  · by_cases hlt : (k.sem sem).count < (k.sem sem).limit
    · rw [su.1 hlt]; simp [Nat.ne_of_lt hlt]
    · rw [su.2 hlt]; simp [hbU]; omega
  · by_cases hlt : (k.sem sem).count < (k.sem sem).limit
    · rw [sf.1 hlt]; simp [hlt]
    · rw [sf.2 hlt]; simp [hbF, hlt]
  · by_cases hlt : (k.sem sem).count < (k.sem sem).limit
    · rw [su.1 hlt]; simp [hlt]
    · rw [su.2 hlt]; simp [hbU, hlt]
  · intro heq
    have hlt : ¬ (k.sem sem).count < (k.sem sem).limit := by omega
    rw [sf.2 hlt, su.2 hlt]
    exact ⟨suspend_spec sem k _, suspend_spec sem k _⟩

/-- Witness for C9: task 2 calls the services on a semaphore initialised with
`(0, 1)` (takers block, givers pass) and on one initialised with `(1, 1)`
(givers block, takers pass). -/
theorem sem_blocking_refines_try_witness :
    (1 ≤ ((dispatch 2 (sem_init 0 0 1 sysABC)).sem 0).limit ∧
      ((dispatch 2 (sem_init 0 0 1 sysABC)).sem 0).count ≤
        ((dispatch 2 (sem_init 0 0 1 sysABC)).sem 0).limit) ∧
    ((dispatch 2 (sem_init 0 0 1 sysABC)).sem 0).count = 0 ∧
    (sem_waitFor 0 5 (dispatch 2 (sem_init 0 0 1 sysABC))).1 = Ret.blocked ∧
    Suspended 0 2 (dispatch 2 (sem_init 0 0 1 sysABC))
      (sem_waitFor 0 5 (dispatch 2 (sem_init 0 0 1 sysABC))).2 ∧
    ((sem_waitFor 0 5 (dispatch 2 (sem_init 0 0 1 sysABC))).2.sem 0).queue = [2] ∧
    (sem_give 0 (dispatch 2 (sem_init 0 0 1 sysABC))).1 = E_SUCCESS ∧
    sem_sendUntil 0 9 (dispatch 2 (sem_init 0 0 1 sysABC)) =
      (Ret.val E_SUCCESS, (sem_give 0 (dispatch 2 (sem_init 0 0 1 sysABC))).2) ∧
    ((dispatch 2 (sem_init 0 1 1 sysABC)).sem 0).count =
      ((dispatch 2 (sem_init 0 1 1 sysABC)).sem 0).limit ∧
    (sem_sendFor 0 5 (dispatch 2 (sem_init 0 1 1 sysABC))).1 = Ret.blocked ∧
    Suspended 0 2 (dispatch 2 (sem_init 0 1 1 sysABC))
      (sem_sendFor 0 5 (dispatch 2 (sem_init 0 1 1 sysABC))).2 ∧
    (sem_take 0 (dispatch 2 (sem_init 0 1 1 sysABC))).1 = E_SUCCESS ∧
    sem_waitFor 0 5 (dispatch 2 (sem_init 0 1 1 sysABC)) =
      (Ret.val E_SUCCESS, (sem_take 0 (dispatch 2 (sem_init 0 1 1 sysABC))).2) :=
  ⟨⟨by decide, by decide⟩, by decide,
   (sem_blocking_refines_try 0 (dispatch 2 (sem_init 0 0 1 sysABC)) 5 9
      (by decide) (by decide)).2.1.1.mpr (by decide),
   ((sem_blocking_refines_try 0 (dispatch 2 (sem_init 0 0 1 sysABC)) 5 9
      (by decide) (by decide)).2.2.1 (by decide)).1,
   by decide, by decide,
   ((sem_blocking_refines_try 0 (dispatch 2 (sem_init 0 0 1 sysABC)) 5 9
      (by decide) (by decide)).2.2.2.1 (by decide)).2.1,
   by decide,
   (sem_blocking_refines_try 0 (dispatch 2 (sem_init 0 1 1 sysABC)) 5 9
      (by decide) (by decide)).2.2.2.2.1.1.mpr (by decide),
   ((sem_blocking_refines_try 0 (dispatch 2 (sem_init 0 1 1 sysABC)) 5 9
      (by decide) (by decide)).2.2.2.2.2 (by decide)).1,
   by decide,
   ((sem_blocking_refines_try 0 (dispatch 2 (sem_init 0 1 1 sysABC)) 5 9
      (by decide) (by decide)).1 (by decide)).1⟩

/-! ## Flag events -/

/-- A non-zero 32-bit mask that `flags` covers has a bit in common with `flags`. -/
theorem covered_hit (m f : Nat) (hm : m ≠ 0) (hlt : m < UINT_SIZE)
    (hcov : m &&& bnot32 f = 0) : m &&& f ≠ 0 := by
  intro h0
  apply hm
  apply Nat.eq_of_testBit_eq
  intro i
  rw [Nat.zero_testBit]
  by_cases hi : i < 32
  · have h1 := congrArg (fun x => x.testBit i) hcov
    have h2 := congrArg (fun x => x.testBit i) h0
    simp only [bnot32, UINT_SIZE, Nat.testBit_and, Nat.testBit_xor, Nat.testBit_mod_two_pow,
      Nat.testBit_two_pow_sub_one, Nat.zero_testBit, hi, decide_True, Bool.true_and] at h1 h2
    cases hb : m.testBit i
    · rfl
    · rw [hb] at h1 h2
      cases hf : f.testBit i <;> simp [hf] at h1 h2
  · have hle : 2 ^ 32 ≤ 2 ^ i := Nat.pow_le_pow_right (by decide) (by omega)
    exact Nat.testBit_lt_two_pow (lt_of_lt_of_le hlt hle)

/-- C10, as stated, fails on its own witness: A (task 1) is blocked on
`System.wai` with pending mask `0b1000`, which `0b1010` covers; after
`give(A, 0b1010)` the pending mask is 0 and A is woken, but the event value is
0, not the consumed bits `0b1000`. -/
theorem tsk_give_event_is_not_consumed_mask :
    ((sysFlags.tsk 1).guard = some Queue.wai ∧ (sysFlags.tsk 1).flags = 8 ∧
      (sysFlags.tsk 1).event = 77 ∧ (sysFlags.tsk 1).id = ID_BLOCKED ∧
      (sysFlags.tsk 1).flags &&& bnot32 10 = 0) ∧
    ((tsk_give 1 10 (dispatch 2 sysFlags)).2.tsk 1).id = ID_READY ∧
    ((tsk_give 1 10 (dispatch 2 sysFlags)).2.tsk 1).flags = 0 ∧
    Ret.value Ret.blocked 1 (tsk_give 1 10 (dispatch 2 sysFlags)).2 = 0 ∧
    ¬ (Ret.value Ret.blocked 1 (tsk_give 1 10 (dispatch 2 sysFlags)).2
        = (sysFlags.tsk 1).flags &&& 10) := by
  decide

/-- C10, amended: for every task blocked on `System.wai` with a non-zero
pending mask `m` (a 32-bit value) and every `flags` covering all of `m`
(`m & ~flags == 0`), `tsk_give(task, flags)` returns `E_SUCCESS`, leaves
`tmp.flg.flags == 0` and wakes the task (it is `READY`, blocked on nothing)
with the remaining mask `m & ~flags` as event value, which is 0, the code
`E_SUCCESS`. -/
theorem tsk_give_completion (tsk flags : Nat) (k : System)
    (hg : (k.tsk tsk).guard = some Queue.wai)
    (hm : (k.tsk tsk).flags ≠ 0) (hlt : (k.tsk tsk).flags < UINT_SIZE)
    (hcov : (k.tsk tsk).flags &&& bnot32 flags = 0) :
    (tsk_give tsk flags k).1 = E_SUCCESS ∧
    ((tsk_give tsk flags k).2.tsk tsk).flags = 0 ∧
    ((tsk_give tsk flags k).2.tsk tsk).id = ID_READY ∧
    ((tsk_give tsk flags k).2.tsk tsk).guard = none ∧
    Ret.value Ret.blocked tsk (tsk_give tsk flags k).2 = (k.tsk tsk).flags &&& bnot32 flags ∧
    Ret.value Ret.blocked tsk (tsk_give tsk flags k).2 = E_SUCCESS := by
  have hhit := covered_hit _ flags hm hlt hcov
  have e : (tsk_give tsk flags k).2 =
      (core_tsk_wakeup (some tsk) 0 (setTsk k tsk { k.tsk tsk with flags := 0 })).2 := by
    simp [tsk_give, hg, hhit, hcov]
  have hs := wakeup_self tsk 0 (setTsk k tsk { k.tsk tsk with flags := 0 })
  refine ⟨by simp [tsk_give, hg], ?_, ?_, ?_, ?_, ?_⟩
  · rw [e, hs.2.2.2.2.2]; simp
  · rw [e]; exact hs.2.2.1
  · rw [e]; exact hs.2.1
  · rw [e, hcov]; exact hs.1
  · rw [e]; exact hs.1

/-- Witness for the amended C10 (scenario 6 of section 8, second half): pending
mask `0b1000`, `give(A, 0b1010)`: A wakes with event value 0. -/
theorem tsk_give_completion_witness :
    (((dispatch 2 sysFlags).tsk 1).guard = some Queue.wai ∧
      ((dispatch 2 sysFlags).tsk 1).flags ≠ 0 ∧
      ((dispatch 2 sysFlags).tsk 1).flags < UINT_SIZE ∧
      ((dispatch 2 sysFlags).tsk 1).flags &&& bnot32 10 = 0) ∧
    (tsk_give 1 10 (dispatch 2 sysFlags)).1 = E_SUCCESS ∧
    ((tsk_give 1 10 (dispatch 2 sysFlags)).2.tsk 1).flags = 0 ∧
    ((tsk_give 1 10 (dispatch 2 sysFlags)).2.tsk 1).id = ID_READY ∧
    Ret.value Ret.blocked 1 (tsk_give 1 10 (dispatch 2 sysFlags)).2 = E_SUCCESS :=
  ⟨⟨by decide, by decide, by decide, by decide⟩,
   (tsk_give_completion 1 10 (dispatch 2 sysFlags)
      (by decide) (by decide) (by decide) (by decide)).1,
   (tsk_give_completion 1 10 (dispatch 2 sysFlags)
      (by decide) (by decide) (by decide) (by decide)).2.1,
   (tsk_give_completion 1 10 (dispatch 2 sysFlags)
      (by decide) (by decide) (by decide) (by decide)).2.2.1,
   (tsk_give_completion 1 10 (dispatch 2 sysFlags)
      (by decide) (by decide) (by decide) (by decide)).2.2.2.2.2⟩

/-! ## Frame lemmas for the task life cycle -/

@[simp] theorem setTsk_mtx (k : System) (t : Nat) (v : tsk_t) : (setTsk k t v).mtx = k.mtx := rfl
@[simp] theorem setTsk_corpses (k : System) (t : Nat) (v : tsk_t) :
    (setTsk k t v).corpses = k.corpses := rfl
@[simp] theorem setTsk_idle_state (k : System) (t : Nat) (v : tsk_t) :
    (setTsk k t v).idle_state = k.idle_state := rfl
@[simp] theorem setSem_mtx (k : System) (s : Nat) (v : sem_t) : (setSem k s v).mtx = k.mtx := rfl
@[simp] theorem setSem_corpses (k : System) (s : Nat) (v : sem_t) :
    (setSem k s v).corpses = k.corpses := rfl
@[simp] theorem setSem_idle_state (k : System) (s : Nat) (v : sem_t) :
    (setSem k s v).idle_state = k.idle_state := rfl
@[simp] theorem setMtx_tsk (k : System) (m : Nat) (v : mtx_t) : (setMtx k m v).tsk = k.tsk := rfl
@[simp] theorem setMtx_sem (k : System) (m : Nat) (v : mtx_t) : (setMtx k m v).sem = k.sem := rfl
@[simp] theorem setMtx_cur (k : System) (m : Nat) (v : mtx_t) : (setMtx k m v).cur = k.cur := rfl
@[simp] theorem setMtx_dly (k : System) (m : Nat) (v : mtx_t) : (setMtx k m v).dly = k.dly := rfl
@[simp] theorem setMtx_wai (k : System) (m : Nat) (v : mtx_t) : (setMtx k m v).wai = k.wai := rfl
@[simp] theorem setMtx_rdy (k : System) (m : Nat) (v : mtx_t) : (setMtx k m v).rdy = k.rdy := rfl
@[simp] theorem setMtx_tmr (k : System) (m : Nat) (v : mtx_t) : (setMtx k m v).tmr = k.tmr := rfl
@[simp] theorem setMtx_corpses (k : System) (m : Nat) (v : mtx_t) :
    (setMtx k m v).corpses = k.corpses := rfl
@[simp] theorem setMtx_idle_state (k : System) (m : Nat) (v : mtx_t) :
    (setMtx k m v).idle_state = k.idle_state := rfl

@[simp] theorem setMtx_same (k : System) (m : Nat) (v : mtx_t) : (setMtx k m v).mtx m = v := by
  simp [setMtx]

theorem setMtx_other (k : System) (m u : Nat) (v : mtx_t) (h : u ≠ m) :
    (setMtx k m v).mtx u = k.mtx u := by
  simp [setMtx, Function.update_noteq h]

/-- The record of a task after a write to any task record. -/
theorem setTsk_apply (k : System) (t u : Nat) (v : tsk_t) :
    (setTsk k t v).tsk u = if u = t then v else k.tsk u := by
  by_cases h : u = t
  · subst h; simp
  · simp [setTsk_other _ _ _ _ h, h]

/-- The function `setQueue` changes the ready list, the timer list, the chain of
corpses and the function of the idle task not at all. -/
theorem setQueue_lists (k : System) (q : Queue) (l : List Nat) :
    (setQueue k q l).rdy = k.rdy ∧ (setQueue k q l).tmr = k.tmr ∧
    (setQueue k q l).corpses = k.corpses ∧ (setQueue k q l).idle_state = k.idle_state ∧
    (setQueue k q l).cur = k.cur := by
  cases q with
  | dly => simp [setQueue]
  | wai => simp [setQueue]
  | obj o => simp [setQueue]
  | mtx m => simp [setQueue]
  | join t =>
    simp only [setQueue]
    cases (k.tsk t).join <;> simp

/-- The function `setQueue` leaves the storage, entry function, context and
mutex fields of every task alone. -/
theorem setQueue_tsk_more (k : System) (q : Queue) (l : List Nat) (u : Nat) :
    ((setQueue k q l).tsk u).res = (k.tsk u).res ∧
    ((setQueue k q l).tsk u).state = (k.tsk u).state ∧
    ((setQueue k q l).tsk u).ctx = (k.tsk u).ctx ∧
    ((setQueue k q l).tsk u).mtx_list = (k.tsk u).mtx_list ∧
    ((setQueue k q l).tsk u).mtx_tree = (k.tsk u).mtx_tree := by
  cases q with
  | dly => simp [setQueue]
  | wai => simp [setQueue]
  | obj o => simp [setQueue]
  | mtx m => simp [setQueue]
  | join t =>
    simp only [setQueue]
    cases hj : (k.tsk t).join with
    | detached => simp
    | slot q0 =>
      by_cases h : u = t
      · subst h; simp
      · simp [setTsk_other _ _ _ _ h]

/-- The field `join` after `setQueue`: a slot is rewritten when the queue is the
one of that slot; `DETACHED` stays. -/
theorem setQueue_tsk_join (k : System) (q : Queue) (l : List Nat) (u : Nat) :
    ((setQueue k q l).tsk u).join =
      if q = Queue.join u ∧ (k.tsk u).join ≠ Join.detached then Join.slot l
      else (k.tsk u).join := by
  cases q with
  | dly => simp [setQueue]
  | wai => simp [setQueue]
  | obj o => simp [setQueue]
  | mtx m => simp [setQueue]
  | join t =>
    simp only [setQueue]
    by_cases h : u = t
    · subst h
      cases hj : (k.tsk u).join with
      | detached => simp [hj]
      | slot q0 => simp [hj]
    · have h2 : ¬ (Queue.join t = Queue.join u) := by
        intro e; injection e with e; exact h e.symm
      cases hj : (k.tsk t).join with
      | detached => simp [h2]
      | slot q0 => simp [h2, setTsk_other _ _ _ _ h]

/-- Reading a queue after writing a queue. -/
theorem getQueue_setQueue (k : System) (q q1 : Queue) (l : List Nat) :
    getQueue (setQueue k q l) q1 =
      if q1 = q then (match q with
        | Queue.join t => (match (k.tsk t).join with
          | Join.slot _ => l
          | Join.detached => [])
        | _ => l)
      else getQueue k q1 := by
  by_cases h : q1 = q
  · subst h
    cases q1 with
    | dly => simp [setQueue, getQueue]
    | wai => simp [setQueue, getQueue]
    | obj o => simp [setQueue, getQueue]
    | mtx m => simp [setQueue, getQueue]
    | join t =>
      simp only [setQueue, getQueue, if_true]
      cases hj : (k.tsk t).join with
      | detached => simp [hj]
      | slot q0 => simp
  · simp only [if_neg h]
    cases q with
    | dly => cases q1 <;> simp_all [setQueue, getQueue]
    | wai => cases q1 <;> simp_all [setQueue, getQueue]
    | obj o =>
      cases q1 with
      | obj o1 =>
        have h3 : o1 ≠ o := fun e => h (by rw [e])
        simp [setQueue, getQueue, setSem_other _ _ _ _ h3]
      | _ => simp [setQueue, getQueue]
    | mtx m =>
      cases q1 with
      | mtx m1 =>
        have h3 : m1 ≠ m := fun e => h (by rw [e])
        simp [setQueue, getQueue, setMtx_other _ _ _ _ h3]
      | _ => simp [setQueue, getQueue]
    | join t =>
      cases q1 with
      | join t1 =>
        have h3 : t1 ≠ t := fun e => h (by rw [e])
        simp only [setQueue, getQueue]
        cases hj : (k.tsk t).join with
        | detached => simp
        | slot q0 => simp [setTsk_other _ _ _ _ h3]
      | _ =>
        simp only [setQueue, getQueue]
        cases hj : (k.tsk t).join <;> simp

/-- A write to a task record that keeps its `join` field changes no queue. -/
theorem getQueue_setTsk (k : System) (t : Nat) (v : tsk_t) (q : Queue)
    (hv : v.join = (k.tsk t).join) : getQueue (setTsk k t v) q = getQueue k q := by
  cases q with
  | dly => rfl
  | wai => rfl
  | obj o => rfl
  | mtx m => rfl
  | join u =>
    simp only [getQueue, setTsk_apply]
    by_cases h : u = t
    · subst h; simp [hv]
    · simp [h]

theorem getQueue_setTsk_guard (k : System) (t : Nat) (g : Option Queue) (q : Queue) :
    getQueue (setTsk k t { k.tsk t with guard := g }) q = getQueue k q :=
  getQueue_setTsk k t _ q rfl

theorem getQueue_setTsk_event (k : System) (t e : Nat) (q : Queue) :
    getQueue (setTsk k t { k.tsk t with event := e }) q = getQueue k q :=
  getQueue_setTsk k t _ q rfl

/-- A write to a mutex record that keeps its `queue` field changes no queue. -/
theorem getQueue_setMtx (k : System) (m : Nat) (v : mtx_t) (q : Queue)
    (hv : v.queue = (k.mtx m).queue) : getQueue (setMtx k m v) q = getQueue k q := by
  cases q with
  | dly => rfl
  | wai => rfl
  | obj o => rfl
  | join u => rfl
  | mtx m1 =>
    simp only [getQueue]
    by_cases h : m1 = m
    · subst h; simp [hv]
    · simp [setMtx_other _ _ _ _ h]

/-- The function `core_tsk_unlink` stores the event and then leaves the queue. -/
theorem unlink_eq (t e : Nat) (k : System) :
    core_tsk_unlink t e k = leaveQueue t (setTsk k t { k.tsk t with event := e }) := rfl

/-- Every queue after `leaveQueue`. -/
theorem leaveQueue_getQueue (t : Nat) (k : System) (q : Queue) :
    getQueue (leaveQueue t k) q =
      if (k.tsk t).guard = some q then (getQueue k q).filter (fun x => x != t)
      else getQueue k q := by
  unfold leaveQueue
  cases hg : (k.tsk t).guard with
  | none => simp
  | some g =>
    simp only []
    rw [getQueue_setTsk_guard, getQueue_setQueue]
    by_cases hq : q = g
    · subst hq
      simp only [if_true]
      cases q with
      | join u =>
        cases hj : (k.tsk u).join with
        | detached => simp [getQueue, hj]
        | slot q0 => simp [hj]
      | _ => simp
    · have hq2 : ¬ (g = q) := fun e1 => hq e1.symm
      simp [hq, hq2]

/-- The lists of the kernel after `leaveQueue`. -/
theorem leaveQueue_lists (t : Nat) (k : System) :
    (leaveQueue t k).rdy = k.rdy ∧ (leaveQueue t k).tmr = k.tmr ∧
    (leaveQueue t k).corpses = k.corpses ∧
    (leaveQueue t k).idle_state = k.idle_state ∧
    (leaveQueue t k).cur = k.cur := by
  unfold leaveQueue
  cases hg : (k.tsk t).guard with
  | none => simp
  | some g => simpa using setQueue_lists k g ((getQueue k g).filter (fun x => x != t))

/-- Storage, entry function, context and mutex fields after `leaveQueue`. -/
theorem leaveQueue_more (t : Nat) (k : System) (u : Nat) :
    ((leaveQueue t k).tsk u).res = (k.tsk u).res ∧
    ((leaveQueue t k).tsk u).state = (k.tsk u).state ∧
    ((leaveQueue t k).tsk u).ctx = (k.tsk u).ctx ∧
    ((leaveQueue t k).tsk u).mtx_list = (k.tsk u).mtx_list ∧
    ((leaveQueue t k).tsk u).mtx_tree = (k.tsk u).mtx_tree := by
  unfold leaveQueue
  cases hg : (k.tsk t).guard with
  | none => simp
  | some g =>
    have h2 := setQueue_tsk_more k g ((getQueue k g).filter (fun x => x != t)) u
    simp only [setTsk_apply]
    by_cases h : u = t
    · subst h; simpa using h2
    · simpa [h] using h2

/-- The field `join` of every task after `leaveQueue`. -/
theorem leaveQueue_join (t : Nat) (k : System) (u : Nat) :
    ((leaveQueue t k).tsk u).join =
      if (k.tsk t).guard = some (Queue.join u) ∧ (k.tsk u).join ≠ Join.detached then
        Join.slot ((getQueue k (Queue.join u)).filter (fun x => x != t))
      else (k.tsk u).join := by
  unfold leaveQueue
  cases hg : (k.tsk t).guard with
  | none => simp
  | some g =>
    have hj := setQueue_tsk_join k g ((getQueue k g).filter (fun x => x != t)) u
    have e1 : ((setTsk (setQueue k g ((getQueue k g).filter (fun x => x != t))) t
        { (setQueue k g ((getQueue k g).filter (fun x => x != t))).tsk t with guard := none }).tsk
          u).join = ((setQueue k g ((getQueue k g).filter (fun x => x != t))).tsk u).join := by
      simp only [setTsk_apply]
      by_cases h : u = t
      · subst h; simp
      · simp [h]
    simp only []
    rw [e1, hj]
    by_cases hq : g = Queue.join u
    · subst hq; simp
    · have hq2 : ¬ (some g = some (Queue.join u)) := fun e2 => hq (Option.some.inj e2)
      simp [hq, hq2]

/-- Every queue after `core_tsk_unlink`: the task leaves the queue its `guard`
points to; the other queues are as before. -/
theorem unlink_getQueue (t e : Nat) (k : System) (q : Queue) :
    getQueue (core_tsk_unlink t e k) q =
      if (k.tsk t).guard = some q then (getQueue k q).filter (fun x => x != t)
      else getQueue k q := by
  rw [unlink_eq, leaveQueue_getQueue, getQueue_setTsk_event]
  simp

/-- The lists of the kernel after `core_tsk_unlink`. -/
theorem unlink_lists (t e : Nat) (k : System) :
    (core_tsk_unlink t e k).rdy = k.rdy ∧ (core_tsk_unlink t e k).tmr = k.tmr ∧
    (core_tsk_unlink t e k).corpses = k.corpses ∧
    (core_tsk_unlink t e k).idle_state = k.idle_state ∧
    (core_tsk_unlink t e k).cur = k.cur := by
  rw [unlink_eq]
  exact leaveQueue_lists t _

/-- Storage, entry function, context and mutex fields of every task after
`core_tsk_unlink`. -/
theorem unlink_more (t e : Nat) (k : System) (u : Nat) :
    ((core_tsk_unlink t e k).tsk u).res = (k.tsk u).res ∧
    ((core_tsk_unlink t e k).tsk u).state = (k.tsk u).state ∧
    ((core_tsk_unlink t e k).tsk u).ctx = (k.tsk u).ctx ∧
    ((core_tsk_unlink t e k).tsk u).mtx_list = (k.tsk u).mtx_list ∧
    ((core_tsk_unlink t e k).tsk u).mtx_tree = (k.tsk u).mtx_tree := by
  rw [unlink_eq]
  have h := leaveQueue_more t (setTsk k t { k.tsk t with event := e }) u
  simp only [setTsk_apply] at h
  by_cases hu : u = t
  · subst hu; simpa using h
  · simpa [hu] using h

/-- The field `join` of every task after `core_tsk_unlink`: the slot the
unlinked task was waiting in loses it, `DETACHED` stays `DETACHED`. -/
theorem unlink_join (t e : Nat) (k : System) (u : Nat) :
    ((core_tsk_unlink t e k).tsk u).join =
      if (k.tsk t).guard = some (Queue.join u) ∧ (k.tsk u).join ≠ Join.detached then
        Join.slot ((getQueue k (Queue.join u)).filter (fun x => x != t))
      else (k.tsk u).join := by
  rw [unlink_eq, leaveQueue_join, getQueue_setTsk_event]
  simp only [setTsk_apply]
  by_cases hu : u = t
  · subst hu; simp
  · simp [hu]

/-! ## More about wake-ups -/

/-- Every queue after a wake-up: the woken task leaves the queue its `guard`
points to; the other queues are as before. -/
theorem wakeup_getQueue (t e : Nat) (k : System) (q : Queue) :
    getQueue (core_tsk_wakeup (some t) e k).2 q =
      if (k.tsk t).guard = some q then (getQueue k q).filter (fun x => x != t)
      else getQueue k q := by
  rw [← unlink_getQueue t e k q]
  simp only [core_tsk_wakeup, core_tsk_insert, core_tmr_remove]
  cases q with
  | join u =>
    simp only [getQueue, setTsk_apply]
    by_cases h : u = t
    · subst h; simp
    · simp [h]
  | _ => rfl

/-- The ready list, the timer list and the fields of the idle task after a
wake-up. -/
theorem wakeup_lists (t e : Nat) (k : System) :
    (∀ x, x ∈ (core_tsk_wakeup (some t) e k).2.rdy ↔ x = t ∨ x ∈ k.rdy) ∧
    (core_tsk_wakeup (some t) e k).2.tmr = k.tmr.filter (fun x => x != t) ∧
    (core_tsk_wakeup (some t) e k).2.corpses = k.corpses ∧
    (core_tsk_wakeup (some t) e k).2.idle_state = k.idle_state ∧
    (core_tsk_wakeup (some t) e k).2.cur = k.cur := by
  have h := unlink_lists t e k
  refine ⟨?_, ?_, ?_, ?_, ?_⟩
  · intro x
    simp only [core_tsk_wakeup, core_tsk_insert, core_tmr_remove, setTsk_rdy]
    rw [mem_prioInsert_iff, h.1]
  · simp [core_tsk_wakeup, core_tsk_insert, core_tmr_remove, h.2.1]
  · simp [core_tsk_wakeup, core_tsk_insert, core_tmr_remove, h.2.2.1]
  · simp [core_tsk_wakeup, core_tsk_insert, core_tmr_remove, h.2.2.2.1]
  · simp [core_tsk_wakeup, core_tsk_insert, core_tmr_remove, h.2.2.2.2]

/-- Storage, entry function, context, mutex fields and `join` of every task
after a wake-up. -/
theorem wakeup_more (t e : Nat) (k : System) (u : Nat) :
    ((core_tsk_wakeup (some t) e k).2.tsk u).res = (k.tsk u).res ∧
    ((core_tsk_wakeup (some t) e k).2.tsk u).state = (k.tsk u).state ∧
    ((core_tsk_wakeup (some t) e k).2.tsk u).ctx = (k.tsk u).ctx ∧
    ((core_tsk_wakeup (some t) e k).2.tsk u).mtx_list = (k.tsk u).mtx_list ∧
    ((core_tsk_wakeup (some t) e k).2.tsk u).mtx_tree = (k.tsk u).mtx_tree ∧
    ((core_tsk_wakeup (some t) e k).2.tsk u).join = ((core_tsk_unlink t e k).tsk u).join := by
  have h := unlink_more t e k u
  simp only [core_tsk_wakeup, core_tsk_insert, core_tmr_remove, setTsk_apply]
  by_cases hu : u = t
  · subst hu; simpa using h
  · simpa [hu] using h

/-- The field `join` of every task after a wake-up. -/
theorem wakeup_join (t e : Nat) (k : System) (u : Nat) :
    ((core_tsk_wakeup (some t) e k).2.tsk u).join =
      if (k.tsk t).guard = some (Queue.join u) ∧ (k.tsk u).join ≠ Join.detached then
        Join.slot ((getQueue k (Queue.join u)).filter (fun x => x != t))
      else (k.tsk u).join := by
  rw [(wakeup_more t e k u).2.2.2.2.2, unlink_join]

/-- A wake-up never makes a task `DETACHED` and never makes a `DETACHED` task
joinable. -/
theorem wakeup_join_detached (t e : Nat) (k : System) (u : Nat) :
    ((core_tsk_wakeup (some t) e k).2.tsk u).join = Join.detached ↔
      (k.tsk u).join = Join.detached := by
  rw [wakeup_join]
  split
  · next h => simp [h.2]
  · rfl

/-- The same for a wake-up whose argument may be null. -/
theorem wakeup_opt_more (o : Option Nat) (e : Nat) (k : System) (u : Nat) :
    ((core_tsk_wakeup o e k).2.tsk u).res = (k.tsk u).res ∧
    ((core_tsk_wakeup o e k).2.tsk u).state = (k.tsk u).state ∧
    ((core_tsk_wakeup o e k).2.tsk u).ctx = (k.tsk u).ctx ∧
    ((core_tsk_wakeup o e k).2.tsk u).mtx_list = (k.tsk u).mtx_list ∧
    ((core_tsk_wakeup o e k).2.tsk u).mtx_tree = (k.tsk u).mtx_tree ∧
    (((core_tsk_wakeup o e k).2.tsk u).join = Join.detached ↔ (k.tsk u).join = Join.detached) ∧
    (core_tsk_wakeup o e k).2.corpses = k.corpses ∧
    (core_tsk_wakeup o e k).2.idle_state = k.idle_state := by
  cases o with
  | none => simp [core_tsk_wakeup]
  | some t =>
    have h := wakeup_more t e k u
    have h2 := wakeup_lists t e k
    exact ⟨h.1, h.2.1, h.2.2.1, h.2.2.2.1, h.2.2.2.2.1, wakeup_join_detached t e k u,
      h2.2.2.1, h2.2.2.2.1⟩

/-- The id of a task after a wake-up whose argument may be null: as before, or
`READY`. -/
theorem wakeup_opt_id (o : Option Nat) (e : Nat) (k : System) (u : Nat) :
    ((core_tsk_wakeup o e k).2.tsk u).id = (k.tsk u).id ∨
    ((core_tsk_wakeup o e k).2.tsk u).id = ID_READY := by
  cases o with
  | none => left; rfl
  | some t =>
    by_cases h : u = t
    · subst h; right; exact (wakeup_self u e k).2.2.1
    · left; exact (wakeup_other t e k u h).2.2.1

/-! ## Flag events: result and mask -/

/-- A 32-bit mask that has no bit in common with `flags` is unchanged by
clearing the bits of `flags`. -/
theorem disjoint_keep (m f : Nat) (hlt : m < UINT_SIZE) (h0 : m &&& f = 0) :
    m &&& bnot32 f = m := by
  apply Nat.eq_of_testBit_eq
  intro i
  have h2 := congrArg (fun x => x.testBit i) h0
  simp only [Nat.testBit_and, Nat.zero_testBit] at h2
  by_cases hi : i < 32
  · simp only [bnot32, UINT_SIZE, Nat.testBit_and, Nat.testBit_xor, Nat.testBit_mod_two_pow,
      Nat.testBit_two_pow_sub_one, hi, decide_True, Bool.true_and]
    cases hb : m.testBit i
    · rfl
    · rw [hb] at h2
      cases hf : f.testBit i <;> simp [hf] at h2 ⊢
  · have hle : 2 ^ 32 ≤ 2 ^ i := Nat.pow_le_pow_right (by decide) (by omega)
    have hm : m.testBit i = false := Nat.testBit_lt_two_pow (lt_of_lt_of_le hlt hle)
    simp [Nat.testBit_and, hm]

/-- The state after `tsk_give` on a task in the flag-wait state, in terms of
the new mask `m & ~flags`. -/
theorem tsk_give_wai (tsk flags : Nat) (k : System)
    (hg : (k.tsk tsk).guard = some Queue.wai) (hlt : (k.tsk tsk).flags < UINT_SIZE) :
    (tsk_give tsk flags k).1 = E_SUCCESS ∧
    ((k.tsk tsk).flags &&& bnot32 flags ≠ 0 →
      ((tsk_give tsk flags k).2.tsk tsk).flags = (k.tsk tsk).flags &&& bnot32 flags ∧
      ((tsk_give tsk flags k).2.tsk tsk).guard = some Queue.wai ∧
      ((tsk_give tsk flags k).2.tsk tsk).id = (k.tsk tsk).id ∧
      ((tsk_give tsk flags k).2.tsk tsk).event = (k.tsk tsk).event ∧
      (tsk_give tsk flags k).2.rdy = k.rdy ∧ (tsk_give tsk flags k).2.wai = k.wai) ∧
    ((k.tsk tsk).flags &&& bnot32 flags = 0 →
      ((tsk_give tsk flags k).2.tsk tsk).flags = 0 ∧
      ((tsk_give tsk flags k).2.tsk tsk).guard = none ∧
      ((tsk_give tsk flags k).2.tsk tsk).id = ID_READY ∧
      tsk ∈ (tsk_give tsk flags k).2.rdy ∧
      (tsk_give tsk flags k).2.wai = k.wai.filter (fun x => x != tsk)) := by
  refine ⟨by simp [tsk_give, hg], ?_, ?_⟩
  · intro hne
    by_cases hhit : (k.tsk tsk).flags &&& flags = 0
    · have hk := disjoint_keep _ flags hlt hhit
      rw [hk] at hne ⊢
      have e : (tsk_give tsk flags k).2 = k := by
        simp [tsk_give, hg, hhit, hne]
      rw [e]
      exact ⟨rfl, hg, rfl, rfl, rfl, rfl⟩
    · have e : (tsk_give tsk flags k).2 =
          setTsk k tsk { k.tsk tsk with flags := (k.tsk tsk).flags &&& bnot32 flags } := by
        simp [tsk_give, hg, hhit, hne]
      rw [e]
      simp [hg]
  · intro h0
    by_cases hhit : (k.tsk tsk).flags &&& flags = 0
    · have hk := disjoint_keep _ flags hlt hhit
      rw [hk] at h0
      have e : (tsk_give tsk flags k).2 = (core_tsk_wakeup (some tsk) flags k).2 := by
        simp [tsk_give, hg, hhit, h0]
      have hs := wakeup_self tsk flags k
      have hq := wakeup_getQueue tsk flags k Queue.wai
      rw [e]
      refine ⟨by rw [hs.2.2.2.2.2, h0], hs.2.1, hs.2.2.1, wakeup_rdy tsk flags k, ?_⟩
      simpa [getQueue, hg] using hq
    · have e : (tsk_give tsk flags k).2 =
          (core_tsk_wakeup (some tsk) 0 (setTsk k tsk { k.tsk tsk with flags := 0 })).2 := by
        simp [tsk_give, hg, hhit, h0]
      have hs := wakeup_self tsk 0 (setTsk k tsk { k.tsk tsk with flags := 0 })
      have hq := wakeup_getQueue tsk 0 (setTsk k tsk { k.tsk tsk with flags := 0 }) Queue.wai
      rw [e]
      refine ⟨by rw [hs.2.2.2.2.2]; simp, hs.2.1, hs.2.2.1, wakeup_rdy tsk 0 _, ?_⟩
      simpa [getQueue, hg] using hq

/-- C11: `tsk_give` result and mask update.  For every task (with a 32-bit
pending mask) and every `flags`: the result is `E_SUCCESS` if and only if the
`guard` of the task is `System.wai`, and `E_FAILURE` otherwise; on `E_FAILURE`
nothing changes; on `E_SUCCESS` the new pending mask is the old one `& ~flags`,
and the task is woken (`READY`, on the ready list, off `System.wai`, `guard`
cleared) if and only if the new mask is 0; otherwise it stays blocked on
`System.wai` as it was. -/
theorem tsk_give_result (tsk flags : Nat) (k : System) (hlt : (k.tsk tsk).flags < UINT_SIZE) :
    ((tsk_give tsk flags k).1 = E_SUCCESS ↔ (k.tsk tsk).guard = some Queue.wai) ∧
    ((k.tsk tsk).guard ≠ some Queue.wai →
      (tsk_give tsk flags k).1 = E_FAILURE ∧ (tsk_give tsk flags k).2 = k) ∧
    ((k.tsk tsk).guard = some Queue.wai →
      ((tsk_give tsk flags k).2.tsk tsk).flags = (k.tsk tsk).flags &&& bnot32 flags ∧
      (((tsk_give tsk flags k).2.tsk tsk).guard = none ↔
        (k.tsk tsk).flags &&& bnot32 flags = 0) ∧
      ((k.tsk tsk).flags &&& bnot32 flags = 0 →
        ((tsk_give tsk flags k).2.tsk tsk).id = ID_READY ∧
        tsk ∈ (tsk_give tsk flags k).2.rdy ∧
        (tsk_give tsk flags k).2.wai = k.wai.filter (fun x => x != tsk)) ∧
      ((k.tsk tsk).flags &&& bnot32 flags ≠ 0 →
        ((tsk_give tsk flags k).2.tsk tsk).guard = some Queue.wai ∧
        ((tsk_give tsk flags k).2.tsk tsk).id = (k.tsk tsk).id ∧
        ((tsk_give tsk flags k).2.tsk tsk).event = (k.tsk tsk).event ∧
        (tsk_give tsk flags k).2.rdy = k.rdy ∧ (tsk_give tsk flags k).2.wai = k.wai)) := by
  have hf : (k.tsk tsk).guard ≠ some Queue.wai →
      (tsk_give tsk flags k).1 = E_FAILURE ∧ (tsk_give tsk flags k).2 = k := by
    intro h; simp [tsk_give, h]
  refine ⟨?_, hf, ?_⟩
  · constructor
    · intro hs
      by_contra h
      rw [(hf h).1] at hs
      exact absurd hs (by decide)
    · intro h
      exact (tsk_give_wai tsk flags k h hlt).1
  · intro hg
    obtain ⟨_, hne, h0⟩ := tsk_give_wai tsk flags k hg hlt
    by_cases hz : (k.tsk tsk).flags &&& bnot32 flags = 0
    · have h := h0 hz
      refine ⟨by rw [h.1, hz], ⟨fun _ => hz, fun _ => h.2.1⟩, fun _ => ⟨h.2.2.1, h.2.2.2⟩, ?_⟩
      intro hh; exact absurd hz hh
    · have h := hne hz
      refine ⟨h.1, ⟨?_, fun hh => absurd hh hz⟩, fun hh => absurd hh hz, fun _ => h.2⟩
      intro hn
      rw [h.2.1] at hn
      cases hn

/-- Witness for C11 (scenario 6 of section 8, first half): pending mask
`0b1100`, `give(A, 0b0100)`: the result is `E_SUCCESS` and A remains blocked on
`System.wai` with pending mask `0b1000`; `give` to the ready task B fails. -/
theorem tsk_give_result_witness :
    (sysFlagsStart.tsk 1).flags < UINT_SIZE ∧
    (sysFlagsStart.tsk 1).guard = some Queue.wai ∧
    (sysFlagsStart.tsk 1).flags = 12 ∧
    (tsk_give 1 4 (dispatch 2 sysFlagsStart)).1 = E_SUCCESS ∧
    ((tsk_give 1 4 (dispatch 2 sysFlagsStart)).2.tsk 1).flags = 8 ∧
    ((tsk_give 1 4 (dispatch 2 sysFlagsStart)).2.tsk 1).guard = some Queue.wai ∧
    ((tsk_give 1 4 (dispatch 2 sysFlagsStart)).2.tsk 1).id = ID_BLOCKED ∧
    ((dispatch 2 sysFlagsStart).tsk 2).guard ≠ some Queue.wai ∧
    (tsk_give 2 4 (dispatch 2 sysFlagsStart)).1 = E_FAILURE :=
  ⟨by decide, by decide, by decide,
   (tsk_give_result 1 4 (dispatch 2 sysFlagsStart) (by decide)).1.mpr (by decide),
   ((tsk_give_result 1 4 (dispatch 2 sysFlagsStart) (by decide)).2.2 (by decide)).1,
   (((tsk_give_result 1 4 (dispatch 2 sysFlagsStart) (by decide)).2.2 (by decide)).2.2.2
      (by decide)).1,
   by decide, by decide,
   ((tsk_give_result 2 4 (dispatch 2 sysFlagsStart) (by decide)).2.1 (by decide)).1⟩

/-- C12, as stated, fails for a task that waits with an empty pending mask:
A (task 1) is blocked on `System.wai` with `tmp.flg.flags == 0`; `0 & 5 == 0`,
yet `give(A, 5)` wakes A (it is `READY`, no longer on `System.wai`) and
delivers the event value 5. -/
theorem tsk_give_empty_mask_wakes :
    ((sysFlagsNone.tsk 1).guard = some Queue.wai ∧ (sysFlagsNone.tsk 1).id = ID_BLOCKED ∧
      sysFlagsNone.wai = [1] ∧ (sysFlagsNone.tsk 1).event = 77 ∧
      (sysFlagsNone.tsk 1).flags &&& 5 = 0) ∧
    (tsk_give 1 5 (dispatch 2 sysFlagsNone)).1 = E_SUCCESS ∧
    ((tsk_give 1 5 (dispatch 2 sysFlagsNone)).2.tsk 1).id = ID_READY ∧
    ((tsk_give 1 5 (dispatch 2 sysFlagsNone)).2.tsk 1).guard = none ∧
    (tsk_give 1 5 (dispatch 2 sysFlagsNone)).2.wai = [] ∧
    ((tsk_give 1 5 (dispatch 2 sysFlagsNone)).2.tsk 1).event = 5 ∧
    ¬ (((tsk_give 1 5 (dispatch 2 sysFlagsNone)).2.tsk 1).guard = some Queue.wai ∧
       ((tsk_give 1 5 (dispatch 2 sysFlagsNone)).2.tsk 1).event = 77) := by
  decide

/-- C12, amended: for every task blocked on `System.wai` with a non-zero pending
mask and every `flags` with `(tmp.flg.flags & flags) == 0`, `tsk_give` returns
`E_SUCCESS` and the kernel state is unchanged: the task stays blocked on
`System.wai`, its mask is unchanged and no wake-up is delivered. -/
theorem tsk_give_noop (tsk flags : Nat) (k : System)
    (hg : (k.tsk tsk).guard = some Queue.wai) (hm : (k.tsk tsk).flags ≠ 0)
    (h0 : (k.tsk tsk).flags &&& flags = 0) :
    (tsk_give tsk flags k).1 = E_SUCCESS ∧
    (tsk_give tsk flags k).2 = k ∧
    ((tsk_give tsk flags k).2.tsk tsk).guard = some Queue.wai ∧
    ((tsk_give tsk flags k).2.tsk tsk).flags = (k.tsk tsk).flags ∧
    ((tsk_give tsk flags k).2.tsk tsk).event = (k.tsk tsk).event ∧
    ((tsk_give tsk flags k).2.tsk tsk).id = (k.tsk tsk).id := by
  have e : tsk_give tsk flags k = (E_SUCCESS, k) := by
    simp [tsk_give, hg, hm, h0]
  rw [e]
  exact ⟨rfl, rfl, hg, rfl, rfl, rfl⟩

/-- Witness for the amended C12: pending mask `0b1100`, `give(A, 0b0011)`. -/
theorem tsk_give_noop_witness :
    ((dispatch 2 sysFlagsStart).tsk 1).guard = some Queue.wai ∧
    ((dispatch 2 sysFlagsStart).tsk 1).flags ≠ 0 ∧
    ((dispatch 2 sysFlagsStart).tsk 1).flags &&& 3 = 0 ∧
    (tsk_give 1 3 (dispatch 2 sysFlagsStart)).1 = E_SUCCESS ∧
    (tsk_give 1 3 (dispatch 2 sysFlagsStart)).2 = dispatch 2 sysFlagsStart :=
  ⟨by decide, by decide, by decide,
   (tsk_give_noop 1 3 (dispatch 2 sysFlagsStart) (by decide) (by decide) (by decide)).1,
   (tsk_give_noop 1 3 (dispatch 2 sysFlagsStart) (by decide) (by decide) (by decide)).2.1⟩

/-! ## Joining -/

/-- Releasing the storage of a task owned by the kernel. -/
theorem res_free_owned (t : Nat) (k : System) (h : (k.tsk t).res = Res.owned) :
    core_res_free t k = setTsk k t { k.tsk t with res := Res.released } := by
  simp [core_res_free, h]

/-- Releasing the storage of a task that is not owned by the kernel does nothing. -/
theorem res_free_other (t : Nat) (k : System) (h : (k.tsk t).res ≠ Res.owned) :
    core_res_free t k = k := by
  unfold core_res_free
  cases hr : (k.tsk t).res with
  | owned => exact absurd hr h
  | static => rfl
  | released => rfl

/-- What `core_res_free` changes: the field `res` of the one task, nothing else. -/
theorem res_free_frame (t : Nat) (k : System) :
    (core_res_free t k).rdy = k.rdy ∧ (core_res_free t k).tmr = k.tmr ∧
    (core_res_free t k).corpses = k.corpses ∧
    (core_res_free t k).idle_state = k.idle_state ∧
    (∀ q, getQueue (core_res_free t k) q = getQueue k q) ∧
    (∀ u, ((core_res_free t k).tsk u).id = (k.tsk u).id ∧
      ((core_res_free t k).tsk u).join = (k.tsk u).join ∧
      ((core_res_free t k).tsk u).guard = (k.tsk u).guard ∧
      ((core_res_free t k).tsk u).event = (k.tsk u).event) ∧
    (∀ u, u ≠ t → (core_res_free t k).tsk u = k.tsk u) := by
  by_cases h : (k.tsk t).res = Res.owned
  · rw [res_free_owned t k h]
    refine ⟨rfl, rfl, rfl, rfl, fun q => getQueue_setTsk k t _ q rfl, ?_, ?_⟩
    · intro u
      simp only [setTsk_apply]
      by_cases hu : u = t
      · subst hu; simp
      · simp [hu]
    · intro u hu
      exact setTsk_other _ _ _ _ hu
  · rw [res_free_other t k h]
    exact ⟨rfl, rfl, rfl, rfl, fun _ => rfl, fun _ => ⟨rfl, rfl, rfl, rfl⟩, fun _ _ => rfl⟩

/-- The field `res` after `core_res_free`. -/
theorem res_free_res (t : Nat) (k : System) :
    ((k.tsk t).res = Res.owned → ((core_res_free t k).tsk t).res = Res.released) ∧
    ((k.tsk t).res ≠ Res.owned → ((core_res_free t k).tsk t).res = (k.tsk t).res) := by
  constructor
  · intro h; rw [res_free_owned t k h]; simp
  · intro h; rw [res_free_other t k h]

theorem detached_ne_joinable : Join.detached ≠ JOINABLE := by decide

/-- C13: `tsk_join` failure.  For every target that is `DETACHED`, and for every
call in which the target is the current task, `tsk_join` returns `E_FAILURE`
at once and the kernel state is unchanged: the caller is on no wait queue it
was not on before, the target's join slot and id are unchanged and its storage
is not released. -/
theorem tsk_join_failure (tsk : Nat) (k : System)
    (h : (k.tsk tsk).join = Join.detached ∨ tsk = k.cur) :
    (tsk_join tsk k).1 = Ret.val E_FAILURE ∧
    (tsk_join tsk k).2 = k ∧
    (∀ q, getQueue (tsk_join tsk k).2 q = getQueue k q) ∧
    ((tsk_join tsk k).2.tsk k.cur).id = (k.tsk k.cur).id ∧
    ((tsk_join tsk k).2.tsk k.cur).guard = (k.tsk k.cur).guard ∧
    ((tsk_join tsk k).2.tsk tsk).join = (k.tsk tsk).join ∧
    ((tsk_join tsk k).2.tsk tsk).id = (k.tsk tsk).id ∧
    ((tsk_join tsk k).2.tsk tsk).res = (k.tsk tsk).res := by
  have hc : (k.tsk tsk).join ≠ JOINABLE ∨ tsk = k.cur := by
    rcases h with h | h
    · left; rw [h]; exact detached_ne_joinable
    · right; exact h
  have e : tsk_join tsk k = (Ret.val E_FAILURE, k) := by
    simp [tsk_join, tsk_join_reclaim, hc]
  rw [e]
  exact ⟨rfl, rfl, fun _ => rfl, rfl, rfl, rfl, rfl, rfl⟩

/-- Witness for C13: J joins the detached task T; T joins itself (scenario 4 of
section 8). -/
theorem tsk_join_failure_witness :
    ((dispatch 2 sysDetached).tsk 1).join = Join.detached ∧
    (tsk_join 1 (dispatch 2 sysDetached)).1 = Ret.val E_FAILURE ∧
    (tsk_join 1 (dispatch 2 sysDetached)).2 = dispatch 2 sysDetached ∧
    1 = (dispatch 1 sysTJ).cur ∧
    (tsk_join 1 (dispatch 1 sysTJ)).1 = Ret.val E_FAILURE ∧
    (tsk_join 1 (dispatch 1 sysTJ)).2 = dispatch 1 sysTJ :=
  ⟨by decide,
   (tsk_join_failure 1 (dispatch 2 sysDetached) (Or.inl (by decide))).1,
   (tsk_join_failure 1 (dispatch 2 sysDetached) (Or.inl (by decide))).2.1,
   by decide,
   (tsk_join_failure 1 (dispatch 1 sysTJ) (Or.inr (by decide))).1,
   (tsk_join_failure 1 (dispatch 1 sysTJ) (Or.inr (by decide))).2.1⟩

/-- The task records and the ready list after `core_tsk_block`, without the
timer list. -/
theorem block_core (q : Queue) (k : System) :
    (core_tsk_block q k).1 = Ret.blocked ∧
    (core_tsk_block q k).2.tsk =
      (setQueue (setTsk { k with rdy := k.rdy.filter (fun x => x != k.cur) } k.cur
          { k.tsk k.cur with id := ID_BLOCKED, guard := some q }) q
        (prioInsert (fun x => ((setTsk { k with rdy := k.rdy.filter (fun x => x != k.cur) } k.cur
          { k.tsk k.cur with id := ID_BLOCKED, guard := some q }).tsk x).prio) k.cur
          (getQueue (setTsk { k with rdy := k.rdy.filter (fun x => x != k.cur) } k.cur
          { k.tsk k.cur with id := ID_BLOCKED, guard := some q }) q))).tsk ∧
    (core_tsk_block q k).2.rdy = k.rdy.filter (fun x => x != k.cur) := by
  unfold core_tsk_block
  refine ⟨rfl, ?_, ?_⟩
  · dsimp only
    split <;> rfl
  · dsimp only
    have h := setQueue_lists (setTsk { k with rdy := k.rdy.filter (fun x => x != k.cur) } k.cur
          { k.tsk k.cur with id := ID_BLOCKED, guard := some q }) q
        (prioInsert (fun x => ((setTsk { k with rdy := k.rdy.filter (fun x => x != k.cur) } k.cur
          { k.tsk k.cur with id := ID_BLOCKED, guard := some q }).tsk x).prio) k.cur
          (getQueue (setTsk { k with rdy := k.rdy.filter (fun x => x != k.cur) } k.cur
          { k.tsk k.cur with id := ID_BLOCKED, guard := some q }) q))
    split
    · exact h.1
    · exact h.1

/-- The state after blocking on the join slot of another task whose slot is
empty. -/
theorem block_join (tsk : Nat) (k : System) (hne : tsk ≠ k.cur)
    (hj : (k.tsk tsk).join = Join.slot []) :
    (core_tsk_block (Queue.join tsk) k).1 = Ret.blocked ∧
    ((core_tsk_block (Queue.join tsk) k).2.tsk k.cur).id = ID_BLOCKED ∧
    ((core_tsk_block (Queue.join tsk) k).2.tsk k.cur).guard = some (Queue.join tsk) ∧
    ((core_tsk_block (Queue.join tsk) k).2.tsk k.cur).delay = (k.tsk k.cur).delay ∧
    ((core_tsk_block (Queue.join tsk) k).2.tsk tsk).join = Join.slot [k.cur] ∧
    ((core_tsk_block (Queue.join tsk) k).2.tsk tsk).id = (k.tsk tsk).id ∧
    ((core_tsk_block (Queue.join tsk) k).2.tsk tsk).res = (k.tsk tsk).res ∧
    k.cur ∉ (core_tsk_block (Queue.join tsk) k).2.rdy := by
  obtain ⟨h1, h2, h3⟩ := block_core (Queue.join tsk) k
  have hne2 : k.cur ≠ tsk := fun e => hne e.symm
  rw [h2, h3]
  refine ⟨h1, ?_, ?_, ?_, ?_, ?_, ?_, ?_⟩
  · simp
  · simp
  · simp
  · rw [setQueue_tsk_join]
    simp [getQueue, setTsk_apply, hne, hj, prioInsert]
  · simp [setTsk_apply, hne]
  · rw [(setQueue_tsk_more _ _ _ _).1]
    simp [setTsk_apply, hne]
  · simp [List.mem_filter]

/-- C14: `tsk_join` cooperative reclamation.  For every `JOINABLE` target other
than the caller: (i) if the target is already `STOPPED`, `tsk_join` returns
`E_SUCCESS` without blocking (no queue and no other task record changes);
(ii) if the target is active, the caller blocks on the target's join slot with
`INFINITE` delay and the target's storage is untouched; and in both cases,
whenever the call returns a code other than `E_FAILURE` while the target's id
is `STOPPED` (at once, or in the state `k2` in which the suspended caller runs
again), storage owned by the kernel has been released (`res == RELEASED`) and
a statically declared target (`res == 0`) is left untouched; in the remaining
cases the resumed call changes nothing. -/
theorem tsk_join_reclaims (tsk : Nat) (k : System)
    (hj : (k.tsk tsk).join = JOINABLE) (hne : tsk ≠ k.cur) :
    ((k.tsk tsk).id = ID_STOPPED →
      (tsk_join tsk k).1 = Ret.val E_SUCCESS ∧
      (∀ q, getQueue (tsk_join tsk k).2 q = getQueue k q) ∧
      (tsk_join tsk k).2.rdy = k.rdy ∧
      (∀ u, u ≠ tsk → (tsk_join tsk k).2.tsk u = k.tsk u) ∧
      ((k.tsk tsk).res = Res.owned → ((tsk_join tsk k).2.tsk tsk).res = Res.released) ∧
      ((k.tsk tsk).res = Res.static → (tsk_join tsk k).2 = k)) ∧
    ((k.tsk tsk).id ≠ ID_STOPPED →
      (tsk_join tsk k).1 = Ret.blocked ∧
      ((tsk_join tsk k).2.tsk k.cur).id = ID_BLOCKED ∧
      ((tsk_join tsk k).2.tsk k.cur).guard = some (Queue.join tsk) ∧
      ((tsk_join tsk k).2.tsk k.cur).delay = INFINITE ∧
      ((tsk_join tsk k).2.tsk tsk).join = Join.slot [k.cur] ∧
      k.cur ∉ (tsk_join tsk k).2.rdy ∧
      ((tsk_join tsk k).2.tsk tsk).id = (k.tsk tsk).id ∧
      ((tsk_join tsk k).2.tsk tsk).res = (k.tsk tsk).res) ∧
    (∀ k2 : System,
      (tsk_join_resumed tsk k2).1 = Ret.value Ret.blocked k2.cur k2 ∧
      (((tsk_join_resumed tsk k2).1 ≠ E_FAILURE ∧ (k2.tsk tsk).id = ID_STOPPED) →
        ((k2.tsk tsk).res = Res.owned →
          ((tsk_join_resumed tsk k2).2.tsk tsk).res = Res.released) ∧
        ((k2.tsk tsk).res = Res.static → (tsk_join_resumed tsk k2).2 = k2)) ∧
      (¬ ((tsk_join_resumed tsk k2).1 ≠ E_FAILURE ∧ (k2.tsk tsk).id = ID_STOPPED) →
        (tsk_join_resumed tsk k2).2 = k2)) := by
  have hc : ¬ ((k.tsk tsk).join ≠ JOINABLE ∨ tsk = k.cur) := by
    intro h
    rcases h with h | h
    · exact h hj
    · exact hne h
  refine ⟨?_, ?_, ?_⟩
  · intro hs
    have e : tsk_join tsk k = (Ret.val E_SUCCESS, core_res_free tsk k) := by
      have h1 : E_SUCCESS ≠ E_FAILURE := by decide
      simp [tsk_join, tsk_join_reclaim, hc, hs, h1]
    have hf := res_free_frame tsk k
    have hr := res_free_res tsk k
    rw [e]
    refine ⟨rfl, hf.2.2.2.2.1, hf.1, hf.2.2.2.2.2.2, hr.1, ?_⟩
    intro hst
    exact res_free_other tsk k (by rw [hst]; decide)
  · intro hs
    have e : tsk_join tsk k = core_tsk_waitFor (Queue.join tsk) INFINITE k := by
      simp [tsk_join, hc, hs]
    rw [e]
    unfold core_tsk_waitFor
    have hb := block_join tsk
      (setTsk k k.cur { k.tsk k.cur with start := k.cnt, delay := INFINITE })
      hne (by simpa [setTsk_apply, hne] using hj)
    simp only [setTsk_cur, setTsk_same, setTsk_apply, if_neg hne] at hb
    exact ⟨hb.1, hb.2.1, hb.2.2.1, hb.2.2.2.1, hb.2.2.2.2.1, hb.2.2.2.2.2.2.2,
      hb.2.2.2.2.2.1, hb.2.2.2.2.2.2.1⟩
  · intro k2
    refine ⟨rfl, ?_, ?_⟩
    · intro hcond
      have e : (tsk_join_resumed tsk k2).2 = core_res_free tsk k2 := by
        have h1 : (k2.tsk k2.cur).event ≠ E_FAILURE := hcond.1
        simp [tsk_join_resumed, tsk_join_reclaim, h1, hcond.2]
      rw [e]
      refine ⟨(res_free_res tsk k2).1, ?_⟩
      intro hst
      exact res_free_other tsk k2 (by rw [hst]; decide)
    · intro hcond
      have hcond2 : ¬ ((k2.tsk k2.cur).event ≠ E_FAILURE ∧ (k2.tsk tsk).id = ID_STOPPED) := hcond
      simp only [tsk_join_resumed, tsk_join_reclaim, if_neg hcond2]

/-- Witness for C14 (scenario 3 of section 8): J (task 2) joins the running
heap task T (task 1) and blocks in T's join slot; T calls `tsk_stop`; J runs
again: its call returns `E_SUCCESS` and T's storage is released. -/
theorem tsk_join_reclaims_witness :
    ((dispatch 2 sysTJ).tsk 1).join = JOINABLE ∧ 1 ≠ (dispatch 2 sysTJ).cur ∧
    ((dispatch 2 sysTJ).tsk 1).id ≠ ID_STOPPED ∧
    (tsk_join 1 (dispatch 2 sysTJ)).1 = Ret.blocked ∧
    (sysJoined.tsk 1).join = Join.slot [2] ∧
    (sysJoined.tsk 1).res = Res.owned ∧
    (sysJoinedStopped.tsk 1).id = ID_STOPPED ∧
    (sysJoinedStopped.tsk 1).res = Res.owned ∧
    (sysJoinedStopped.tsk 2).id = ID_READY ∧
    (tsk_join_resumed 1 (dispatch 2 sysJoinedStopped)).1 = E_SUCCESS ∧
    ((tsk_join_resumed 1 (dispatch 2 sysJoinedStopped)).2.tsk 1).res = Res.released :=
  ⟨by decide, by decide, by decide,
   ((tsk_join_reclaims 1 (dispatch 2 sysTJ) (by decide) (by decide)).2.1 (by decide)).1,
   ((tsk_join_reclaims 1 (dispatch 2 sysTJ) (by decide) (by decide)).2.1
      (by decide)).2.2.2.2.1,
   by decide, by decide, by decide, by decide, by decide,
   (((tsk_join_reclaims 1 (dispatch 2 sysTJ) (by decide) (by decide)).2.2
      (dispatch 2 sysJoinedStopped)).2.1 ⟨by decide, by decide⟩).1 (by decide)⟩

/-! ## Detaching -/

/-- The woken joiner after a wake-up of the head of a join slot, and what the
wake-up leaves alone. -/
theorem wakeup_head (j : Join) (e : Nat) (k : System) (J : Nat) (h : j.head = some J) :
    ((core_tsk_wakeup j.head e k).2.tsk J).event = e ∧
    ((core_tsk_wakeup j.head e k).2.tsk J).id = ID_READY ∧
    J ∈ (core_tsk_wakeup j.head e k).2.rdy := by
  rw [h]
  exact ⟨(wakeup_self J e k).1, (wakeup_self J e k).2.2.1, wakeup_rdy J e k⟩

/-- The failing branch of `tsk_detach`. -/
theorem tsk_detach_fail (tsk : Nat) (k : System)
    (h : (k.tsk tsk).join = Join.detached ∨ (k.tsk tsk).res = Res.static) :
    tsk_detach tsk k = (E_FAILURE, k) := by
  simp [tsk_detach, h]

/-- C15: `tsk_detach`, for every task whose storage is not `RELEASED`: it
returns `E_FAILURE` and changes nothing if the task is already `DETACHED` or
statically allocated (`res == 0`); otherwise it returns `E_SUCCESS` and, if the
task is `STOPPED`, releases its storage at once (`res == RELEASED`, nothing
else changes), else wakes the pending joiner, if any, with `E_FAILURE` and sets
`join = DETACHED` (the storage stays).  A second `tsk_detach` on the active
task then returns `E_FAILURE`. -/
theorem tsk_detach_contract (tsk : Nat) (k : System) (hres : (k.tsk tsk).res ≠ Res.released) :
    (((k.tsk tsk).join = Join.detached ∨ (k.tsk tsk).res = Res.static) →
      (tsk_detach tsk k).1 = E_FAILURE ∧ (tsk_detach tsk k).2 = k) ∧
    (¬ ((k.tsk tsk).join = Join.detached ∨ (k.tsk tsk).res = Res.static) →
      (tsk_detach tsk k).1 = E_SUCCESS ∧
      ((k.tsk tsk).id = ID_STOPPED →
        ((tsk_detach tsk k).2.tsk tsk).res = Res.released ∧
        (tsk_detach tsk k).2 = setTsk k tsk { k.tsk tsk with res := Res.released }) ∧
      ((k.tsk tsk).id ≠ ID_STOPPED →
        ((tsk_detach tsk k).2.tsk tsk).join = Join.detached ∧
        ((tsk_detach tsk k).2.tsk tsk).res = (k.tsk tsk).res ∧
        (∀ J, (k.tsk tsk).join.head = some J →
          Ret.value Ret.blocked J (tsk_detach tsk k).2 = E_FAILURE ∧
          ((tsk_detach tsk k).2.tsk J).id = ID_READY ∧
          J ∈ (tsk_detach tsk k).2.rdy) ∧
        ((k.tsk tsk).join.head = none →
          (tsk_detach tsk k).2 = setTsk k tsk { k.tsk tsk with join := Join.detached }) ∧
        (tsk_detach tsk (tsk_detach tsk k).2).1 = E_FAILURE ∧
        (tsk_detach tsk (tsk_detach tsk k).2).2 = (tsk_detach tsk k).2)) := by
  refine ⟨?_, ?_⟩
  · intro h
    simp [tsk_detach, h]
  · intro h
    have hown : (k.tsk tsk).res = Res.owned := by
      cases hr : (k.tsk tsk).res with
      | owned => rfl
      | static => exact absurd (Or.inr hr) h
      | released => exact absurd hr hres
    refine ⟨?_, ?_, ?_⟩
    · by_cases hs : (k.tsk tsk).id = ID_STOPPED
      · simp [tsk_detach, h, hs]
      · simp [tsk_detach, h, hs]
    · intro hs
      have e : (tsk_detach tsk k).2 = core_res_free tsk k := by
        simp [tsk_detach, h, hs]
      rw [e, res_free_owned tsk k hown]
      simp
    · intro hs
      have e : (tsk_detach tsk k).2 =
          setTsk (core_tsk_wakeup (k.tsk tsk).join.head E_FAILURE k).2 tsk
            { (core_tsk_wakeup (k.tsk tsk).join.head E_FAILURE k).2.tsk tsk with
              join := Join.detached } := by
        simp [tsk_detach, h, hs]
      have hj : ((tsk_detach tsk k).2.tsk tsk).join = Join.detached := by
        rw [e]; simp
      refine ⟨hj, ?_, ?_, ?_, ?_, ?_⟩
      · rw [e]
        simp only [setTsk_same]
        exact (wakeup_opt_more _ _ k tsk).1
      · intro J hJ
        have hw := wakeup_head (k.tsk tsk).join E_FAILURE k J hJ
        rw [e]
        simp only [Ret.value, setTsk_apply, setTsk_rdy]
        by_cases hJt : J = tsk
        · subst hJt
          simp only [if_true]
          exact ⟨hw.1, hw.2.1, hw.2.2⟩
        · simp only [if_neg hJt]
          exact hw
      · intro hn
        rw [e, hn]
        rfl
      · rw [tsk_detach_fail tsk _ (Or.inl hj)]
      · rw [tsk_detach_fail tsk _ (Or.inl hj)]

/-- Witness for C15 (scenario 5 of section 8 and scenario 3): the running heap
task T (task 1) is detached: `E_SUCCESS`, `join == DETACHED`; a second detach
fails; detaching T while J waits in its join slot wakes J with `E_FAILURE`;
detaching the static task J fails. -/
theorem tsk_detach_contract_witness :
    ((dispatch 2 sysTJ).tsk 1).res ≠ Res.released ∧
    ¬ (((dispatch 2 sysTJ).tsk 1).join = Join.detached ∨
        ((dispatch 2 sysTJ).tsk 1).res = Res.static) ∧
    ((dispatch 2 sysTJ).tsk 1).id ≠ ID_STOPPED ∧
    (tsk_detach 1 (dispatch 2 sysTJ)).1 = E_SUCCESS ∧
    ((tsk_detach 1 (dispatch 2 sysTJ)).2.tsk 1).join = Join.detached ∧
    (tsk_detach 1 (tsk_detach 1 (dispatch 2 sysTJ)).2).1 = E_FAILURE ∧
    ((dispatch 3 sysJoined).tsk 1).join.head = some 2 ∧
    Ret.value Ret.blocked 2 (tsk_detach 1 (dispatch 3 sysJoined)).2 = E_FAILURE ∧
    ((dispatch 2 sysTJ).tsk 2).res = Res.static ∧
    (tsk_detach 2 (dispatch 2 sysTJ)).1 = E_FAILURE :=
  ⟨by decide, by decide, by decide,
   ((tsk_detach_contract 1 (dispatch 2 sysTJ) (by decide)).2 (by decide)).1,
   (((tsk_detach_contract 1 (dispatch 2 sysTJ) (by decide)).2 (by decide)).2.2
      (by decide)).1,
   (((tsk_detach_contract 1 (dispatch 2 sysTJ) (by decide)).2 (by decide)).2.2
      (by decide)).2.2.2.2.1,
   by decide,
   ((((tsk_detach_contract 1 (dispatch 3 sysJoined) (by decide)).2 (by decide)).2.2
      (by decide)).2.2.1 2 (by decide)).1,
   by decide,
   ((tsk_detach_contract 2 (dispatch 2 sysTJ) (by decide)).1 (Or.inr (by decide))).1⟩

/-! ## Starting -/

theorem ID_READY_ne_ID_STOPPED : ID_READY ≠ ID_STOPPED := by decide

/-- The state after `core_tsk_insert (core_ctx_init ...)`: the task is `READY`,
on the ready list, and its context is the initial frame of its entry function. -/
theorem insert_ctx_init (t : Nat) (k : System) :
    ((core_tsk_insert t (core_ctx_init t k)).tsk t).id = ID_READY ∧
    t ∈ (core_tsk_insert t (core_ctx_init t k)).rdy ∧
    ((core_tsk_insert t (core_ctx_init t k)).tsk t).ctx = (k.tsk t).state ∧
    ((core_tsk_insert t (core_ctx_init t k)).tsk t).state = (k.tsk t).state ∧
    ((core_tsk_insert t (core_ctx_init t k)).tsk t).join = (k.tsk t).join ∧
    ((core_tsk_insert t (core_ctx_init t k)).tsk t).res = (k.tsk t).res ∧
    (∀ u, u ≠ t → (core_tsk_insert t (core_ctx_init t k)).tsk u = k.tsk u) := by
  refine ⟨?_, ?_, ?_, ?_, ?_, ?_, ?_⟩
  · simp [core_tsk_insert, core_ctx_init]
  · simp [core_tsk_insert, core_ctx_init, mem_prioInsert]
  · simp [core_tsk_insert, core_ctx_init]
  · simp [core_tsk_insert, core_ctx_init]
  · simp [core_tsk_insert, core_ctx_init]
  · simp [core_tsk_insert, core_ctx_init]
  · intro u hu
    simp [core_tsk_insert, core_ctx_init, setTsk_apply, hu]

/-- A task that is active or `DETACHED` is not started. -/
theorem tsk_start_noop (tsk : Nat) (k : System)
    (h : ¬ ((k.tsk tsk).id = ID_STOPPED ∧ (k.tsk tsk).join ≠ Join.detached)) :
    tsk_start tsk k = k := by
  simp only [tsk_start, if_neg h]

/-- C16: `tsk_start` / `tsk_startFrom`.  For every task whose id is not
`STOPPED` the call changes nothing (so `startFrom` does not replace the entry
function), and starting twice equals starting once; for every `STOPPED` task
that is not `DETACHED` the call builds the initial context of the entry
function and inserts the task on the ready list, so that its id is `READY`
(`startFrom` first sets `state` to the given function); for every `STOPPED`
task with `join == DETACHED` the call changes nothing. -/
theorem tsk_start_contract (tsk : Nat) (st : fun_t) (k : System) :
    ((k.tsk tsk).id ≠ ID_STOPPED →
      tsk_start tsk k = k ∧ tsk_startFrom tsk st k = k) ∧
    (tsk_start tsk (tsk_start tsk k) = tsk_start tsk k) ∧
    (((k.tsk tsk).id = ID_STOPPED ∧ (k.tsk tsk).join ≠ Join.detached) →
      (((tsk_start tsk k).tsk tsk).id = ID_READY ∧
        tsk ∈ (tsk_start tsk k).rdy ∧
        ((tsk_start tsk k).tsk tsk).ctx = (k.tsk tsk).state ∧
        ((tsk_start tsk k).tsk tsk).state = (k.tsk tsk).state ∧
        (∀ u, u ≠ tsk → (tsk_start tsk k).tsk u = k.tsk u)) ∧
      (((tsk_startFrom tsk st k).tsk tsk).id = ID_READY ∧
        tsk ∈ (tsk_startFrom tsk st k).rdy ∧
        ((tsk_startFrom tsk st k).tsk tsk).ctx = some st ∧
        ((tsk_startFrom tsk st k).tsk tsk).state = some st ∧
        (∀ u, u ≠ tsk → (tsk_startFrom tsk st k).tsk u = k.tsk u))) ∧
    (((k.tsk tsk).id = ID_STOPPED ∧ (k.tsk tsk).join = Join.detached) →
      tsk_start tsk k = k ∧ tsk_startFrom tsk st k = k) := by
  refine ⟨?_, ?_, ?_, ?_⟩
  · intro h
    simp [tsk_start, tsk_startFrom, h]
  · by_cases h : (k.tsk tsk).id = ID_STOPPED ∧ (k.tsk tsk).join ≠ Join.detached
    · have e : tsk_start tsk k = core_tsk_insert tsk (core_ctx_init tsk k) := by
        simp only [tsk_start, if_pos h]
      have hid := (insert_ctx_init tsk k).1
      rw [← e] at hid
      have hn : ¬ (((tsk_start tsk k).tsk tsk).id = ID_STOPPED ∧
          ((tsk_start tsk k).tsk tsk).join ≠ Join.detached) := by
        rw [hid]
        intro hh
        exact ID_READY_ne_ID_STOPPED hh.1
      exact tsk_start_noop tsk _ hn
    · have e : tsk_start tsk k = k := tsk_start_noop tsk k h
      rw [e, e]
  · intro h
    have e1 : tsk_start tsk k = core_tsk_insert tsk (core_ctx_init tsk k) := by
      simp only [tsk_start, if_pos h]
    have e2 : tsk_startFrom tsk st k = core_tsk_insert tsk (core_ctx_init tsk
        (setTsk k tsk { k.tsk tsk with state := some st })) := by
      simp only [tsk_startFrom, if_pos h]
    have h1 := insert_ctx_init tsk k
    have h2 := insert_ctx_init tsk (setTsk k tsk { k.tsk tsk with state := some st })
    rw [e1, e2]
    refine ⟨⟨h1.1, h1.2.1, h1.2.2.1, h1.2.2.2.1, h1.2.2.2.2.2.2⟩, ?_⟩
    refine ⟨h2.1, h2.2.1, ?_, ?_, ?_⟩
    · rw [h2.2.2.1]; simp
    · rw [h2.2.2.2.1]; simp
    · intro u hu
      rw [h2.2.2.2.2.2.2 u hu]
      exact setTsk_other _ _ _ _ hu
  · intro h
    simp [tsk_start, tsk_startFrom, h]

/-- Witness for C16: the running task T is not restarted and keeps its entry
function; T stopped and joinable is started again (from its old function, or
from function 11 with `startFrom`); T stopped and `DETACHED` is not. -/
theorem tsk_start_contract_witness :
    ((sysTJ.tsk 1).id ≠ ID_STOPPED ∧
      tsk_start 1 sysTJ = sysTJ ∧ tsk_startFrom 1 (fun_t.user 11) sysTJ = sysTJ) ∧
    (((sysJoinedStopped.tsk 1).id = ID_STOPPED ∧
        (sysJoinedStopped.tsk 1).join ≠ Join.detached) ∧
      ((tsk_start 1 sysJoinedStopped).tsk 1).id = ID_READY ∧
      ((tsk_start 1 sysJoinedStopped).tsk 1).ctx = some (fun_t.user 10) ∧
      (tsk_start 1 sysJoinedStopped).rdy = [1, 2] ∧
      ((tsk_startFrom 1 (fun_t.user 11) sysJoinedStopped).tsk 1).id = ID_READY ∧
      ((tsk_startFrom 1 (fun_t.user 11) sysJoinedStopped).tsk 1).state
        = some (fun_t.user 11)) ∧
    (((sysDetachedStopped.tsk 1).id = ID_STOPPED ∧
        (sysDetachedStopped.tsk 1).join = Join.detached) ∧
      tsk_start 1 sysDetachedStopped = sysDetachedStopped ∧
      tsk_startFrom 1 (fun_t.user 11) sysDetachedStopped = sysDetachedStopped) :=
  ⟨⟨by decide,
    ((tsk_start_contract 1 (fun_t.user 11) sysTJ).1 (by decide)).1,
    ((tsk_start_contract 1 (fun_t.user 11) sysTJ).1 (by decide)).2⟩,
   ⟨by decide,
    (((tsk_start_contract 1 (fun_t.user 11) sysJoinedStopped).2.2.1 (by decide)).1).1,
    by decide, by decide,
    (((tsk_start_contract 1 (fun_t.user 11) sysJoinedStopped).2.2.1 (by decide)).2).1,
    (((tsk_start_contract 1 (fun_t.user 11) sysJoinedStopped).2.2.1
      (by decide)).2).2.2.2.1⟩,
   ⟨by decide,
    ((tsk_start_contract 1 (fun_t.user 11) sysDetachedStopped).2.2.2 (by decide)).1,
    ((tsk_start_contract 1 (fun_t.user 11) sysDetachedStopped).2.2.2 (by decide)).2⟩⟩

/-! ## Suspending and resuming -/

/-- The state after `core_tsk_suspend`. -/
theorem suspend_fields (t : Nat) (k : System) :
    ((core_tsk_suspend t k).tsk t).id = ID_BLOCKED ∧
    ((core_tsk_suspend t k).tsk t).guard = some Queue.dly ∧
    ((core_tsk_suspend t k).tsk t).delay = INFINITE ∧
    t ∈ (core_tsk_suspend t k).dly ∧
    t ∉ (core_tsk_suspend t k).rdy ∧
    (∀ u, u ≠ t → (core_tsk_suspend t k).tsk u = k.tsk u) := by
  unfold core_tsk_suspend
  simp only [setQueue, getQueue]
  refine ⟨?_, ?_, ?_, ?_, ?_, ?_⟩
  · simp
  · simp
  · simp
  · simp [mem_prioInsert]
  · simp [List.mem_filter]
  · intro u hu
    simp [setTsk_apply, hu]

theorem E_SUCCESS_ne_E_FAILURE : E_SUCCESS ≠ E_FAILURE := by decide

/-- C19: suspend/resume pairing.  `tsk_suspend` returns `E_SUCCESS` if and only
if the id of the task is `READY` (then the task is off the ready list and parked
on `System.dly`, `BLOCKED` with delay `INFINITE`) and `E_FAILURE` with no state
change otherwise; `tsk_resume` returns `E_SUCCESS` if and only if the `guard`
of the task is `System.dly` and its delay is `INFINITE` (then the task is woken:
`READY`, on the ready list, off `System.dly`) and `E_FAILURE` with no state
change otherwise.  Hence for every `READY` task: suspend gives `E_SUCCESS`,
then resume gives `E_SUCCESS` with the task `READY` again, then a second
resume gives `E_FAILURE`. -/
theorem tsk_suspend_resume (tsk : Nat) (k : System) :
    (((tsk_suspend tsk k).1 = E_SUCCESS ↔ (k.tsk tsk).id = ID_READY) ∧
      ((k.tsk tsk).id = ID_READY →
        ((tsk_suspend tsk k).2.tsk tsk).id = ID_BLOCKED ∧
        ((tsk_suspend tsk k).2.tsk tsk).guard = some Queue.dly ∧
        ((tsk_suspend tsk k).2.tsk tsk).delay = INFINITE ∧
        tsk ∈ (tsk_suspend tsk k).2.dly ∧
        tsk ∉ (tsk_suspend tsk k).2.rdy) ∧
      ((k.tsk tsk).id ≠ ID_READY →
        (tsk_suspend tsk k).1 = E_FAILURE ∧ (tsk_suspend tsk k).2 = k)) ∧
    (((tsk_resume tsk k).1 = E_SUCCESS ↔
        ((k.tsk tsk).guard = some Queue.dly ∧ (k.tsk tsk).delay = INFINITE)) ∧
      (((k.tsk tsk).guard = some Queue.dly ∧ (k.tsk tsk).delay = INFINITE) →
        ((tsk_resume tsk k).2.tsk tsk).id = ID_READY ∧
        ((tsk_resume tsk k).2.tsk tsk).guard = none ∧
        tsk ∈ (tsk_resume tsk k).2.rdy ∧
        tsk ∉ (tsk_resume tsk k).2.dly) ∧
      (¬ ((k.tsk tsk).guard = some Queue.dly ∧ (k.tsk tsk).delay = INFINITE) →
        (tsk_resume tsk k).1 = E_FAILURE ∧ (tsk_resume tsk k).2 = k)) ∧
    ((k.tsk tsk).id = ID_READY →
      (tsk_suspend tsk k).1 = E_SUCCESS ∧
      (tsk_resume tsk (tsk_suspend tsk k).2).1 = E_SUCCESS ∧
      ((tsk_resume tsk (tsk_suspend tsk k).2).2.tsk tsk).id = ID_READY ∧
      (tsk_resume tsk (tsk_resume tsk (tsk_suspend tsk k).2).2).1 = E_FAILURE) := by
  have hsus : ∀ s : System, (s.tsk tsk).id = ID_READY →
      tsk_suspend tsk s = (E_SUCCESS, core_tsk_suspend tsk s) := by
    intro s h; simp [tsk_suspend, h]
  have hsusf : ∀ s : System, (s.tsk tsk).id ≠ ID_READY → tsk_suspend tsk s = (E_FAILURE, s) := by
    intro s h; simp [tsk_suspend, h]
  have hres : ∀ s : System, ((s.tsk tsk).guard = some Queue.dly ∧ (s.tsk tsk).delay = INFINITE) →
      tsk_resume tsk s = (E_SUCCESS, (core_tsk_wakeup (some tsk) 0 s).2) := by
    intro s h; simp [tsk_resume, h]
  have hresf : ∀ s : System,
      ¬ ((s.tsk tsk).guard = some Queue.dly ∧ (s.tsk tsk).delay = INFINITE) →
      tsk_resume tsk s = (E_FAILURE, s) := by
    intro s h; simp only [tsk_resume, if_neg h]
  have hwoken : ∀ s : System, (s.tsk tsk).guard = some Queue.dly →
      ((core_tsk_wakeup (some tsk) 0 s).2.tsk tsk).id = ID_READY ∧
      ((core_tsk_wakeup (some tsk) 0 s).2.tsk tsk).guard = none ∧
      tsk ∈ (core_tsk_wakeup (some tsk) 0 s).2.rdy ∧
      tsk ∉ (core_tsk_wakeup (some tsk) 0 s).2.dly := by
    intro s hg
    have hs := wakeup_self tsk 0 s
    have hq := wakeup_getQueue tsk 0 s Queue.dly
    rw [if_pos hg] at hq
    refine ⟨hs.2.2.1, hs.2.1, wakeup_rdy tsk 0 s, ?_⟩
    intro hm
    have hm2 : tsk ∈ getQueue (core_tsk_wakeup (some tsk) 0 s).2 Queue.dly := hm
    rw [hq] at hm2
    simpa using (List.mem_filter.mp hm2).2
  refine ⟨⟨?_, ?_, ?_⟩, ⟨?_, ?_, ?_⟩, ?_⟩
  · constructor
    · intro h
      by_contra hn
      rw [hsusf k hn] at h
      exact E_SUCCESS_ne_E_FAILURE h.symm
    · intro h; rw [hsus k h]
  · intro h
    rw [hsus k h]
    have hf := suspend_fields tsk k
    exact ⟨hf.1, hf.2.1, hf.2.2.1, hf.2.2.2.1, hf.2.2.2.2.1⟩
  · intro h
    rw [hsusf k h]
    exact ⟨rfl, rfl⟩
  · constructor
    · intro h
      by_contra hn
      rw [hresf k hn] at h
      exact E_SUCCESS_ne_E_FAILURE h.symm
    · intro h; rw [hres k h]
  · intro h
    rw [hres k h]
    exact hwoken k h.1
  · intro h
    rw [hresf k h]
    exact ⟨rfl, rfl⟩
  · intro h
    have hf := suspend_fields tsk k
    have e1 := hsus k h
    have hc : ((tsk_suspend tsk k).2.tsk tsk).guard = some Queue.dly ∧
        ((tsk_suspend tsk k).2.tsk tsk).delay = INFINITE := by
      rw [e1]; exact ⟨hf.2.1, hf.2.2.1⟩
    have e2 := hres _ hc
    have hw := hwoken _ hc.1
    have hn : ¬ (((tsk_resume tsk (tsk_suspend tsk k).2).2.tsk tsk).guard = some Queue.dly ∧
        ((tsk_resume tsk (tsk_suspend tsk k).2).2.tsk tsk).delay = INFINITE) := by
      rw [e2]
      intro hh
      rw [hw.2.1] at hh
      cases hh.1
    refine ⟨by rw [e1], by rw [e2], ?_, by rw [hresf _ hn]⟩
    rw [e2]
    exact hw.1

/-- Witness for C19 (scenario 7 of section 8): `suspend(T)` while T is ready
gives `E_SUCCESS`; `resume(T)` gives `E_SUCCESS` and T is ready again; a second
`resume(T)` gives `E_FAILURE`; suspending the blocked task J fails. -/
theorem tsk_suspend_resume_witness :
    (sysTJ.tsk 1).id = ID_READY ∧
    (tsk_suspend 1 sysTJ).1 = E_SUCCESS ∧
    (tsk_suspend 1 sysTJ).2.dly = [1] ∧
    (tsk_suspend 1 sysTJ).2.rdy = [2] ∧
    (tsk_resume 1 (tsk_suspend 1 sysTJ).2).1 = E_SUCCESS ∧
    ((tsk_resume 1 (tsk_suspend 1 sysTJ).2).2.tsk 1).id = ID_READY ∧
    (tsk_resume 1 (tsk_resume 1 (tsk_suspend 1 sysTJ).2).2).1 = E_FAILURE ∧
    (sysJoined.tsk 2).id ≠ ID_READY ∧
    (tsk_suspend 2 sysJoined).1 = E_FAILURE :=
  ⟨by decide,
   ((tsk_suspend_resume 1 sysTJ).2.2 (by decide)).1,
   by decide, by decide,
   ((tsk_suspend_resume 1 sysTJ).2.2 (by decide)).2.1,
   ((tsk_suspend_resume 1 sysTJ).2.2 (by decide)).2.2.1,
   ((tsk_suspend_resume 1 sysTJ).2.2 (by decide)).2.2.2,
   by decide,
   ((tsk_suspend_resume 2 sysJoined).1.2.2 (by decide)).1⟩

/-! ## Stopping and deferred destruction -/

/-- The state after `core_tsk_remove`. -/
theorem remove_fields (t : Nat) (k : System) :
    ((core_tsk_remove t k).tsk t).id = ID_STOPPED ∧
    (core_tsk_remove t k).rdy = k.rdy.filter (fun x => x != t) ∧
    t ∉ (core_tsk_remove t k).rdy ∧
    (core_tsk_remove t k).tmr = k.tmr ∧
    (core_tsk_remove t k).corpses = k.corpses ∧
    (core_tsk_remove t k).idle_state = k.idle_state ∧
    (∀ q, getQueue (core_tsk_remove t k) q = getQueue k q) ∧
    (∀ u, u ≠ t → (core_tsk_remove t k).tsk u = k.tsk u) ∧
    (∀ u, ((core_tsk_remove t k).tsk u).event = (k.tsk u).event ∧
      ((core_tsk_remove t k).tsk u).join = (k.tsk u).join ∧
      ((core_tsk_remove t k).tsk u).res = (k.tsk u).res ∧
      ((core_tsk_remove t k).tsk u).guard = (k.tsk u).guard ∧
      ((core_tsk_remove t k).tsk u).mtx_tree = (k.tsk u).mtx_tree) := by
  unfold core_tsk_remove
  refine ⟨by simp, rfl, by simp [List.mem_filter], rfl, rfl, rfl, ?_, ?_, ?_⟩
  · intro q
    exact getQueue_setTsk k t _ q rfl
  · intro u hu
    simp [setTsk_apply, hu]
  · intro u
    simp only [setTsk_apply]
    by_cases hu : u = t
    · subst hu; simp
    · simp [hu]

/-- The loop of the terminator empties the chain of corpses it walks, releases
the storage of every corpse that is owned by the kernel and touches nothing
else. -/
theorem terminator_loop_spec (l : List Nat) (k : System) (hl : k.corpses = l) :
    (terminator_loop l k).corpses = [] ∧
    (terminator_loop l k).idle_state = k.idle_state ∧
    (terminator_loop l k).rdy = k.rdy ∧
    (terminator_loop l k).tmr = k.tmr ∧
    (∀ q, getQueue (terminator_loop l k) q = getQueue k q) ∧
    (∀ u, ((terminator_loop l k).tsk u).id = (k.tsk u).id ∧
      ((terminator_loop l k).tsk u).join = (k.tsk u).join ∧
      ((terminator_loop l k).tsk u).guard = (k.tsk u).guard ∧
      ((terminator_loop l k).tsk u).event = (k.tsk u).event) ∧
    (∀ u, u ∈ l → (k.tsk u).res ≠ Res.static → ((terminator_loop l k).tsk u).res = Res.released) ∧
    (∀ u, u ∈ l → (k.tsk u).res = Res.static → ((terminator_loop l k).tsk u).res = Res.static) ∧
    (∀ u, u ∉ l → (terminator_loop l k).tsk u = k.tsk u) := by
  induction l generalizing k with
  | nil =>
    refine ⟨hl, rfl, rfl, rfl, fun _ => rfl, fun _ => ⟨rfl, rfl, rfl, rfl⟩, ?_, ?_, fun _ _ => rfl⟩
    · intro u hu; simp at hu
    · intro u hu; simp at hu
  | cons t rest ih =>
    simp only [terminator_loop]
    have hf := res_free_frame t { k with corpses := rest }
    have hr := res_free_res t { k with corpses := rest }
    have h := ih (core_res_free t { k with corpses := rest }) hf.2.2.1
    obtain ⟨h1, h2, h3, h4, h5, h6, h7, h8, h9⟩ := h
    refine ⟨h1, h2.trans hf.2.2.2.1, h3.trans hf.1, h4.trans hf.2.1, ?_, ?_, ?_, ?_, ?_⟩
    · intro q
      rw [h5 q, hf.2.2.2.2.1 q]
      cases q <;> rfl
    · intro u
      have a := h6 u
      have b := hf.2.2.2.2.2.1 u
      exact ⟨a.1.trans b.1, a.2.1.trans b.2.1, a.2.2.1.trans b.2.2.1, a.2.2.2.trans b.2.2.2⟩
    · intro u hu hns
      have hstep : ((core_res_free t { k with corpses := rest }).tsk u).res ≠ Res.static := by
        by_cases hut : u = t
        · subst hut
          by_cases ho : (k.tsk u).res = Res.owned
          · rw [hr.1 ho]; decide
          · rw [hr.2 ho]; exact hns
        · rw [hf.2.2.2.2.2.2 u hut]; exact hns
      by_cases hm : u ∈ rest
      · exact h7 u hm hstep
      · have hut : u = t := by
          rcases List.mem_cons.mp hu with h0 | h0
          · exact h0
          · exact absurd h0 hm
        subst hut
        rw [h9 u hm]
        cases hres : (k.tsk u).res with
        | owned => exact hr.1 hres
        | static => exact absurd hres hns
        | released =>
          have ho : (k.tsk u).res ≠ Res.owned := by rw [hres]; decide
          rw [hr.2 ho]
          exact hres
    · intro u hu hs
      have ho : (k.tsk u).res ≠ Res.owned := by rw [hs]; decide
      have hstep : ((core_res_free t { k with corpses := rest }).tsk u).res = Res.static := by
        by_cases hut : u = t
        · subst hut
          rw [hr.2 ho]; exact hs
        · rw [hf.2.2.2.2.2.2 u hut]; exact hs
      by_cases hm : u ∈ rest
      · exact h8 u hm hstep
      · rw [h9 u hm]; exact hstep
    · intro u hu
      have hut : u ≠ t := fun e => hu (e ▸ List.mem_cons_self _ _)
      have hm : u ∉ rest := fun e => hu (List.mem_cons_of_mem _ e)
      rw [h9 u hm, hf.2.2.2.2.2.2 u hut]

/-- C20: deferred destruction.  When the current task calls `tsk_stop` with
`join == DETACHED`, no task is woken (no other record changes), the task is
pushed on the idle task's chain of corpses and `IDLE.state` becomes
`priv_tsk_terminator`; with `join != DETACHED` the first joiner, if any, is
woken with `E_SUCCESS` and the chain of corpses and `IDLE.state` are
unchanged; in both cases the task leaves the ready list and is `STOPPED`.  For
every (finite) chain of corpses, `priv_tsk_terminator` (a total function: the
loop is a recursion over the chain) releases the storage of every corpse that
is not statically declared (`res == RELEASED`), leaves a static corpse and
every other task alone, leaves the chain empty and restores `IDLE.state` to
`core_tsk_idle`. -/
theorem deferred_destruction (k ki : System) :
    ((k.tsk k.cur).join = Join.detached →
      (tsk_stop k).corpses = k.cur :: k.corpses ∧
      (tsk_stop k).idle_state = fun_t.priv_tsk_terminator ∧
      (∀ u, u ≠ k.cur → (tsk_stop k).tsk u = k.tsk u) ∧
      (∀ u, ((tsk_stop k).tsk u).event = (k.tsk u).event) ∧
      (∀ q, getQueue (tsk_stop k) q = getQueue k q) ∧
      (∀ x, x ∈ (tsk_stop k).rdy ↔ (x ∈ k.rdy ∧ x ≠ k.cur)) ∧
      k.cur ∉ (tsk_stop k).rdy ∧
      ((tsk_stop k).tsk k.cur).id = ID_STOPPED) ∧
    ((k.tsk k.cur).join ≠ Join.detached →
      (tsk_stop k).corpses = k.corpses ∧
      (tsk_stop k).idle_state = k.idle_state ∧
      k.cur ∉ (tsk_stop k).rdy ∧
      ((tsk_stop k).tsk k.cur).id = ID_STOPPED ∧
      (∀ J, (k.tsk k.cur).join.head = some J →
        Ret.value Ret.blocked J (tsk_stop k) = E_SUCCESS ∧
        (J ≠ k.cur → ((tsk_stop k).tsk J).id = ID_READY ∧ J ∈ (tsk_stop k).rdy))) ∧
    ((priv_tsk_terminator ki).corpses = [] ∧
      (priv_tsk_terminator ki).idle_state = fun_t.core_tsk_idle ∧
      (∀ t ∈ ki.corpses, (ki.tsk t).res ≠ Res.static →
        ((priv_tsk_terminator ki).tsk t).res = Res.released) ∧
      (∀ t ∈ ki.corpses, (ki.tsk t).res = Res.static →
        ((priv_tsk_terminator ki).tsk t).res = Res.static) ∧
      (∀ t, t ∉ ki.corpses → (priv_tsk_terminator ki).tsk t = ki.tsk t) ∧
      (priv_tsk_terminator ki).rdy = ki.rdy ∧
      (∀ q, getQueue (priv_tsk_terminator ki) q = getQueue ki q)) := by
  refine ⟨?_, ?_, ?_⟩
  · intro hd
    have e : tsk_stop k = core_tsk_remove k.cur (priv_tsk_destroy k.cur k) := by
      simp [tsk_stop, hd]
    have hr := remove_fields k.cur (priv_tsk_destroy k.cur k)
    rw [e]
    refine ⟨hr.2.2.2.2.1, hr.2.2.2.2.2.1, hr.2.2.2.2.2.2.2.1, fun u => (hr.2.2.2.2.2.2.2.2 u).1,
      ?_, ?_, hr.2.2.1, hr.1⟩
    · intro q
      rw [hr.2.2.2.2.2.2.1 q]
      cases q <;> rfl
    · intro x
      rw [hr.2.1]
      simp [priv_tsk_destroy, List.mem_filter]
  · intro hd
    have e : tsk_stop k =
        core_tsk_remove k.cur (core_tsk_wakeup (k.tsk k.cur).join.head E_SUCCESS k).2 := by
      simp [tsk_stop, hd]
    have hr := remove_fields k.cur (core_tsk_wakeup (k.tsk k.cur).join.head E_SUCCESS k).2
    have hw := wakeup_opt_more (k.tsk k.cur).join.head E_SUCCESS k k.cur
    rw [e]
    refine ⟨hr.2.2.2.2.1.trans hw.2.2.2.2.2.2.1, hr.2.2.2.2.2.1.trans hw.2.2.2.2.2.2.2,
      hr.2.2.1, hr.1, ?_⟩
    intro J hJ
    have hh := wakeup_head (k.tsk k.cur).join E_SUCCESS k J hJ
    refine ⟨?_, ?_⟩
    · simp only [Ret.value]
      rw [(hr.2.2.2.2.2.2.2.2 J).1]
      exact hh.1
    · intro hne
      rw [hr.2.2.2.2.2.2.2.1 J hne, hr.2.1]
      refine ⟨hh.2.1, ?_⟩
      simp [List.mem_filter, hh.2.2, hne]
  · have h := terminator_loop_spec ki.corpses ki rfl
    obtain ⟨h1, _, h3, _, h5, _, h7, h8, h9⟩ := h
    exact ⟨h1, rfl, h7, h8, h9, h3, fun q => by
      rw [← h5 q]
      cases q <;> rfl⟩

/-- Witness for C20 (scenario 5 of section 8): the heap task T (task 1) is
detached while it runs, then calls `stop`: nobody is woken, T is on the chain
of corpses and the idle task will run the terminator; the terminator releases
T's storage, empties the chain and restores the idle function.  In scenario 3
(T joinable, J waiting) `stop` wakes J with `E_SUCCESS` instead. -/
theorem deferred_destruction_witness :
    ((dispatch 1 sysDetached).tsk (dispatch 1 sysDetached).cur).join = Join.detached ∧
    (sysDetached.tsk 1).res = Res.owned ∧
    sysDetachedStopped.corpses = [1] ∧
    sysDetachedStopped.idle_state = fun_t.priv_tsk_terminator ∧
    sysDetachedStopped.rdy = [2] ∧
    (sysDetachedStopped.tsk 1).res = Res.owned ∧
    (priv_tsk_terminator sysDetachedStopped).corpses = [] ∧
    (priv_tsk_terminator sysDetachedStopped).idle_state = fun_t.core_tsk_idle ∧
    ((priv_tsk_terminator sysDetachedStopped).tsk 1).res = Res.released ∧
    ((dispatch 1 sysJoined).tsk (dispatch 1 sysJoined).cur).join ≠ Join.detached ∧
    (tsk_stop (dispatch 1 sysJoined)).corpses = [] ∧
    Ret.value Ret.blocked 2 (tsk_stop (dispatch 1 sysJoined)) = E_SUCCESS :=
  ⟨by decide, by decide,
   ((deferred_destruction (dispatch 1 sysDetached) sysDetachedStopped).1 (by decide)).1,
   ((deferred_destruction (dispatch 1 sysDetached) sysDetachedStopped).1 (by decide)).2.1,
   by decide, by decide,
   (deferred_destruction (dispatch 1 sysDetached) sysDetachedStopped).2.2.1,
   (deferred_destruction (dispatch 1 sysDetached) sysDetachedStopped).2.2.2.1,
   (deferred_destruction (dispatch 1 sysDetached) sysDetachedStopped).2.2.2.2.1 1
     (by decide) (by decide),
   by decide,
   ((deferred_destruction (dispatch 1 sysJoined) sysDetachedStopped).2.1 (by decide)).1,
   (((deferred_destruction (dispatch 1 sysJoined) sysDetachedStopped).2.1 (by decide)).2.2.2.2
     2 (by decide)).1⟩

/-! ## Killing a task -/

theorem SchedSame_refl (k : System) : SchedSame k k :=
  ⟨rfl, rfl, fun _ => rfl, fun _ => ⟨rfl, rfl, rfl, rfl, rfl, fun h => h⟩⟩

theorem SchedSame_trans {a b c : System} (h1 : SchedSame a b) (h2 : SchedSame b c) :
    SchedSame a c := by
  obtain ⟨a1, a2, a3, a4⟩ := h1
  obtain ⟨b1, b2, b3, b4⟩ := h2
  refine ⟨b1.trans a1, b2.trans a2, fun q => (b3 q).trans (a3 q), ?_⟩
  intro u
  have x := a4 u
  have y := b4 u
  exact ⟨y.1.trans x.1, y.2.1.trans x.2.1, y.2.2.1.trans x.2.2.1, y.2.2.2.1.trans x.2.2.2.1,
    y.2.2.2.2.1.trans x.2.2.2.2.1, fun h => y.2.2.2.2.2 (x.2.2.2.2.2 h)⟩

/-- A write to a task record that changes only its mutex fields, and `mtx.tree`
only to null. -/
theorem SchedSame_setTsk (k : System) (t : Nat) (v : tsk_t)
    (h1 : v.id = (k.tsk t).id) (h2 : v.guard = (k.tsk t).guard) (h3 : v.join = (k.tsk t).join)
    (h4 : v.event = (k.tsk t).event) (h5 : v.res = (k.tsk t).res)
    (h6 : (k.tsk t).mtx_tree = none → v.mtx_tree = none) : SchedSame k (setTsk k t v) := by
  refine ⟨rfl, rfl, fun q => getQueue_setTsk k t v q h3, ?_⟩
  intro u
  simp only [setTsk_apply]
  by_cases hu : u = t
  · subst hu
    simp only [if_true]
    exact ⟨h1, h2, h3, h4, h5, h6⟩
  · simp [hu]

/-- A write to a mutex record that keeps its queue. -/
theorem SchedSame_setMtx (k : System) (m : Nat) (v : mtx_t) (h : v.queue = (k.mtx m).queue) :
    SchedSame k (setMtx k m v) :=
  ⟨rfl, rfl, fun q => getQueue_setMtx k m v q h, fun _ => ⟨rfl, rfl, rfl, rfl, rfl, fun h => h⟩⟩

theorem dropOwned_same (m : Nat) (k : System) :
    SchedSame k (dropOwned m k) ∧ (dropOwned m k).mtx = k.mtx := by
  unfold dropOwned
  cases (k.mtx m).owner with
  | none => exact ⟨SchedSame_refl k, rfl⟩
  | some o => exact ⟨SchedSame_setTsk k o _ rfl rfl rfl rfl rfl (fun h => h), rfl⟩

/-- The two outcomes of `core_mtx_transferLock`. -/
theorem transferLock_eq (m e : Nat) (k : System) :
    (((dropOwned m k).mtx m).queue.head? = none →
      core_mtx_transferLock m e k =
        (none, setMtx (dropOwned m k) m { (dropOwned m k).mtx m with owner := none })) ∧
    (∀ w, ((dropOwned m k).mtx m).queue.head? = some w →
      core_mtx_transferLock m e k =
        (some w,
          setMtx (setTsk (core_tsk_wakeup (some w) e (dropOwned m k)).2 w
            { (core_tsk_wakeup (some w) e (dropOwned m k)).2.tsk w with
              mtx_list := m :: ((core_tsk_wakeup (some w) e (dropOwned m k)).2.tsk w).mtx_list,
              mtx_tree := none }) m
            { (setTsk (core_tsk_wakeup (some w) e (dropOwned m k)).2 w
            { (core_tsk_wakeup (some w) e (dropOwned m k)).2.tsk w with
              mtx_list := m :: ((core_tsk_wakeup (some w) e (dropOwned m k)).2.tsk w).mtx_list,
              mtx_tree := none }).mtx m with owner := some w })) := by
  constructor
  · intro h
    have e1 : core_mtx_transferLock m e k =
        (match (core_tsk_wakeup ((dropOwned m k).mtx m).queue.head? e (dropOwned m k)).1 with
        | some w =>
          (some w, setMtx (setTsk (core_tsk_wakeup ((dropOwned m k).mtx m).queue.head? e
              (dropOwned m k)).2 w
            { (core_tsk_wakeup ((dropOwned m k).mtx m).queue.head? e (dropOwned m k)).2.tsk w with
              mtx_list := m :: ((core_tsk_wakeup ((dropOwned m k).mtx m).queue.head? e
                (dropOwned m k)).2.tsk w).mtx_list,
              mtx_tree := none }) m
            { (setTsk (core_tsk_wakeup ((dropOwned m k).mtx m).queue.head? e
              (dropOwned m k)).2 w
            { (core_tsk_wakeup ((dropOwned m k).mtx m).queue.head? e (dropOwned m k)).2.tsk w with
              mtx_list := m :: ((core_tsk_wakeup ((dropOwned m k).mtx m).queue.head? e
                (dropOwned m k)).2.tsk w).mtx_list,
              mtx_tree := none }).mtx m with owner := some w })
        | none => (none, setMtx (core_tsk_wakeup ((dropOwned m k).mtx m).queue.head? e
              (dropOwned m k)).2 m
            { (core_tsk_wakeup ((dropOwned m k).mtx m).queue.head? e (dropOwned m k)).2.mtx m with
              owner := none })) := rfl
    rw [e1, h]
    rfl
  · intro w h
    have e1 : core_mtx_transferLock m e k =
        (match (core_tsk_wakeup ((dropOwned m k).mtx m).queue.head? e (dropOwned m k)).1 with
        | some w =>
          (some w, setMtx (setTsk (core_tsk_wakeup ((dropOwned m k).mtx m).queue.head? e
              (dropOwned m k)).2 w
            { (core_tsk_wakeup ((dropOwned m k).mtx m).queue.head? e (dropOwned m k)).2.tsk w with
              mtx_list := m :: ((core_tsk_wakeup ((dropOwned m k).mtx m).queue.head? e
                (dropOwned m k)).2.tsk w).mtx_list,
              mtx_tree := none }) m
            { (setTsk (core_tsk_wakeup ((dropOwned m k).mtx m).queue.head? e
              (dropOwned m k)).2 w
            { (core_tsk_wakeup ((dropOwned m k).mtx m).queue.head? e (dropOwned m k)).2.tsk w with
              mtx_list := m :: ((core_tsk_wakeup ((dropOwned m k).mtx m).queue.head? e
                (dropOwned m k)).2.tsk w).mtx_list,
              mtx_tree := none }).mtx m with owner := some w })
        | none => (none, setMtx (core_tsk_wakeup ((dropOwned m k).mtx m).queue.head? e
              (dropOwned m k)).2 m
            { (core_tsk_wakeup ((dropOwned m k).mtx m).queue.head? e (dropOwned m k)).2.mtx m with
              owner := none })) := rfl
    rw [e1, h]
    rfl

theorem Guarded_same {k k1 : System} (h : SchedSame k k1) (hG : Guarded k) : Guarded k1 := by
  intro q u hu
  rw [h.2.2.1 q] at hu
  rw [(h.2.2.2 u).2.1]
  exact hG q u hu

theorem Placed_same {k k1 : System} (t : Nat) (h : SchedSame k k1) (hP : Placed t k) :
    Placed t k1 := by
  unfold Placed
  rw [(h.2.2.2 t).1, (h.2.2.2 t).2.1, h.1, h.2.1]
  exact hP

/-- A wake-up keeps every queued task pointing back at its queue. -/
theorem Guarded_wakeup (t e : Nat) (k : System) (hG : Guarded k) :
    Guarded (core_tsk_wakeup (some t) e k).2 := by
  intro q u hu
  rw [wakeup_getQueue] at hu
  have key : u ∈ getQueue k q ∧ u ≠ t := by
    by_cases hg : (k.tsk t).guard = some q
    · rw [if_pos hg] at hu
      have := List.mem_filter.mp hu
      exact ⟨this.1, by simpa using this.2⟩
    · rw [if_neg hg] at hu
      refine ⟨hu, ?_⟩
      intro hut
      subst hut
      exact hg (hG q u hu)
  rw [(wakeup_other t e k u key.2).2.1]
  exact hG q u key.1

/-- A wake-up, of the task itself or of another one, keeps an active task
placed. -/
theorem Placed_wakeup (w e : Nat) (k : System) (t : Nat) (hP : Placed t k) :
    Placed t (core_tsk_wakeup (some w) e k).2 := by
  have hl := wakeup_lists w e k
  by_cases hw : t = w
  · subst hw
    have hs := wakeup_self t e k
    refine ⟨Or.inl hs.2.2.1, fun _ => ⟨hs.2.1, ?_⟩, ?_⟩
    · rw [hl.2.1]
      intro hm
      have := (List.mem_filter.mp hm).2
      simp at this
    · intro hb
      rw [hs.2.2.1] at hb
      exact absurd hb (by decide)
  · have ho := wakeup_other w e k t hw
    unfold Placed
    rw [ho.2.2.1, ho.2.1, hl.2.1]
    refine ⟨hP.1, ?_, ?_⟩
    · intro hr
      refine ⟨(hP.2.1 hr).1, ?_⟩
      intro hm
      exact (hP.2.1 hr).2 (List.mem_filter.mp hm).1
    · intro hb hm
      rcases (hl.1 t).mp hm with h | h
      · exact hw h
      · exact hP.2.2 hb h

/-- The two shapes of one round of the mutex loop of `tsk_kill`: only mutex
bookkeeping changes, or, between two such changes, the first waiter of the
mutex is woken with `OWNERDEAD`. -/
theorem kill_mtx_shape (k : System) (m : Nat) :
    SchedSame k (tsk_kill_mtx k m) ∨
    ∃ K W, SchedSame k K ∧ (K.mtx m).queue.head? = some W ∧
      SchedSame (core_tsk_wakeup (some W) OWNERDEAD K).2 (tsk_kill_mtx k m) := by
  unfold tsk_kill_mtx
  by_cases hr : (k.mtx m).mode &&& mtxRobust ≠ 0
  · rw [if_pos hr]
    have hd := dropOwned_same m k
    have he := transferLock_eq m OWNERDEAD k
    cases hq : ((dropOwned m k).mtx m).queue.head? with
    | none =>
      left
      dsimp only
      rw [he.1 hq]
      simp only [if_true]
      refine SchedSame_trans hd.1 (SchedSame_trans (SchedSame_setMtx _ m _ ?_)
        (SchedSame_setMtx _ m _ ?_)) <;> rfl
    | some W =>
      right
      refine ⟨dropOwned m k, W, hd.1, hq, ?_⟩
      dsimp only
      rw [he.2 W hq]
      simp only [reduceCtorEq, if_false]
      refine SchedSame_trans (SchedSame_setTsk _ W _ ?_ ?_ ?_ ?_ ?_ ?_)
        (SchedSame_setMtx _ m _ ?_)
      · rfl
      · rfl
      · rfl
      · rfl
      · rfl
      · exact fun _ => rfl
      · rfl
  · rw [if_neg hr]
    left
    exact SchedSame_refl k

/-- The body of `tsk_kill` for an active task that is not `DETACHED`, in its
three stages. -/
theorem tsk_kill_eq (tsk : Nat) (k : System)
    (h : (k.tsk tsk).id ≠ ID_STOPPED ∧ (k.tsk tsk).join ≠ Join.detached) :
    tsk_kill tsk k =
      killFinal tsk
        (core_tsk_wakeup ((killLocks tsk k).tsk tsk).join.head E_STOPPED (killLocks tsk k)).2 := by
  unfold tsk_kill
  rw [if_pos h]
  rfl

/-- On every other task `tsk_kill` does nothing. -/
theorem tsk_kill_noop (tsk : Nat) (k : System)
    (h : ¬ ((k.tsk tsk).id ≠ ID_STOPPED ∧ (k.tsk tsk).join ≠ Join.detached)) :
    tsk_kill tsk k = k := by
  unfold tsk_kill
  rw [if_neg h]

/-- One round of the mutex loop keeps the invariants of the task being
killed. -/
theorem kill_mtx_inv (t : Nat) (j0 : Join) (k : System) (m : Nat)
    (h : Guarded k ∧ Placed t k ∧ (k.tsk t).join = j0 ∧ (k.tsk t).mtx_tree = none) :
    Guarded (tsk_kill_mtx k m) ∧ Placed t (tsk_kill_mtx k m) ∧
    ((tsk_kill_mtx k m).tsk t).join = j0 ∧ ((tsk_kill_mtx k m).tsk t).mtx_tree = none := by
  obtain ⟨hG, hP, hj, ht⟩ := h
  rcases kill_mtx_shape k m with hs | ⟨K, W, h1, hq, h2⟩
  · exact ⟨Guarded_same hs hG, Placed_same t hs hP, (hs.2.2.2 t).2.2.1.trans hj, (hs.2.2.2 t).2.2.2.2.2 ht⟩
  · have hGK : Guarded K := Guarded_same h1 hG
    have hPK : Placed t K := Placed_same t h1 hP
    have hW : (K.tsk W).guard = some (Queue.mtx m) :=
      hGK (Queue.mtx m) W (List.mem_of_mem_head? hq)
    have hjw : ((core_tsk_wakeup (some W) OWNERDEAD K).2.tsk t).join = (K.tsk t).join := by
      rw [wakeup_join, hW]
      simp
    refine ⟨Guarded_same h2 (Guarded_wakeup W OWNERDEAD K hGK),
      Placed_same t h2 (Placed_wakeup W OWNERDEAD K t hPK), ?_, ?_⟩
    · rw [(h2.2.2.2 t).2.2.1, hjw, (h1.2.2.2 t).2.2.1, hj]
    · apply (h2.2.2.2 t).2.2.2.2.2
      rw [(wakeup_more W OWNERDEAD K t).2.2.2.2.1]
      exact (h1.2.2.2 t).2.2.2.2.2 ht

theorem kill_fold_inv (t : Nat) (j0 : Join) (l : List Nat) (k : System)
    (h : Guarded k ∧ Placed t k ∧ (k.tsk t).join = j0 ∧ (k.tsk t).mtx_tree = none) :
    Guarded (l.foldl tsk_kill_mtx k) ∧ Placed t (l.foldl tsk_kill_mtx k) ∧
    ((l.foldl tsk_kill_mtx k).tsk t).join = j0 ∧
    ((l.foldl tsk_kill_mtx k).tsk t).mtx_tree = none := by
  induction l generalizing k with
  | nil => exact h
  | cons m rest ih => exact ih (tsk_kill_mtx k m) (kill_mtx_inv t j0 k m h)

/-- The state after the mutex loop of `tsk_kill`. -/
theorem killLocks_inv (t : Nat) (k : System) (hG : Guarded k) (hP : Placed t k) :
    Guarded (killLocks t k) ∧ Placed t (killLocks t k) ∧
    ((killLocks t k).tsk t).join = (k.tsk t).join ∧
    ((killLocks t k).tsk t).mtx_tree = none := by
  have hs : SchedSame k (setTsk k t { k.tsk t with mtx_tree := none }) :=
    SchedSame_setTsk k t _ rfl rfl rfl rfl rfl (fun _ => rfl)
  unfold killLocks
  exact kill_fold_inv t (k.tsk t).join _ _ ⟨Guarded_same hs hG, Placed_same t hs hP, (hs.2.2.2 t).2.2.1, by simp⟩

/-- What one round of the mutex loop can do to the record of a task: the id
stays or becomes `READY`, the storage class stays, and `DETACHED` neither comes
nor goes. -/
theorem kill_mtx_weak (k : System) (m u : Nat) :
    (((tsk_kill_mtx k m).tsk u).id = (k.tsk u).id ∨ ((tsk_kill_mtx k m).tsk u).id = ID_READY) ∧
    (((tsk_kill_mtx k m).tsk u).join = Join.detached ↔ (k.tsk u).join = Join.detached) ∧
    ((tsk_kill_mtx k m).tsk u).res = (k.tsk u).res := by
  rcases kill_mtx_shape k m with hs | ⟨K, W, h1, hq, h2⟩
  · exact ⟨Or.inl (hs.2.2.2 u).1, by rw [(hs.2.2.2 u).2.2.1], (hs.2.2.2 u).2.2.2.2.1⟩
  · refine ⟨?_, ?_, ?_⟩
    · rw [(h2.2.2.2 u).1, ← (h1.2.2.2 u).1]
      exact wakeup_opt_id (some W) OWNERDEAD K u
    · rw [(h2.2.2.2 u).2.2.1, wakeup_join_detached, (h1.2.2.2 u).2.2.1]
    · rw [(h2.2.2.2 u).2.2.2.2.1, (wakeup_more W OWNERDEAD K u).1, (h1.2.2.2 u).2.2.2.2.1]

theorem kill_fold_weak (u : Nat) (r : Res) (l : List Nat) (k : System)
    (h : ((k.tsk u).id = ID_READY ∨ (k.tsk u).id = ID_BLOCKED) ∧
      (k.tsk u).join ≠ Join.detached ∧ (k.tsk u).res = r) :
    (((l.foldl tsk_kill_mtx k).tsk u).id = ID_READY ∨
      ((l.foldl tsk_kill_mtx k).tsk u).id = ID_BLOCKED) ∧
    ((l.foldl tsk_kill_mtx k).tsk u).join ≠ Join.detached ∧
    ((l.foldl tsk_kill_mtx k).tsk u).res = r := by
  induction l generalizing k with
  | nil => exact h
  | cons m rest ih =>
    apply ih (tsk_kill_mtx k m)
    have w := kill_mtx_weak k m u
    refine ⟨?_, fun hd => h.2.1 (w.2.1.mp hd), w.2.2.trans h.2.2⟩
    rcases w.1 with e | e
    · rw [e]; exact h.1
    · exact Or.inl e

theorem killLocks_weak (t : Nat) (k : System)
    (h : ((k.tsk t).id = ID_READY ∨ (k.tsk t).id = ID_BLOCKED) ∧
      (k.tsk t).join ≠ Join.detached) :
    (((killLocks t k).tsk t).id = ID_READY ∨ ((killLocks t k).tsk t).id = ID_BLOCKED) ∧
    ((killLocks t k).tsk t).join ≠ Join.detached ∧
    ((killLocks t k).tsk t).res = (k.tsk t).res := by
  unfold killLocks
  exact kill_fold_weak t (k.tsk t).res _ _ ⟨by simpa using h.1, by simpa using h.2, by simp⟩

/-- The state after `core_tmr_remove`. -/
theorem tmr_remove_fields (t : Nat) (k : System) :
    ((core_tmr_remove t k).tsk t).id = ID_STOPPED ∧
    (core_tmr_remove t k).rdy = k.rdy ∧
    t ∉ (core_tmr_remove t k).tmr ∧
    (∀ q, getQueue (core_tmr_remove t k) q = getQueue k q) ∧
    (∀ u, u ≠ t → (core_tmr_remove t k).tsk u = k.tsk u) ∧
    (∀ u, ((core_tmr_remove t k).tsk u).event = (k.tsk u).event ∧
      ((core_tmr_remove t k).tsk u).join = (k.tsk u).join ∧
      ((core_tmr_remove t k).tsk u).res = (k.tsk u).res ∧
      ((core_tmr_remove t k).tsk u).guard = (k.tsk u).guard ∧
      ((core_tmr_remove t k).tsk u).mtx_tree = (k.tsk u).mtx_tree) := by
  unfold core_tmr_remove
  refine ⟨by simp, rfl, by simp [List.mem_filter], ?_, ?_, ?_⟩
  · intro q
    exact getQueue_setTsk k t _ q rfl
  · intro u hu
    simp [setTsk_apply, hu]
  · intro u
    simp only [setTsk_apply]
    by_cases hu : u = t
    · subst hu; simp
    · simp [hu]

/-- An unlink never makes a task `DETACHED` and never makes a `DETACHED` task
joinable. -/
theorem unlink_join_detached (t e : Nat) (k : System) (u : Nat) :
    ((core_tsk_unlink t e k).tsk u).join = Join.detached ↔ (k.tsk u).join = Join.detached := by
  rw [unlink_join]
  split
  · next h => simp [h.2]
  · rfl

/-- The last statement of `tsk_kill` stops the task and touches neither its
storage class nor whether it is `DETACHED`. -/
theorem killFinal_weak (t : Nat) (k : System)
    (h : (k.tsk t).id = ID_READY ∨ (k.tsk t).id = ID_BLOCKED) :
    ((killFinal t k).tsk t).id = ID_STOPPED ∧
    (((killFinal t k).tsk t).join = Join.detached ↔ (k.tsk t).join = Join.detached) ∧
    ((killFinal t k).tsk t).res = (k.tsk t).res := by
  unfold killFinal
  by_cases hr : (k.tsk t).id = ID_READY
  · rw [if_pos hr]
    have f := remove_fields t k
    exact ⟨f.1, by rw [(f.2.2.2.2.2.2.2.2 t).2.1], (f.2.2.2.2.2.2.2.2 t).2.2.1⟩
  · have hb : (k.tsk t).id = ID_BLOCKED := h.resolve_left hr
    rw [if_neg hr, if_pos hb]
    have f := tmr_remove_fields t (core_tsk_unlink t E_STOPPED k)
    refine ⟨f.1, ?_, ?_⟩
    · rw [(f.2.2.2.2.2 t).2.1]
      exact unlink_join_detached t E_STOPPED k t
    · rw [(f.2.2.2.2.2 t).2.2.1]
      exact (unlink_more t E_STOPPED k t).1

/-- The last statement of `tsk_kill`, for a task that is placed as its id
says. -/
theorem killFinal_strong (t : Nat) (k : System) (hG : Guarded k) (hP : Placed t k) :
    ((killFinal t k).tsk t).id = ID_STOPPED ∧
    t ∉ (killFinal t k).rdy ∧
    t ∉ (killFinal t k).tmr ∧
    (∀ q, t ∉ getQueue (killFinal t k) q) ∧
    ((killFinal t k).tsk t).mtx_tree = (k.tsk t).mtx_tree ∧
    (∀ u, u ≠ t → ((killFinal t k).tsk u).id = (k.tsk u).id ∧
      ((killFinal t k).tsk u).event = (k.tsk u).event ∧
      (u ∈ k.rdy → u ∈ (killFinal t k).rdy)) ∧
    ((k.tsk t).id = ID_READY → ((killFinal t k).tsk t).event = (k.tsk t).event) := by
  unfold killFinal
  by_cases hr : (k.tsk t).id = ID_READY
  · rw [if_pos hr]
    have f := remove_fields t k
    obtain ⟨hg, htm⟩ := hP.2.1 hr
    refine ⟨f.1, f.2.2.1, ?_, ?_, (f.2.2.2.2.2.2.2.2 t).2.2.2.2, ?_, ?_⟩
    · rw [f.2.2.2.1]; exact htm
    · intro q hq
      rw [f.2.2.2.2.2.2.1 q] at hq
      have := hG q t hq
      rw [hg] at this
      cases this
    · intro u hu
      rw [f.2.2.2.2.2.2.2.1 u hu]
      refine ⟨rfl, rfl, ?_⟩
      intro hm
      rw [f.2.1]
      exact List.mem_filter.mpr ⟨hm, by simpa using hu⟩
    · intro _
      exact (f.2.2.2.2.2.2.2.2 t).1
  · have hb : (k.tsk t).id = ID_BLOCKED := hP.1.resolve_left hr
    rw [if_neg hr, if_pos hb]
    have f := tmr_remove_fields t (core_tsk_unlink t E_STOPPED k)
    have ul := unlink_lists t E_STOPPED k
    refine ⟨f.1, ?_, f.2.2.1, ?_, ?_, ?_, fun h => absurd h hr⟩
    · rw [f.2.1, ul.1]
      exact hP.2.2 hb
    · intro q hq
      rw [f.2.2.2.1 q, unlink_getQueue] at hq
      by_cases hg : (k.tsk t).guard = some q
      · rw [if_pos hg] at hq
        have := (List.mem_filter.mp hq).2
        simp at this
      · rw [if_neg hg] at hq
        exact hg (hG q t hq)
    · rw [(f.2.2.2.2.2 t).2.2.2.2]
      exact (unlink_more t E_STOPPED k t).2.2.2.2
    · intro u hu
      rw [f.2.2.2.2.1 u hu, f.2.1, ul.1]
      have o := unlink_other t E_STOPPED k u hu
      exact ⟨o.2.2.1, o.1, fun h => h⟩

/-- C17 -- `tsk_kill` postcondition.  For every task `t` that is active (`READY`
or `BLOCKED`) and not `DETACHED`, in a state where every queued task points
back at its queue and `t` is placed as its id says: after `tsk_kill` the id of
`t` is `STOPPED`, `t` is neither on the ready list, nor on the timer list, nor
on any wait or delay queue, its `mtx.tree` is null, and the task that was
waiting in its join slot, if any, holds the event `E_STOPPED` and (unless it is
`t` itself) is `READY` on the ready list. -/
theorem tsk_kill_postcondition (t : Nat) (k : System) (hG : Guarded k) (hP : Placed t k)
    (hj : (k.tsk t).join ≠ Join.detached) :
    ((tsk_kill t k).tsk t).id = ID_STOPPED ∧
    t ∉ (tsk_kill t k).rdy ∧
    t ∉ (tsk_kill t k).tmr ∧
    (∀ q, t ∉ getQueue (tsk_kill t k) q) ∧
    ((tsk_kill t k).tsk t).mtx_tree = none ∧
    (∀ J, (k.tsk t).join.head = some J →
      ((tsk_kill t k).tsk J).event = E_STOPPED ∧
      (J ≠ t → ((tsk_kill t k).tsk J).id = ID_READY ∧ J ∈ (tsk_kill t k).rdy)) := by
  have hne : (k.tsk t).id ≠ ID_STOPPED := by
    rcases hP.1 with h | h <;> rw [h] <;> decide
  rw [tsk_kill_eq t k ⟨hne, hj⟩]
  obtain ⟨iG, iP, ij, it⟩ := killLocks_inv t k hG hP
  rw [ij]
  have hG3 : Guarded (core_tsk_wakeup (k.tsk t).join.head E_STOPPED (killLocks t k)).2 := by
    cases (k.tsk t).join.head with
    | none => exact iG
    | some J => exact Guarded_wakeup J E_STOPPED _ iG
  have hP3 : Placed t (core_tsk_wakeup (k.tsk t).join.head E_STOPPED (killLocks t k)).2 := by
    cases (k.tsk t).join.head with
    | none => exact iP
    | some J => exact Placed_wakeup J E_STOPPED _ t iP
  have f := killFinal_strong t _ hG3 hP3
  refine ⟨f.1, f.2.1, f.2.2.1, f.2.2.2.1, ?_, ?_⟩
  · rw [f.2.2.2.2.1, (wakeup_opt_more _ E_STOPPED _ t).2.2.2.2.1]
    exact it
  · intro J hJ
    have w := wakeup_head (k.tsk t).join E_STOPPED (killLocks t k) J hJ
    constructor
    · by_cases hJt : J = t
      · subst hJt
        rw [f.2.2.2.2.2.2 w.2.1]
        exact w.1
      · rw [(f.2.2.2.2.2.1 J hJt).2.1]
        exact w.1
    · intro hJt
      have g := f.2.2.2.2.2.1 J hJt
      exact ⟨g.1.trans w.2.1, g.2.2 w.2.2⟩

/-- Every queued task of `sysKill` points back at its queue. -/
theorem sysKill_guarded : Guarded sysKill := by
  intro q u h
  cases q with
  | dly => simp [getQueue, sysKill, sysZero] at h
  | wai => simp [getQueue, sysKill, sysZero] at h
  | obj o => simp [getQueue, sysKill, sysZero] at h
  | mtx m =>
    simp only [getQueue, sysKill] at h
    by_cases h5 : m = 5
    · subst h5
      simp at h
      subst h
      rfl
    · by_cases h9 : m = 9
      · subst h9
        simp at h
        subst h
        rfl
      · simp [h5, h9] at h
  | join t =>
    simp only [getQueue, sysKill] at h
    by_cases h1 : t = 1
    · subst h1
      simp at h
      subst h
      rfl
    · by_cases h2 : t = 2
      · subst h2; simp [JOINABLE] at h
      · by_cases h3 : t = 3
        · subst h3; simp [JOINABLE] at h
        · by_cases h4 : t = 4
          · subst h4; simp [JOINABLE] at h
          · simp [h1, h2, h3, h4, JOINABLE] at h

theorem tsk_kill_postcondition_witness :
    Guarded sysKill ∧ Placed 1 sysKill ∧ (sysKill.tsk 1).join ≠ Join.detached ∧
    (sysKill.tsk 1).id = ID_BLOCKED ∧ 1 ∈ sysKill.tmr ∧
    1 ∈ getQueue sysKill (Queue.mtx 9) ∧ (sysKill.tsk 1).mtx_tree = some 9 ∧
    (sysKill.tsk 1).join.head = some 2 ∧ (sysKill.tsk 2).event = 77 ∧
    (sysKill.tsk 2).id = ID_BLOCKED ∧
    (((tsk_kill 1 sysKill).tsk 1).id = ID_STOPPED ∧
    1 ∉ (tsk_kill 1 sysKill).rdy ∧
    1 ∉ (tsk_kill 1 sysKill).tmr ∧
    (∀ q, 1 ∉ getQueue (tsk_kill 1 sysKill) q) ∧
    ((tsk_kill 1 sysKill).tsk 1).mtx_tree = none ∧
    (∀ J, (sysKill.tsk 1).join.head = some J →
      ((tsk_kill 1 sysKill).tsk J).event = E_STOPPED ∧
      (J ≠ 1 → ((tsk_kill 1 sysKill).tsk J).id = ID_READY ∧ J ∈ (tsk_kill 1 sysKill).rdy))) :=
  ⟨sysKill_guarded, by unfold Placed; decide, by decide, by decide, by decide, by decide,
    by decide, by decide, by decide, by decide,
    tsk_kill_postcondition 1 sysKill sysKill_guarded (by unfold Placed; decide) (by decide)⟩

/-! ## Deleting a task -/

/-- The branch of `tsk_detach` for a stopped task. -/
theorem tsk_detach_stopped (tsk : Nat) (k : System) (hj : (k.tsk tsk).join ≠ Join.detached)
    (hr : (k.tsk tsk).res ≠ Res.static) (hs : (k.tsk tsk).id = ID_STOPPED) :
    tsk_detach tsk k = (E_SUCCESS, core_res_free tsk k) := by
  simp [tsk_detach, hj, hr, hs]

/-- What `tsk_kill` leaves of an active task that is not `DETACHED`: it is
stopped, still not `DETACHED`, and its storage class is as before. -/
theorem tsk_kill_weak (t : Nat) (k : System)
    (ha : (k.tsk t).id = ID_READY ∨ (k.tsk t).id = ID_BLOCKED)
    (hj : (k.tsk t).join ≠ Join.detached) :
    ((tsk_kill t k).tsk t).id = ID_STOPPED ∧
    ((tsk_kill t k).tsk t).join ≠ Join.detached ∧
    ((tsk_kill t k).tsk t).res = (k.tsk t).res := by
  have hne : (k.tsk t).id ≠ ID_STOPPED := by
    rcases ha with h | h <;> rw [h] <;> decide
  rw [tsk_kill_eq t k ⟨hne, hj⟩]
  obtain ⟨a, b, c⟩ := killLocks_weak t k ⟨ha, hj⟩
  have wm := wakeup_opt_more ((killLocks t k).tsk t).join.head E_STOPPED (killLocks t k) t
  have wi := wakeup_opt_id ((killLocks t k).tsk t).join.head E_STOPPED (killLocks t k) t
  have a3 : ((core_tsk_wakeup ((killLocks t k).tsk t).join.head E_STOPPED
      (killLocks t k)).2.tsk t).id = ID_READY ∨
      ((core_tsk_wakeup ((killLocks t k).tsk t).join.head E_STOPPED
      (killLocks t k)).2.tsk t).id = ID_BLOCKED := by
    rcases wi with e | e
    · rw [e]; exact a
    · exact Or.inl e
  have f := killFinal_weak t _ a3
  refine ⟨f.1, ?_, ?_⟩
  · intro hd
    exact b (wm.2.2.2.2.2.1.mp (f.2.1.mp hd))
  · rw [f.2.2, wm.1, c]

theorem dropOwned_cur (m : Nat) (k : System) : (dropOwned m k).cur = k.cur := by
  unfold dropOwned
  cases (k.mtx m).owner with
  | none => rfl
  | some o => rfl

theorem wakeup_opt_cur (o : Option Nat) (e : Nat) (k : System) :
    (core_tsk_wakeup o e k).2.cur = k.cur := by
  cases o with
  | none => rfl
  | some t => exact (wakeup_lists t e k).2.2.2.2

/-- The mutex loop of `tsk_kill` does not write `System.cur`. -/
theorem kill_mtx_cur (k : System) (m : Nat) : (tsk_kill_mtx k m).cur = k.cur := by
  unfold tsk_kill_mtx
  by_cases hr : (k.mtx m).mode &&& mtxRobust ≠ 0
  · rw [if_pos hr]
    have he := transferLock_eq m OWNERDEAD k
    cases hq : ((dropOwned m k).mtx m).queue.head? with
    | none =>
      dsimp only
      rw [he.1 hq]
      simp only [if_true, setMtx_cur]
      exact dropOwned_cur m k
    | some W =>
      dsimp only
      rw [he.2 W hq]
      simp only [reduceCtorEq, if_false, setMtx_cur, setTsk_cur]
      exact (wakeup_opt_cur (some W) OWNERDEAD _).trans (dropOwned_cur m k)
  · rw [if_neg hr]

theorem kill_fold_cur (l : List Nat) (k : System) : (l.foldl tsk_kill_mtx k).cur = k.cur := by
  induction l generalizing k with
  | nil => rfl
  | cons m rest ih => exact (ih (tsk_kill_mtx k m)).trans (kill_mtx_cur k m)

/-- Control comes back from `tsk_kill` whenever the task is not the caller. -/
theorem tsk_kill_returns_other (t : Nat) (k : System) (h : t ≠ k.cur) :
    tsk_kill_returns t k = true := by
  unfold tsk_kill_returns
  split
  · dsimp only
    split
    · rw [wakeup_opt_cur, kill_fold_cur]
      simpa using h
    · rfl
  · rfl

/-- Control comes back from `tsk_kill` whenever it does nothing. -/
theorem tsk_kill_returns_noop (t : Nat) (k : System)
    (h : ¬ ((k.tsk t).id ≠ ID_STOPPED ∧ (k.tsk t).join ≠ Join.detached)) :
    tsk_kill_returns t k = true := by
  unfold tsk_kill_returns
  rw [if_neg h]

/-- The function `tsk_delete` when control comes back from `tsk_kill`. -/
theorem tsk_delete_eq (t : Nat) (k : System) (h : tsk_kill_returns t k = true) :
    tsk_delete t k = (tsk_detach t (tsk_kill t k)).2 := by
  unfold tsk_delete
  dsimp only
  rw [if_pos h]

/-- Mode and owner of every mutex after a write to a queue. -/
theorem setQueue_mtx_keep (k : System) (q : Queue) (l : List Nat) (m : Nat) :
    ((setQueue k q l).mtx m).mode = (k.mtx m).mode ∧
    ((setQueue k q l).mtx m).owner = (k.mtx m).owner := by
  cases q with
  | dly => exact ⟨rfl, rfl⟩
  | wai => exact ⟨rfl, rfl⟩
  | obj o => exact ⟨rfl, rfl⟩
  | mtx x =>
    simp only [setQueue]
    by_cases h : m = x
    · subst h; simp
    · rw [setMtx_other _ _ _ _ h]
      exact ⟨rfl, rfl⟩
  | join t =>
    simp only [setQueue]
    cases (k.tsk t).join with
    | slot s => exact ⟨rfl, rfl⟩
    | detached => exact ⟨rfl, rfl⟩

theorem leaveQueue_mtx_keep (t : Nat) (k : System) (m : Nat) :
    ((leaveQueue t k).mtx m).mode = (k.mtx m).mode ∧
    ((leaveQueue t k).mtx m).owner = (k.mtx m).owner := by
  unfold leaveQueue
  cases (k.tsk t).guard with
  | none => exact ⟨rfl, rfl⟩
  | some g => simpa using setQueue_mtx_keep k g ((getQueue k g).filter (fun x => x != t)) m

/-- An unlink writes neither the mode nor the owner of any mutex. -/
theorem unlink_mtx_keep (t e : Nat) (k : System) (m : Nat) :
    ((core_tsk_unlink t e k).mtx m).mode = (k.mtx m).mode ∧
    ((core_tsk_unlink t e k).mtx m).owner = (k.mtx m).owner := by
  rw [unlink_eq]
  simpa using leaveQueue_mtx_keep t (setTsk k t { k.tsk t with event := e }) m

/-- A wake-up writes neither the mode nor the owner of any mutex. -/
theorem wakeup_mtx_keep (o : Option Nat) (e : Nat) (k : System) (m : Nat) :
    ((core_tsk_wakeup o e k).2.mtx m).mode = (k.mtx m).mode ∧
    ((core_tsk_wakeup o e k).2.mtx m).owner = (k.mtx m).owner := by
  cases o with
  | none => exact ⟨rfl, rfl⟩
  | some t =>
    have h := unlink_mtx_keep t e k m
    simpa [core_tsk_wakeup, core_tsk_insert, core_tmr_remove] using h

/-- The last statement of `tsk_kill` writes neither the mode nor the owner of any
mutex. -/
theorem killFinal_mtx_keep (t : Nat) (k : System) (m : Nat) :
    ((killFinal t k).mtx m).mode = (k.mtx m).mode ∧
    ((killFinal t k).mtx m).owner = (k.mtx m).owner := by
  unfold killFinal
  split
  · exact ⟨rfl, rfl⟩
  · split
    · have h := unlink_mtx_keep t E_STOPPED k m
      simpa [core_tmr_remove] using h
    · exact ⟨rfl, rfl⟩

/-- What the hook reports: the first waiter of the mutex, or null. -/
theorem transferLock_result (m e : Nat) (k : System) :
    (core_mtx_transferLock m e k).1 = (k.mtx m).queue.head? := by
  have he := transferLock_eq m e k
  have hd := (dropOwned_same m k).2
  rw [hd] at he
  cases hq : (k.mtx m).queue.head? with
  | none => rw [he.1 hq]
  | some w => rw [he.2 w hq]

/-- One round of the mutex loop on a mutex that is not robust: the hook is not
called and nothing changes. -/
theorem kill_mtx_plain (k : System) (m : Nat) (h : (k.mtx m).mode &&& mtxRobust = 0) :
    tsk_kill_mtx k m = k := by
  unfold tsk_kill_mtx
  rw [if_neg (fun hn => hn h)]

/-- One round of the mutex loop on a robust mutex: the state is the one the hook
returns, with `mtxInconsistent` set in the mode of the mutex exactly when the
hook returns null. -/
theorem kill_mtx_robust (k : System) (m : Nat) (h : (k.mtx m).mode &&& mtxRobust ≠ 0) :
    ((core_mtx_transferLock m OWNERDEAD k).1 = none →
      tsk_kill_mtx k m =
        setMtx (core_mtx_transferLock m OWNERDEAD k).2 m
          { (core_mtx_transferLock m OWNERDEAD k).2.mtx m with
            mode := ((core_mtx_transferLock m OWNERDEAD k).2.mtx m).mode ||| mtxInconsistent }) ∧
    ((core_mtx_transferLock m OWNERDEAD k).1 ≠ none →
      tsk_kill_mtx k m = (core_mtx_transferLock m OWNERDEAD k).2) := by
  unfold tsk_kill_mtx
  rw [if_pos h]
  constructor
  · intro hn
    dsimp only
    rw [if_pos hn]
  · intro hn
    dsimp only
    rw [if_neg hn]

/-- The mutex itself after one round of the loop on a robust mutex: the first
waiter, if any, is the new owner, holds the event `OWNERDEAD` and is ready, and
the mode is unchanged; with no waiter the mutex has no owner and
`mtxInconsistent` is set in its mode. -/
theorem kill_mtx_self (k : System) (m : Nat) (h : (k.mtx m).mode &&& mtxRobust ≠ 0) :
    ((tsk_kill_mtx k m).mtx m).owner = (k.mtx m).queue.head? ∧
    ((k.mtx m).queue.head? = none →
      ((tsk_kill_mtx k m).mtx m).mode = (k.mtx m).mode ||| mtxInconsistent) ∧
    (∀ W, (k.mtx m).queue.head? = some W →
      ((tsk_kill_mtx k m).mtx m).mode = (k.mtx m).mode ∧
      ((tsk_kill_mtx k m).tsk W).event = OWNERDEAD ∧
      ((tsk_kill_mtx k m).tsk W).guard = none ∧
      ((tsk_kill_mtx k m).tsk W).id = ID_READY) := by
  have he := transferLock_eq m OWNERDEAD k
  have hd := (dropOwned_same m k).2
  have hres := transferLock_result m OWNERDEAD k
  have hrob := kill_mtx_robust k m h
  rw [hd] at he
  cases hq : (k.mtx m).queue.head? with
  | none =>
    rw [hq] at hres
    rw [hrob.1 hres, he.1 hq]
    refine ⟨by simp, fun _ => (by simp), ?_⟩
    intro W hW
    cases hW
  | some w =>
    rw [hq] at hres
    rw [hrob.2 (by rw [hres]; simp), he.2 w hq]
    have hs := wakeup_self w OWNERDEAD (dropOwned m k)
    have hm := wakeup_mtx_keep (some w) OWNERDEAD (dropOwned m k) m
    rw [hd] at hm
    refine ⟨by simp, fun hn => (by cases hn), ?_⟩
    intro W hW
    cases hW
    refine ⟨?_, ?_, ?_, ?_⟩
    · simpa using hm.1
    · simpa using hs.1
    · simpa using hs.2.1
    · simpa using hs.2.2.1

/-- One round of the mutex loop writes neither the mode nor the owner of any
other mutex. -/
theorem kill_mtx_other (k : System) (m x : Nat) (hx : x ≠ m) :
    ((tsk_kill_mtx k m).mtx x).mode = (k.mtx x).mode ∧
    ((tsk_kill_mtx k m).mtx x).owner = (k.mtx x).owner := by
  by_cases h : (k.mtx m).mode &&& mtxRobust = 0
  · rw [kill_mtx_plain k m h]
    exact ⟨rfl, rfl⟩
  · have he := transferLock_eq m OWNERDEAD k
    have hd := (dropOwned_same m k).2
    have hres := transferLock_result m OWNERDEAD k
    have hrob := kill_mtx_robust k m h
    rw [hd] at he
    cases hq : (k.mtx m).queue.head? with
    | none =>
      rw [hq] at hres
      rw [hrob.1 hres, he.1 hq, setMtx_other _ _ _ _ hx, setMtx_other _ _ _ _ hx, hd]
      exact ⟨rfl, rfl⟩
    | some w =>
      rw [hq] at hres
      rw [hrob.2 (by rw [hres]; simp), he.2 w hq, setMtx_other _ _ _ _ hx]
      have hm := wakeup_mtx_keep (some w) OWNERDEAD (dropOwned m k) x
      rw [hd] at hm
      simpa using hm

/-- A task that has been woken (no guard, ready) keeps its event through the
wake-up of a task that still waits on a queue. -/
theorem wakeup_keeps_woken (w e : Nat) (k : System) (q : Queue) (W ev : Nat) (hG : Guarded k)
    (hq : w ∈ getQueue k q)
    (hw : (k.tsk W).event = ev ∧ (k.tsk W).guard = none ∧ (k.tsk W).id = ID_READY) :
    ((core_tsk_wakeup (some w) e k).2.tsk W).event = ev ∧
    ((core_tsk_wakeup (some w) e k).2.tsk W).guard = none ∧
    ((core_tsk_wakeup (some w) e k).2.tsk W).id = ID_READY := by
  have hne : W ≠ w := by
    intro h
    subst h
    have := hG q W hq
    rw [hw.2.1] at this
    cases this
  have ho := wakeup_other w e k W hne
  rw [ho.1, ho.2.1, ho.2.2.1]
  exact hw

theorem kill_mtx_guarded (k : System) (m : Nat) (hG : Guarded k) : Guarded (tsk_kill_mtx k m) := by
  rcases kill_mtx_shape k m with hs | ⟨K, W, h1, _, h2⟩
  · exact Guarded_same hs hG
  · exact Guarded_same h2 (Guarded_wakeup W OWNERDEAD K (Guarded_same h1 hG))

/-- One round of the mutex loop leaves the queue of every other mutex alone. -/
theorem kill_mtx_queue (k : System) (m x : Nat) (hG : Guarded k) (hx : x ≠ m) :
    ((tsk_kill_mtx k m).mtx x).queue = (k.mtx x).queue := by
  rcases kill_mtx_shape k m with hs | ⟨K, W, h1, hq, h2⟩
  · exact hs.2.2.1 (Queue.mtx x)
  · have hGK : Guarded K := Guarded_same h1 hG
    have hW : (K.tsk W).guard = some (Queue.mtx m) :=
      hGK (Queue.mtx m) W (List.mem_of_mem_head? hq)
    have e1 := h2.2.2.1 (Queue.mtx x)
    have e2 := wakeup_getQueue W OWNERDEAD K (Queue.mtx x)
    have e3 := h1.2.2.1 (Queue.mtx x)
    rw [hW, if_neg (by simp [hx.symm])] at e2
    exact e1.trans (e2.trans e3)

/-- One round of the mutex loop keeps the event of a task that has been woken. -/
theorem kill_mtx_keeps_woken (k : System) (m W ev : Nat) (hG : Guarded k)
    (hw : (k.tsk W).event = ev ∧ (k.tsk W).guard = none ∧ (k.tsk W).id = ID_READY) :
    ((tsk_kill_mtx k m).tsk W).event = ev ∧ ((tsk_kill_mtx k m).tsk W).guard = none ∧
    ((tsk_kill_mtx k m).tsk W).id = ID_READY := by
  rcases kill_mtx_shape k m with hs | ⟨K, W1, h1, hq, h2⟩
  · have x := hs.2.2.2 W
    rw [x.1, x.2.1, x.2.2.2.1]
    exact hw
  · have hGK : Guarded K := Guarded_same h1 hG
    have x1 := h1.2.2.2 W
    have x2 := h2.2.2.2 W
    have hK : (K.tsk W).event = ev ∧ (K.tsk W).guard = none ∧ (K.tsk W).id = ID_READY := by
      rw [x1.1, x1.2.1, x1.2.2.2.1]
      exact hw
    have hk := wakeup_keeps_woken W1 OWNERDEAD K (Queue.mtx m) W ev hGK
      (List.mem_of_mem_head? hq) hK
    rw [x2.1, x2.2.1, x2.2.2.2.1]
    exact hk

theorem kill_fold_guarded (l : List Nat) (k : System) (hG : Guarded k) :
    Guarded (l.foldl tsk_kill_mtx k) := by
  induction l generalizing k with
  | nil => exact hG
  | cons m rest ih => exact ih (tsk_kill_mtx k m) (kill_mtx_guarded k m hG)

theorem kill_fold_keeps_woken (l : List Nat) (k : System) (W ev : Nat) (hG : Guarded k)
    (hw : (k.tsk W).event = ev ∧ (k.tsk W).guard = none ∧ (k.tsk W).id = ID_READY) :
    ((l.foldl tsk_kill_mtx k).tsk W).event = ev ∧ ((l.foldl tsk_kill_mtx k).tsk W).guard = none ∧
    ((l.foldl tsk_kill_mtx k).tsk W).id = ID_READY := by
  induction l generalizing k with
  | nil => exact hw
  | cons m rest ih =>
    exact ih (tsk_kill_mtx k m) (kill_mtx_guarded k m hG) (kill_mtx_keeps_woken k m W ev hG hw)

/-- The rounds for other mutexes write neither the mode nor the owner of a
mutex. -/
theorem kill_fold_other (l : List Nat) (k : System) (x : Nat) (hx : x ∉ l) :
    ((l.foldl tsk_kill_mtx k).mtx x).mode = (k.mtx x).mode ∧
    ((l.foldl tsk_kill_mtx k).mtx x).owner = (k.mtx x).owner := by
  induction l generalizing k with
  | nil => exact ⟨rfl, rfl⟩
  | cons m rest ih =>
    have h1 : x ≠ m := fun e => hx (by rw [e]; exact List.mem_cons_self _ _)
    have h2 : x ∉ rest := fun e => hx (List.mem_cons_of_mem _ e)
    have a := ih (tsk_kill_mtx k m) h2
    have b := kill_mtx_other k m x h1
    exact ⟨a.1.trans b.1, a.2.trans b.2⟩

/-- The whole mutex loop of `tsk_kill`, seen from one mutex of the chain. -/
theorem kill_fold_owner_dead (l : List Nat) (k : System) (hG : Guarded k) (hn : l.Nodup)
    (m : Nat) (hm : m ∈ l) :
    ((k.mtx m).mode &&& mtxRobust = 0 →
      ((l.foldl tsk_kill_mtx k).mtx m).mode = (k.mtx m).mode ∧
      ((l.foldl tsk_kill_mtx k).mtx m).owner = (k.mtx m).owner) ∧
    ((k.mtx m).mode &&& mtxRobust ≠ 0 →
      ((l.foldl tsk_kill_mtx k).mtx m).owner = (k.mtx m).queue.head? ∧
      ((k.mtx m).queue.head? = none →
        ((l.foldl tsk_kill_mtx k).mtx m).mode = (k.mtx m).mode ||| mtxInconsistent) ∧
      (∀ W, (k.mtx m).queue.head? = some W →
        ((l.foldl tsk_kill_mtx k).mtx m).mode = (k.mtx m).mode ∧
        ((l.foldl tsk_kill_mtx k).tsk W).event = OWNERDEAD ∧
        ((l.foldl tsk_kill_mtx k).tsk W).guard = none ∧
        ((l.foldl tsk_kill_mtx k).tsk W).id = ID_READY)) := by
  induction l generalizing k with
  | nil => cases hm
  | cons m0 rest ih =>
    have hn0 : m0 ∉ rest := (List.nodup_cons.mp hn).1
    have hnr : rest.Nodup := (List.nodup_cons.mp hn).2
    have hG1 : Guarded (tsk_kill_mtx k m0) := kill_mtx_guarded k m0 hG
    simp only [List.foldl_cons]
    by_cases hmm : m = m0
    · subst hmm
      have fo := kill_fold_other rest (tsk_kill_mtx k m) m hn0
      constructor
      · intro hp
        rw [fo.1, fo.2, kill_mtx_plain k m hp]
        exact ⟨rfl, rfl⟩
      · intro hr
        have hs := kill_mtx_self k m hr
        refine ⟨fo.2.trans hs.1, fun hq => fo.1.trans (hs.2.1 hq), ?_⟩
        intro W hW
        have hw := hs.2.2 W hW
        have kw := kill_fold_keeps_woken rest (tsk_kill_mtx k m) W OWNERDEAD hG1 hw.2
        exact ⟨fo.1.trans hw.1, kw⟩
    · have hmr : m ∈ rest := by
        rcases List.mem_cons.mp hm with h | h
        · exact absurd h hmm
        · exact h
      have h := ih (tsk_kill_mtx k m0) hG1 hnr hmr
      have ho := kill_mtx_other k m0 m hmm
      have hq := kill_mtx_queue k m0 m hG hmm
      rw [ho.1, ho.2, hq] at h
      exact h

/-- Every queued task of `sysOwnerDead` points back at its queue. -/
theorem sysOwnerDead_guarded : Guarded sysOwnerDead := by
  intro q u h
  cases q with
  | dly => simp [getQueue, sysOwnerDead, sysZero] at h
  | wai => simp [getQueue, sysOwnerDead, sysZero] at h
  | obj o => simp [getQueue, sysOwnerDead, sysZero] at h
  | mtx m =>
    simp only [getQueue, sysOwnerDead] at h
    by_cases h5 : m = 5
    · subst h5
      simp at h
      subst h
      rfl
    · by_cases h6 : m = 6
      · subst h6
        simp at h
      · by_cases h7 : m = 7
        · subst h7
          simp at h
          subst h
          rfl
        · simp [h5, h6, h7] at h
  | join t =>
    simp only [getQueue, sysOwnerDead] at h
    by_cases h1 : t = 1
    · subst h1; simp [JOINABLE] at h
    · by_cases h3 : t = 3
      · subst h3; simp [JOINABLE] at h
      · by_cases h4 : t = 4
        · subst h4; simp [JOINABLE] at h
        · by_cases h8 : t = 8
          · subst h8; simp [JOINABLE] at h
          · simp [h1, h3, h4, h8, JOINABLE] at h

/-- The head of a join slot is on the queue of that slot. -/
theorem join_head_mem (k : System) (t J : Nat) (h : (k.tsk t).join.head = some J) :
    J ∈ getQueue k (Queue.join t) := by
  have e : getQueue k (Queue.join t) =
      (match (k.tsk t).join with
        | Join.slot l => l
        | Join.detached => []) := rfl
  rw [e]
  cases hj : (k.tsk t).join with
  | slot l =>
    rw [hj] at h
    have h2 : l.head? = some J := h
    exact List.mem_of_mem_head? h2
  | detached =>
    rw [hj] at h
    cases h

/-- The last statement of `tsk_kill` keeps the event of a task that has been
woken, and keeps it ready unless it is the task being killed. -/
theorem killFinal_keeps_woken (t : Nat) (k : System) (W ev : Nat)
    (hw : (k.tsk W).event = ev ∧ (k.tsk W).guard = none ∧ (k.tsk W).id = ID_READY) :
    ((killFinal t k).tsk W).event = ev ∧ (W ≠ t → ((killFinal t k).tsk W).id = ID_READY) := by
  unfold killFinal
  by_cases hr : (k.tsk t).id = ID_READY
  · rw [if_pos hr]
    have f := remove_fields t k
    refine ⟨(f.2.2.2.2.2.2.2.2 W).1.trans hw.1, ?_⟩
    intro hne
    rw [f.2.2.2.2.2.2.2.1 W hne]
    exact hw.2.2
  · rw [if_neg hr]
    by_cases hb : (k.tsk t).id = ID_BLOCKED
    · rw [if_pos hb]
      have hne : W ≠ t := by
        intro e
        rw [e] at hw
        exact hr hw.2.2
      have f := tmr_remove_fields t (core_tsk_unlink t E_STOPPED k)
      have o := unlink_other t E_STOPPED k W hne
      rw [f.2.2.2.2.1 W hne, o.1, o.2.2.1]
      exact ⟨hw.1, fun _ => hw.2.2⟩
    · rw [if_neg hb]
      exact ⟨hw.1, fun _ => hw.2.2⟩

/-- C21, counterexample -- T (task 1 of `sysOwnerDead`) is ready, not `DETACHED`
and owns the robust mutex 5, for which task 3 waits.  In `tsk_kill` the hook
`core_mtx_transferLock(5, OWNERDEAD)` reports the new owner 3 (a non-zero
result), and after `tsk_kill` task 3 owns the mutex and holds `OWNERDEAD`, yet
`mtxInconsistent` is not set in the mode of mutex 5. -/
theorem tsk_kill_successor_not_inconsistent :
    (sysOwnerDead.tsk 1).id = ID_READY ∧ (sysOwnerDead.tsk 1).join ≠ Join.detached ∧
    5 ∈ (sysOwnerDead.tsk 1).mtx_list ∧
    (sysOwnerDead.mtx 5).mode &&& mtxRobust ≠ 0 ∧
    (core_mtx_transferLock 5 OWNERDEAD
      (setTsk sysOwnerDead 1 { sysOwnerDead.tsk 1 with mtx_tree := none })).1 = some 3 ∧
    ((tsk_kill 1 sysOwnerDead).mtx 5).owner = some 3 ∧
    ((tsk_kill 1 sysOwnerDead).tsk 3).event = OWNERDEAD ∧
    ((tsk_kill 1 sysOwnerDead).mtx 5).mode &&& mtxInconsistent = 0 ∧
    ¬ (((tsk_kill 1 sysOwnerDead).mtx 5).mode &&& mtxInconsistent ≠ 0) := by
  decide

/-- C21, amended -- owner-dead handling in `tsk_kill`.  In every round of the
mutex loop the hook `core_mtx_transferLock(mtx, OWNERDEAD)` is called exactly
when the mutex is robust (on another mutex the round changes nothing), it
reports the first waiter of the mutex, and `mtxInconsistent` is set in the mode
exactly when it reports no new owner (a zero result).  Hence for every active
task `t` that is not `DETACHED`, whose chain of mutexes has no repetition, in a
state where every queued task points back at its queue, and for every mutex
`m` of the chain: if `m` is not robust, its mode and owner are unchanged by
`tsk_kill`; if `m` is robust and nobody waits for it, it ends with no owner and
with `mtxInconsistent` set; if `m` is robust and `W` is its first waiter, `W`
ends as its owner, holding the event `OWNERDEAD` (and ready, unless `W` is `t`),
and the mode of `m` is unchanged. -/
theorem tsk_kill_owner_dead (t : Nat) (k : System)
    (ha : (k.tsk t).id = ID_READY ∨ (k.tsk t).id = ID_BLOCKED)
    (hj : (k.tsk t).join ≠ Join.detached) (hG : Guarded k)
    (hn : (k.tsk t).mtx_list.Nodup) (m : Nat) (hm : m ∈ (k.tsk t).mtx_list) :
    (∀ K : System, (K.mtx m).mode &&& mtxRobust = 0 → tsk_kill_mtx K m = K) ∧
    (∀ K : System, (K.mtx m).mode &&& mtxRobust ≠ 0 →
      (core_mtx_transferLock m OWNERDEAD K).1 = (K.mtx m).queue.head? ∧
      ((core_mtx_transferLock m OWNERDEAD K).1 = none →
        tsk_kill_mtx K m =
          setMtx (core_mtx_transferLock m OWNERDEAD K).2 m
            { (core_mtx_transferLock m OWNERDEAD K).2.mtx m with
              mode := ((core_mtx_transferLock m OWNERDEAD K).2.mtx m).mode |||
                mtxInconsistent }) ∧
      ((core_mtx_transferLock m OWNERDEAD K).1 ≠ none →
        tsk_kill_mtx K m = (core_mtx_transferLock m OWNERDEAD K).2)) ∧
    ((k.mtx m).mode &&& mtxRobust = 0 →
      ((tsk_kill t k).mtx m).mode = (k.mtx m).mode ∧
      ((tsk_kill t k).mtx m).owner = (k.mtx m).owner) ∧
    ((k.mtx m).mode &&& mtxRobust ≠ 0 →
      ((tsk_kill t k).mtx m).owner = (k.mtx m).queue.head? ∧
      ((k.mtx m).queue.head? = none →
        ((tsk_kill t k).mtx m).mode = (k.mtx m).mode ||| mtxInconsistent) ∧
      (∀ W, (k.mtx m).queue.head? = some W →
        ((tsk_kill t k).mtx m).mode = (k.mtx m).mode ∧
        ((tsk_kill t k).tsk W).event = OWNERDEAD ∧
        (W ≠ t → ((tsk_kill t k).tsk W).id = ID_READY))) := by
  refine ⟨fun K h => kill_mtx_plain K m h,
    fun K h => ⟨transferLock_result m OWNERDEAD K, kill_mtx_robust K m h⟩, ?_, ?_⟩
  all_goals
    have hne : (k.tsk t).id ≠ ID_STOPPED := by
      rcases ha with h | h <;> rw [h] <;> decide
    have hs : SchedSame k (setTsk k t { k.tsk t with mtx_tree := none }) :=
      SchedSame_setTsk k t _ rfl rfl rfl rfl rfl (fun _ => rfl)
    have hG1 : Guarded (setTsk k t { k.tsk t with mtx_tree := none }) := Guarded_same hs hG
    have hl : ((setTsk k t { k.tsk t with mtx_tree := none }).tsk t).mtx_list =
        (k.tsk t).mtx_list := by simp
    have hG2 : Guarded (killLocks t k) := kill_fold_guarded _ _ hG1
    have fo : _ := kill_fold_owner_dead
      ((setTsk k t { k.tsk t with mtx_tree := none }).tsk t).mtx_list
      (setTsk k t { k.tsk t with mtx_tree := none }) hG1 (by rw [hl]; exact hn) m
      (by rw [hl]; exact hm)
    have hfold : killLocks t k =
        ((setTsk k t { k.tsk t with mtx_tree := none }).tsk t).mtx_list.foldl tsk_kill_mtx
          (setTsk k t { k.tsk t with mtx_tree := none }) := rfl
    rw [← hfold] at fo
    have hmk : (setTsk k t { k.tsk t with mtx_tree := none }).mtx m = k.mtx m := rfl
    rw [hmk] at fo
    have wk := wakeup_mtx_keep ((killLocks t k).tsk t).join.head E_STOPPED (killLocks t k) m
    have kf := killFinal_mtx_keep t
      (core_tsk_wakeup ((killLocks t k).tsk t).join.head E_STOPPED (killLocks t k)).2 m
    rw [tsk_kill_eq t k ⟨hne, hj⟩, kf.1, kf.2, wk.1, wk.2]
  · exact fo.1
  · intro hr
    obtain ⟨f1, f2, f3⟩ := fo.2 hr
    refine ⟨f1, f2, ?_⟩
    intro W hW
    obtain ⟨g1, g2⟩ := f3 W hW
    have hw3 : ((core_tsk_wakeup ((killLocks t k).tsk t).join.head E_STOPPED
          (killLocks t k)).2.tsk W).event = OWNERDEAD ∧
        ((core_tsk_wakeup ((killLocks t k).tsk t).join.head E_STOPPED
          (killLocks t k)).2.tsk W).guard = none ∧
        ((core_tsk_wakeup ((killLocks t k).tsk t).join.head E_STOPPED
          (killLocks t k)).2.tsk W).id = ID_READY := by
      cases hh : ((killLocks t k).tsk t).join.head with
      | none => exact g2
      | some J =>
        exact wakeup_keeps_woken J E_STOPPED (killLocks t k) (Queue.join t) W OWNERDEAD hG2
          (join_head_mem (killLocks t k) t J hh) g2
    exact ⟨g1, killFinal_keeps_woken t _ W OWNERDEAD hw3⟩

/-- Witness for the amended C21, scenario `sysOwnerDead`: the robust mutex 5
passes to its waiter 3 with its mode unchanged, the robust mutex 6 without
waiter becomes inconsistent, the mutex 7, which is not robust, keeps mode,
owner and waiter. -/
theorem tsk_kill_owner_dead_witness :
    ((sysOwnerDead.tsk 1).id = ID_READY ∧ (sysOwnerDead.tsk 1).join ≠ Join.detached ∧
      Guarded sysOwnerDead ∧ (sysOwnerDead.tsk 1).mtx_list = [5, 6, 7]) ∧
    ((sysOwnerDead.mtx 5).mode = mtxRobust ∧ (sysOwnerDead.mtx 5).queue = [3] ∧
      ((tsk_kill 1 sysOwnerDead).mtx 5).owner = some 3 ∧
      ((tsk_kill 1 sysOwnerDead).mtx 5).mode = mtxRobust ∧
      (sysOwnerDead.tsk 3).event = 77 ∧
      ((tsk_kill 1 sysOwnerDead).tsk 3).event = OWNERDEAD) ∧
    ((sysOwnerDead.mtx 6).mode = mtxRobust ∧ (sysOwnerDead.mtx 6).queue = [] ∧
      ((tsk_kill 1 sysOwnerDead).mtx 6).owner = none ∧
      ((tsk_kill 1 sysOwnerDead).mtx 6).mode = mtxRobust ||| mtxInconsistent) ∧
    ((sysOwnerDead.mtx 7).mode = 0 ∧ (sysOwnerDead.mtx 7).queue = [8] ∧
      ((tsk_kill 1 sysOwnerDead).mtx 7).owner = some 1 ∧
      ((tsk_kill 1 sysOwnerDead).mtx 7).mode = 0 ∧
      ((tsk_kill 1 sysOwnerDead).tsk 8).event = 77) :=
  ⟨⟨by decide, by decide, sysOwnerDead_guarded, by decide⟩,
   ⟨by decide, by decide,
    ((tsk_kill_owner_dead 1 sysOwnerDead (Or.inl (by decide)) (by decide) sysOwnerDead_guarded
      (by decide) 5 (by decide)).2.2.2 (by decide)).1,
    (((tsk_kill_owner_dead 1 sysOwnerDead (Or.inl (by decide)) (by decide) sysOwnerDead_guarded
      (by decide) 5 (by decide)).2.2.2 (by decide)).2.2 3 (by decide)).1,
    by decide,
    (((tsk_kill_owner_dead 1 sysOwnerDead (Or.inl (by decide)) (by decide) sysOwnerDead_guarded
      (by decide) 5 (by decide)).2.2.2 (by decide)).2.2 3 (by decide)).2.1⟩,
   ⟨by decide, by decide,
    ((tsk_kill_owner_dead 1 sysOwnerDead (Or.inl (by decide)) (by decide) sysOwnerDead_guarded
      (by decide) 6 (by decide)).2.2.2 (by decide)).1,
    ((tsk_kill_owner_dead 1 sysOwnerDead (Or.inl (by decide)) (by decide) sysOwnerDead_guarded
      (by decide) 6 (by decide)).2.2.2 (by decide)).2.1 (by decide)⟩,
   ⟨by decide, by decide,
    ((tsk_kill_owner_dead 1 sysOwnerDead (Or.inl (by decide)) (by decide) sysOwnerDead_guarded
      (by decide) 7 (by decide)).2.2.1 (by decide)).2,
    ((tsk_kill_owner_dead 1 sysOwnerDead (Or.inl (by decide)) (by decide) sysOwnerDead_guarded
      (by decide) 7 (by decide)).2.2.1 (by decide)).1,
    by decide⟩⟩

/-! ## At most one joiner -/

theorem JoinShrinks_refl (k : System) : JoinShrinks k k := fun _ => Nat.le_refl _

theorem JoinShrinks_trans {a b c : System} (h1 : JoinShrinks a b) (h2 : JoinShrinks b c) :
    JoinShrinks a c := fun t => Nat.le_trans (h2 t) (h1 t)

theorem OneJoiner_shrinks {k k1 : System} (h : JoinShrinks k k1) (h1 : OneJoiner k) :
    OneJoiner k1 := fun t => Nat.le_trans (h t) (h1 t)

/-- States with the same `join` fields. -/
theorem JoinShrinks_of_eq (k k1 : System) (h : ∀ u, (k1.tsk u).join = (k.tsk u).join) :
    JoinShrinks k k1 := by
  intro t
  rw [h t]

/-- A write to a task record that does not lengthen its join slot. -/
theorem JoinShrinks_setTsk (k : System) (t : Nat) (v : tsk_t)
    (h : v.join.waiting ≤ (k.tsk t).join.waiting) : JoinShrinks k (setTsk k t v) := by
  intro u
  rw [setTsk_apply]
  by_cases hu : u = t
  · subst hu
    simpa using h
  · simp [hu]

theorem getQueue_join_length (k : System) (u : Nat) :
    (getQueue k (Queue.join u)).length = (k.tsk u).join.waiting := by
  have e : getQueue k (Queue.join u) =
      (match (k.tsk u).join with
        | Join.slot l => l
        | Join.detached => []) := rfl
  rw [e]
  cases (k.tsk u).join with
  | slot l => rfl
  | detached => rfl

/-- An unlink lengthens no join slot. -/
theorem JoinShrinks_unlink (t e : Nat) (k : System) : JoinShrinks k (core_tsk_unlink t e k) := by
  intro u
  rw [unlink_join]
  split
  · show (List.filter _ _).length ≤ _
    rw [← getQueue_join_length]
    exact List.length_filter_le _ _
  · exact Nat.le_refl _

/-- A wake-up lengthens no join slot. -/
theorem JoinShrinks_wakeup (o : Option Nat) (e : Nat) (k : System) :
    JoinShrinks k (core_tsk_wakeup o e k).2 := by
  cases o with
  | none => exact JoinShrinks_refl k
  | some t =>
    intro u
    rw [wakeup_join]
    split
    · show (List.filter _ _).length ≤ _
      rw [← getQueue_join_length]
      exact List.length_filter_le _ _
    · exact Nat.le_refl _

theorem JoinShrinks_wakeList (e : Nat) (l : List Nat) (k : System) :
    JoinShrinks k (wakeList e l k) := by
  induction l generalizing k with
  | nil => exact JoinShrinks_refl k
  | cons t l ih =>
    rw [wakeList_cons]
    exact JoinShrinks_trans (JoinShrinks_wakeup (some t) e k) (ih _)

theorem length_prioInsert (p : Nat → Nat) (t : Nat) (l : List Nat) :
    (prioInsert p t l).length = l.length + 1 := by
  induction l with
  | nil => rfl
  | cons x xs ih =>
    simp only [prioInsert]
    split
    · rfl
    · simp [ih]

/-- Blocking on a queue lengthens the join slot that queue is, by one, and no
other join slot. -/
theorem block_join_waiting (q : Queue) (k : System) (u : Nat) :
    ((core_tsk_block q k).2.tsk u).join.waiting ≤
      (k.tsk u).join.waiting + (if q = Queue.join u then 1 else 0) := by
  obtain ⟨_, h2, _⟩ := block_core q k
  rw [h2, setQueue_tsk_join]
  have hj : ((setTsk { k with rdy := k.rdy.filter (fun x => x != k.cur) } k.cur
      { k.tsk k.cur with id := ID_BLOCKED, guard := some q }).tsk u).join = (k.tsk u).join := by
    rw [setTsk_apply]
    by_cases hu : u = k.cur
    · subst hu; simp
    · simp [hu]
  rw [hj]
  by_cases hq : q = Queue.join u
  · subst hq
    rw [if_pos rfl]
    split
    · show (prioInsert _ _ _).length ≤ _
      rw [length_prioInsert, getQueue_join_length, hj]
    · exact Nat.le_succ _
  · rw [if_neg hq, if_neg (fun h => hq h.1)]
    exact Nat.le_refl _

/-- Blocking on a queue that is no join slot lengthens no join slot. -/
theorem JoinShrinks_block (q : Queue) (k : System) (hq : ∀ u, q ≠ Queue.join u) :
    JoinShrinks k (core_tsk_block q k).2 := by
  intro u
  have h := block_join_waiting q k u
  rw [if_neg (hq u)] at h
  exact h

theorem JoinShrinks_waitFor (q : Queue) (d : Nat) (k : System) (hq : ∀ u, q ≠ Queue.join u) :
    JoinShrinks k (core_tsk_waitFor q d k).2 := by
  unfold core_tsk_waitFor
  dsimp only
  refine JoinShrinks_trans ?_ (JoinShrinks_block q _ hq)
  exact JoinShrinks_setTsk k k.cur _ (Nat.le_refl _)

theorem JoinShrinks_waitUntil (q : Queue) (d : Nat) (k : System) (hq : ∀ u, q ≠ Queue.join u) :
    JoinShrinks k (core_tsk_waitUntil q d k).2 := by
  unfold core_tsk_waitUntil
  dsimp only
  refine JoinShrinks_trans ?_ (JoinShrinks_block q _ hq)
  exact JoinShrinks_setTsk k k.cur _ (Nat.le_refl _)

theorem JoinShrinks_waitNext (q : Queue) (d : Nat) (k : System) (hq : ∀ u, q ≠ Queue.join u) :
    JoinShrinks k (core_tsk_waitNext q d k).2 := by
  unfold core_tsk_waitNext
  dsimp only
  refine JoinShrinks_trans ?_ (JoinShrinks_block q _ hq)
  exact JoinShrinks_setTsk k k.cur _ (Nat.le_refl _)

theorem JoinShrinks_same {k k1 : System} (h : SchedSame k k1) : JoinShrinks k k1 :=
  JoinShrinks_of_eq k k1 (fun u => (h.2.2.2 u).2.2.1)

theorem JoinShrinks_insert (t : Nat) (k : System) : JoinShrinks k (core_tsk_insert t k) :=
  fun u => JoinShrinks_setTsk k t { k.tsk t with id := ID_READY } (Nat.le_refl _) u

theorem JoinShrinks_ctx_init (t : Nat) (k : System) : JoinShrinks k (core_ctx_init t k) :=
  fun u => JoinShrinks_setTsk k t { k.tsk t with ctx := (k.tsk t).state } (Nat.le_refl _) u

theorem JoinShrinks_remove (t : Nat) (k : System) : JoinShrinks k (core_tsk_remove t k) :=
  JoinShrinks_of_eq _ _ (fun u => ((remove_fields t k).2.2.2.2.2.2.2.2 u).2.1)

theorem JoinShrinks_tmr_remove (t : Nat) (k : System) : JoinShrinks k (core_tmr_remove t k) :=
  JoinShrinks_of_eq _ _ (fun u => ((tmr_remove_fields t k).2.2.2.2.2 u).2.1)

theorem JoinShrinks_res_free (t : Nat) (k : System) : JoinShrinks k (core_res_free t k) :=
  JoinShrinks_of_eq _ _ (fun u => ((res_free_frame t k).2.2.2.2.2.1 u).2.1)

theorem JoinShrinks_suspend (t : Nat) (k : System) : JoinShrinks k (core_tsk_suspend t k) := by
  intro u
  unfold core_tsk_suspend
  dsimp only
  rw [setQueue_tsk_join, if_neg (fun h => by cases h.1)]
  exact JoinShrinks_setTsk { k with rdy := k.rdy.filter (fun x => x != t) } t
    { k.tsk t with id := ID_BLOCKED, guard := some Queue.dly, delay := INFINITE }
    (Nat.le_refl _) u

theorem JoinShrinks_terminator (k : System) : JoinShrinks k (priv_tsk_terminator k) :=
  JoinShrinks_of_eq _ _ (fun u => ((terminator_loop_spec k.corpses k rfl).2.2.2.2.2.1 u).2.1)

theorem JoinShrinks_kill_mtx (k : System) (m : Nat) : JoinShrinks k (tsk_kill_mtx k m) := by
  rcases kill_mtx_shape k m with hs | ⟨K, W, h1, _, h2⟩
  · exact JoinShrinks_same hs
  · exact JoinShrinks_trans (JoinShrinks_same h1)
      (JoinShrinks_trans (JoinShrinks_wakeup (some W) OWNERDEAD K) (JoinShrinks_same h2))

theorem JoinShrinks_kill_fold (l : List Nat) (k : System) :
    JoinShrinks k (l.foldl tsk_kill_mtx k) := by
  induction l generalizing k with
  | nil => exact JoinShrinks_refl k
  | cons m rest ih => exact JoinShrinks_trans (JoinShrinks_kill_mtx k m) (ih _)

theorem JoinShrinks_killFinal (t : Nat) (k : System) : JoinShrinks k (killFinal t k) := by
  unfold killFinal
  split
  · exact JoinShrinks_remove t k
  · split
    · exact JoinShrinks_trans (JoinShrinks_unlink t E_STOPPED k) (JoinShrinks_tmr_remove t _)
    · exact JoinShrinks_refl k

/-- The function `tsk_kill` lengthens no join slot. -/
theorem JoinShrinks_kill (t : Nat) (k : System) : JoinShrinks k (tsk_kill t k) := by
  by_cases h : (k.tsk t).id ≠ ID_STOPPED ∧ (k.tsk t).join ≠ Join.detached
  · rw [tsk_kill_eq t k h]
    have h1 : JoinShrinks k (killLocks t k) := by
      unfold killLocks
      exact JoinShrinks_trans
        (JoinShrinks_setTsk k t { k.tsk t with mtx_tree := none } (Nat.le_refl _))
        (JoinShrinks_kill_fold _ _)
    exact JoinShrinks_trans h1
      (JoinShrinks_trans (JoinShrinks_wakeup _ E_STOPPED _) (JoinShrinks_killFinal t _))
  · rw [tsk_kill_noop t k h]
    exact JoinShrinks_refl k

/-- The function `tsk_detach` lengthens no join slot. -/
theorem JoinShrinks_detach (t : Nat) (k : System) : JoinShrinks k (tsk_detach t k).2 := by
  unfold tsk_detach
  split
  · exact JoinShrinks_refl k
  · split
    · exact JoinShrinks_res_free t k
    · dsimp only
      refine JoinShrinks_trans (JoinShrinks_wakeup (k.tsk t).join.head E_FAILURE k) ?_
      exact JoinShrinks_setTsk _ t _ (Nat.zero_le _)

/-- The function `tsk_init` and the two creators lengthen no join slot: the
record starts with an empty slot. -/
theorem JoinShrinks_init (t p : Nat) (st : fun_t) (k : System) :
    JoinShrinks k (tsk_init t p st k) ∧ JoinShrinks k (wrk_create t p st k) ∧
    JoinShrinks k (wrk_detached t p st k) := by
  have h : JoinShrinks k (tsk_init t p st k) := by
    unfold tsk_init
    dsimp only
    refine JoinShrinks_trans ?_ (JoinShrinks_trans (JoinShrinks_ctx_init t _)
      (JoinShrinks_insert t _))
    exact JoinShrinks_setTsk k t _ (Nat.zero_le _)
  refine ⟨h, ?_, ?_⟩
  · unfold wrk_create
    exact JoinShrinks_trans h (JoinShrinks_setTsk _ t _ (Nat.le_refl _))
  · unfold wrk_detached
    dsimp only
    refine JoinShrinks_trans h (JoinShrinks_trans ?_ (JoinShrinks_setTsk _ t _ (Nat.zero_le _)))
    exact JoinShrinks_setTsk _ t _ (Nat.le_refl _)

theorem JoinShrinks_start (t : Nat) (st : fun_t) (k : System) :
    JoinShrinks k (tsk_start t k) ∧ JoinShrinks k (tsk_startFrom t st k) := by
  constructor
  · unfold tsk_start
    split
    · exact JoinShrinks_trans (JoinShrinks_ctx_init t k) (JoinShrinks_insert t _)
    · exact JoinShrinks_refl k
  · unfold tsk_startFrom
    split
    · dsimp only
      refine JoinShrinks_trans ?_ (JoinShrinks_trans (JoinShrinks_ctx_init t _)
        (JoinShrinks_insert t _))
      exact JoinShrinks_setTsk k t _ (Nat.le_refl _)
    · exact JoinShrinks_refl k

theorem JoinShrinks_reclaim (t e : Nat) (k : System) : JoinShrinks k (tsk_join_reclaim t e k) := by
  unfold tsk_join_reclaim
  split
  · exact JoinShrinks_res_free t k
  · exact JoinShrinks_refl k

theorem JoinShrinks_stop (k : System) : JoinShrinks k (tsk_stop k) := by
  unfold tsk_stop
  dsimp only
  refine JoinShrinks_trans ?_ (JoinShrinks_remove k.cur _)
  split
  · exact JoinShrinks_wakeup _ E_SUCCESS k
  · exact JoinShrinks_of_eq _ _ (fun _ => rfl)

theorem JoinShrinks_delete (t : Nat) (k : System) : JoinShrinks k (tsk_delete t k) := by
  unfold tsk_delete
  dsimp only
  split
  · exact JoinShrinks_trans (JoinShrinks_kill t k) (JoinShrinks_detach t _)
  · exact JoinShrinks_kill t k

theorem JoinShrinks_suspend_resume (t : Nat) (k : System) :
    JoinShrinks k (tsk_suspend t k).2 ∧ JoinShrinks k (tsk_resume t k).2 := by
  constructor
  · unfold tsk_suspend
    split
    · exact JoinShrinks_suspend t k
    · exact JoinShrinks_refl k
  · unfold tsk_resume
    split
    · exact JoinShrinks_wakeup (some t) 0 k
    · exact JoinShrinks_refl k

theorem JoinShrinks_flags (f d : Nat) (k : System) :
    JoinShrinks k (tsk_waitFor f d k).2 ∧ JoinShrinks k (tsk_waitUntil f d k).2 := by
  constructor
  · unfold tsk_waitFor
    dsimp only
    refine JoinShrinks_trans ?_ (JoinShrinks_waitFor Queue.wai d _ (fun _ h => by cases h))
    exact JoinShrinks_setTsk k k.cur _ (Nat.le_refl _)
  · unfold tsk_waitUntil
    dsimp only
    refine JoinShrinks_trans ?_ (JoinShrinks_waitUntil Queue.wai d _ (fun _ h => by cases h))
    exact JoinShrinks_setTsk k k.cur _ (Nat.le_refl _)

theorem JoinShrinks_give (t f : Nat) (k : System) : JoinShrinks k (tsk_give t f k).2 := by
  have hw : ∀ (K : System) (fl : Nat),
      JoinShrinks K (if (K.tsk t).flags = 0 then (core_tsk_wakeup (some t) fl K).2 else K) := by
    intro K fl
    split
    · exact JoinShrinks_wakeup _ _ _
    · exact JoinShrinks_refl _
  unfold tsk_give
  by_cases hg : (k.tsk t).guard = some Queue.wai
  · rw [if_pos hg]
    dsimp only
    by_cases hh : (((k.tsk t).flags &&& f) != 0) = true
    · rw [if_pos hh, if_pos hh]
      refine JoinShrinks_trans ?_ (hw _ _)
      exact JoinShrinks_setTsk k t _ (Nat.le_refl _)
    · rw [if_neg hh, if_neg hh]
      exact hw k f
  · rw [if_neg hg]
    exact JoinShrinks_refl k

theorem JoinShrinks_sleep (d : Nat) (k : System) :
    JoinShrinks k (tsk_sleepFor d k).2 ∧ JoinShrinks k (tsk_sleepNext d k).2 ∧
    JoinShrinks k (tsk_sleepUntil d k).2 :=
  ⟨JoinShrinks_waitFor Queue.dly d k (fun _ h => by cases h),
   JoinShrinks_waitNext Queue.dly d k (fun _ h => by cases h),
   JoinShrinks_waitUntil Queue.dly d k (fun _ h => by cases h)⟩

theorem JoinShrinks_setSem (k : System) (s : Nat) (v : sem_t) : JoinShrinks k (setSem k s v) :=
  JoinShrinks_of_eq _ _ (fun _ => rfl)

theorem JoinShrinks_sem_take (s : Nat) (k : System) : JoinShrinks k (priv_sem_take s k).2 := by
  unfold priv_sem_take
  split
  · dsimp only
    refine JoinShrinks_trans (JoinShrinks_wakeup (k.sem s).queue.head? E_SUCCESS k) ?_
    split
    · exact JoinShrinks_setSem _ s _
    · exact JoinShrinks_refl _
  · exact JoinShrinks_refl k

theorem JoinShrinks_sem_give (s : Nat) (k : System) : JoinShrinks k (priv_sem_give s k).2 := by
  unfold priv_sem_give
  split
  · dsimp only
    refine JoinShrinks_trans (JoinShrinks_wakeup (k.sem s).queue.head? E_SUCCESS k) ?_
    split
    · exact JoinShrinks_setSem _ s _
    · exact JoinShrinks_refl _
  · exact JoinShrinks_refl k

theorem JoinShrinks_sem_kill (s : Nat) (k : System) : JoinShrinks k (sem_kill s k) := by
  unfold sem_kill
  dsimp only
  rw [core_all_wakeup_eq]
  exact JoinShrinks_trans (JoinShrinks_setSem k s _) (JoinShrinks_wakeList _ _ _)

/-- The blocking services of the semaphore lengthen no join slot. -/
theorem JoinShrinks_sem_block (s d : Nat) (k : System) :
    JoinShrinks k (sem_waitFor s d k).2 ∧ JoinShrinks k (sem_waitUntil s d k).2 ∧
    JoinShrinks k (sem_sendFor s d k).2 ∧ JoinShrinks k (sem_sendUntil s d k).2 := by
  have hq : ∀ u, Queue.obj s ≠ Queue.join u := fun _ h => by cases h
  refine ⟨?_, ?_, ?_, ?_⟩
  · unfold sem_waitFor
    dsimp only
    split
    · exact JoinShrinks_trans (JoinShrinks_sem_take s k) (JoinShrinks_waitFor _ d _ hq)
    · exact JoinShrinks_sem_take s k
  · unfold sem_waitUntil
    dsimp only
    split
    · exact JoinShrinks_trans (JoinShrinks_sem_take s k) (JoinShrinks_waitUntil _ d _ hq)
    · exact JoinShrinks_sem_take s k
  · unfold sem_sendFor
    dsimp only
    split
    · exact JoinShrinks_trans (JoinShrinks_sem_give s k) (JoinShrinks_waitFor _ d _ hq)
    · exact JoinShrinks_sem_give s k
  · unfold sem_sendUntil
    dsimp only
    split
    · exact JoinShrinks_trans (JoinShrinks_sem_give s k) (JoinShrinks_waitUntil _ d _ hq)
    · exact JoinShrinks_sem_give s k

/-- The function `tsk_join` refuses a target whose join slot holds a task: the
result is `E_FAILURE` and the state is unchanged. -/
theorem tsk_join_refused (tsk : Nat) (k : System) (j : Nat) (l : List Nat)
    (h : (k.tsk tsk).join = Join.slot (j :: l)) :
    tsk_join tsk k = (Ret.val E_FAILURE, k) := by
  have hc : (k.tsk tsk).join ≠ JOINABLE ∨ tsk = k.cur := by
    left
    rw [h]
    intro e
    cases e
  simp [tsk_join, tsk_join_reclaim, hc]

/-- The function `tsk_join` keeps every join slot at one task at most: it puts
its caller in a slot only when the slot is empty. -/
theorem OneJoiner_join (tsk : Nat) (k : System) (h : OneJoiner k) :
    OneJoiner (tsk_join tsk k).2 := by
  unfold tsk_join
  split
  · exact OneJoiner_shrinks (JoinShrinks_reclaim tsk E_FAILURE k) h
  · next hc =>
    have hj : (k.tsk tsk).join = JOINABLE := by
      by_contra hn
      exact hc (Or.inl hn)
    split
    · exact OneJoiner_shrinks (JoinShrinks_reclaim tsk E_SUCCESS k) h
    · unfold core_tsk_waitFor
      dsimp only
      intro u
      have hb := block_join_waiting (Queue.join tsk)
        (setTsk k k.cur { k.tsk k.cur with start := k.cnt, delay := INFINITE }) u
      have hs : ((setTsk k k.cur { k.tsk k.cur with start := k.cnt, delay := INFINITE }).tsk u).join
          = (k.tsk u).join := by
        rw [setTsk_apply]
        by_cases hu : u = k.cur
        · subst hu; simp
        · simp [hu]
      rw [hs] at hb
      by_cases hu : tsk = u
      · subst hu
        rw [if_pos rfl, hj] at hb
        exact hb
      · rw [if_neg (fun e => hu (by cases e; rfl))] at hb
        exact Nat.le_trans hb (h u)

/-- Every event of the kernel keeps every join slot at one task at most. -/
theorem stepK_one_joiner (k : System) (e : KEv) (h : OneJoiner k) : OneJoiner (stepK k e) := by
  cases e with
  | run c => exact h
  | init t p st => exact OneJoiner_shrinks (JoinShrinks_init t p st k).1 h
  | create t p st => exact OneJoiner_shrinks (JoinShrinks_init t p st k).2.1 h
  | createDetached t p st => exact OneJoiner_shrinks (JoinShrinks_init t p st k).2.2 h
  | start t => exact OneJoiner_shrinks (JoinShrinks_start t fun_t.core_tsk_idle k).1 h
  | startFrom t st => exact OneJoiner_shrinks (JoinShrinks_start t st k).2 h
  | detach t => exact OneJoiner_shrinks (JoinShrinks_detach t k) h
  | join t => exact OneJoiner_join t k h
  | joinResumed t => exact OneJoiner_shrinks (JoinShrinks_reclaim t _ k) h
  | stop => exact OneJoiner_shrinks (JoinShrinks_stop k) h
  | kill t => exact OneJoiner_shrinks (JoinShrinks_kill t k) h
  | delete t => exact OneJoiner_shrinks (JoinShrinks_delete t k) h
  | suspend t => exact OneJoiner_shrinks (JoinShrinks_suspend_resume t k).1 h
  | resume t => exact OneJoiner_shrinks (JoinShrinks_suspend_resume t k).2 h
  | flagWaitFor f d => exact OneJoiner_shrinks (JoinShrinks_flags f d k).1 h
  | flagWaitUntil f d => exact OneJoiner_shrinks (JoinShrinks_flags f d k).2 h
  | flagGive t f => exact OneJoiner_shrinks (JoinShrinks_give t f k) h
  | sleepFor d => exact OneJoiner_shrinks (JoinShrinks_sleep d k).1 h
  | sleepNext d => exact OneJoiner_shrinks (JoinShrinks_sleep d k).2.1 h
  | sleepUntil d => exact OneJoiner_shrinks (JoinShrinks_sleep d k).2.2 h
  | semInit s i l => exact OneJoiner_shrinks (JoinShrinks_setSem k s _) h
  | semKill s => exact OneJoiner_shrinks (JoinShrinks_sem_kill s k) h
  | semTake s => exact OneJoiner_shrinks (JoinShrinks_sem_take s k) h
  | semGive s => exact OneJoiner_shrinks (JoinShrinks_sem_give s k) h
  | semWaitFor s d => exact OneJoiner_shrinks (JoinShrinks_sem_block s d k).1 h
  | semWaitUntil s d => exact OneJoiner_shrinks (JoinShrinks_sem_block s d k).2.1 h
  | semSendFor s d => exact OneJoiner_shrinks (JoinShrinks_sem_block s d k).2.2.1 h
  | semSendUntil s d => exact OneJoiner_shrinks (JoinShrinks_sem_block s d k).2.2.2 h
  | terminator => exact OneJoiner_shrinks (JoinShrinks_terminator k) h
  | timeout t => exact OneJoiner_shrinks (JoinShrinks_wakeup (some t) E_TIMEOUT k) h

theorem runK_one_joiner (evs : List KEv) (k : System) (h : OneJoiner k) :
    OneJoiner (runK evs k) := by
  unfold runK
  induction evs generalizing k with
  | nil => exact h
  | cons e rest ih => exact ih (stepK k e) (stepK_one_joiner k e h)

/-- In the cleared kernel every join slot is empty. -/
theorem sysZero_one_joiner : OneJoiner sysZero := fun _ => Nat.zero_le _

/-- C22 -- at most one joiner.  For every task `tsk` whose join slot already
holds a waiting task (`join` is neither `JOINABLE` nor `DETACHED`), whatever its
id, a `tsk_join` by any task returns `E_FAILURE` at once and leaves the kernel
state as it was: the caller is not blocked and is on no queue it was not on,
the slot and the record of the first joiner are unchanged, the storage of the
target is not released.  Consequently, from a state in which no join slot
holds more than one task (such as the cleared kernel), no history of services
of the kernel, time-outs and dispatches leads to a state in which a join slot
holds more than one waiting task. -/
theorem tsk_join_at_most_one (tsk : Nat) (k : System) :
    (((k.tsk tsk).join ≠ JOINABLE ∧ (k.tsk tsk).join ≠ Join.detached) →
      (tsk_join tsk k).1 = Ret.val E_FAILURE ∧
      (tsk_join tsk k).2 = k ∧
      ((tsk_join tsk k).2.tsk k.cur).id = (k.tsk k.cur).id ∧
      ((tsk_join tsk k).2.tsk k.cur).guard = (k.tsk k.cur).guard ∧
      (∀ q, getQueue (tsk_join tsk k).2 q = getQueue k q) ∧
      ((tsk_join tsk k).2.tsk tsk).join = (k.tsk tsk).join ∧
      (∀ J, (k.tsk tsk).join.head = some J → (tsk_join tsk k).2.tsk J = k.tsk J) ∧
      ((tsk_join tsk k).2.tsk tsk).res = (k.tsk tsk).res) ∧
    (OneJoiner k → ∀ evs : List KEv, OneJoiner (runK evs k) ∧
      ∀ t l, ((runK evs k).tsk t).join = Join.slot l → l.length ≤ 1) := by
  constructor
  · intro h
    have e : tsk_join tsk k = (Ret.val E_FAILURE, k) := by
      cases hj : (k.tsk tsk).join with
      | detached => exact absurd hj h.2
      | slot l =>
        cases l with
        | nil => exact absurd hj h.1
        | cons j rest => exact tsk_join_refused tsk k j rest hj
    rw [e]
    exact ⟨rfl, rfl, rfl, rfl, fun _ => rfl, rfl, fun _ _ => rfl, rfl⟩
  · intro h evs
    have hr := runK_one_joiner evs k h
    refine ⟨hr, ?_⟩
    intro t l hl
    have := hr t
    rw [hl] at this
    exact this

/-- Witness for C22: after the history `evJoined` from the cleared kernel, J
(task 2) waits in the join slot of the running task T (task 1) and K (task 3)
is the current task; `join(T)` by K returns `E_FAILURE`, changes nothing, and
the slot still holds J alone. -/
theorem tsk_join_at_most_one_witness :
    (((runK evJoined sysZero).tsk 1).join = Join.slot [2] ∧
      ((runK evJoined sysZero).tsk 1).id = ID_READY ∧
      (runK evJoined sysZero).cur = 3 ∧
      ((runK evJoined sysZero).tsk 2).guard = some (Queue.join 1)) ∧
    ((tsk_join 1 (runK evJoined sysZero)).1 = Ret.val E_FAILURE ∧
      (tsk_join 1 (runK evJoined sysZero)).2 = runK evJoined sysZero) ∧
    (OneJoiner sysZero ∧ OneJoiner (runK (evJoined ++ [KEv.join 1]) sysZero) ∧
      ((runK (evJoined ++ [KEv.join 1]) sysZero).tsk 1).join = Join.slot [2]) :=
  ⟨by decide,
   ⟨((tsk_join_at_most_one 1 (runK evJoined sysZero)).1 (by decide)).1,
    ((tsk_join_at_most_one 1 (runK evJoined sysZero)).1 (by decide)).2.1⟩,
   ⟨sysZero_one_joiner,
    ((tsk_join_at_most_one 1 sysZero).2 sysZero_one_joiner (evJoined ++ [KEv.join 1])).1,
    by decide⟩⟩

end StateOS
